import Mathlib

/-!
# Cinemarwa front end: the mobile-money payment confirmation flow

A shallow embedding of the purchase flow of `src/pages/Payment.jsx` together with
the reducer cases of `src/store/slices/paymentSlice.js` that the page observes.

The React component is modelled as an event-driven state machine:

* `Local` holds the values of the `useState` cells of `Payment`;
* `Payments` holds the fields of the Redux slice `payments`;
* `World` adds what lives outside both: the running `setInterval` timer with the
  values its callback closed over, the status queries that are awaiting their
  response (each with the closure of the callback that issued it), the dependency
  arrays of the last run of the two effects, and logs of the requests issued and of
  the navigations scheduled with `setTimeout`.

Every event (`Event`) is one JavaScript task: a user action, a timer tick, the
arrival of a response, or a dispatch to the store from outside the page.  After the
task the component re-renders and the effects whose dependencies changed run
(`settle`).

Beside the flow the file embeds the pure functions around it: `validatePhone` and the
phone number of the request, `getOrCreateDeviceFingerprint` over an explicit
`localStorage`, the reducer of the `auth` slice, the status case of the `payments`
slice on whole objects with `paymentHistory`, the thunk `getPaymentHistory` with its
two call sites, and `formatDuration`.
-/

namespace Cinemarwa

/-! ## JavaScript values -/

/-- Truthiness of an optional string: `undefined`, `null` and `""` are falsy. -/
def truthy : Option String → Bool
  | some s => s != ""
  | none => false

/-- The JavaScript expression `a || b` on optional strings. -/
def jsOr (a b : Option String) : Option String :=
  if truthy a then a else b

/-- The JavaScript expression `a || d` where `d` is a non-empty string literal. -/
def jsOrDefault (a : Option String) (d : String) : String :=
  match a with
  | some s => if s != "" then s else d
  | none => d

/-- Rendering of an optional string inside a template literal. -/
def interpolate : Option String → String
  | some s => s
  | none => "undefined"

/-- The route `/payment-success/${id}`. -/
def successPath (id : Option String) : String :=
  "/payment-success/" ++ interpolate id

/-! ## Data model -/

/-- The values taken by `step` in `Payment` (Payment.jsx line 42). -/
inductive Step where
  | choose
  | confirm
  | processing
  | verifying
  | success
  | failed
  deriving DecidableEq, Repr

/-- The object held in `state.currentTransaction`.  Only its `transactionId` is read by
the page; `ref` stands for the identity of the object, which is what React compares
when it decides whether a dependency changed. -/
structure Transaction where
  transactionId : Option String
  ref : Nat
  deriving DecidableEq, Repr

/-- The fields of the `payments` slice (paymentSlice.js lines 128-152) without the
history and withdrawal lists. -/
structure Payments where
  currentTransaction : Option Transaction := none
  loading : Bool := false
  error : Option String := none
  success : Bool := false
  polling : Bool := false
  paymentStatus : Option String := none
  gatewayStatus : Option String := none
  withdrawalsProcessed : Bool := false
  deriving DecidableEq, Repr

/-- The `data` member of the body of a status response. -/
structure StatusData where
  paymentStatus : Option String := none
  reason : Option String := none
  transactionId : Option String := none
  status : Option String := none
  deriving DecidableEq, Repr

/-- The body of a status response (`response.data` of `GET /momo/status/:id`), with
the members that the page and the reducer read.  `StatusData.paymentStatus` is
`data.payment?.paymentStatus`. -/
structure StatusResult where
  data : Option StatusData := none
  status : Option String := none
  reason : Option String := none
  transactionId : Option String := none
  deriving DecidableEq, Repr

/-- The `data` member of the body of an initiation response.  `gatewayStatus` is
`data.customerTransaction?.gatewayStatus` and `withdrawals` is `!!data.withdrawals`. -/
structure InitData where
  transactionId : Option String := none
  status : Option String := none
  gatewayStatus : Option String := none
  withdrawals : Bool := false
  deriving DecidableEq, Repr

/-- The body of an initiation response (`response.data` of `POST /momo`).  `success` is
the truthiness of `result.success`. -/
structure InitResult where
  success : Bool := false
  transactionId : Option String := none
  status : Option String := none
  message : Option String := none
  data : Option InitData := none
  deriving DecidableEq, Repr

/-- The `useState` cells of `Payment` that take part in the purchase flow
(Payment.jsx lines 43-58). -/
structure Local where
  step : Step
  paymentType : String := "watch"
  phone : String := ""
  formError : String := ""
  processing : Bool := false
  transactionId : Option String := none
  localPaymentStatus : Option String := none
  statusMessage : String := ""
  pollCount : Nat := 0
  deriving DecidableEq, Repr

/-- A `setInterval` timer created by the polling effect: its handle `id` and the values
of `transactionId` and `pollCount` that its callback closed over. -/
structure Poller where
  id : Nat
  transactionId : String
  pollCount : Nat
  deriving DecidableEq, Repr

/-- The dependency array of the gateway-success effect (Payment.jsx line 110), without
the stable `navigate`. -/
abbrev GatewayDeps := Option Transaction × Option String

/-- The dependency array of the polling effect (Payment.jsx line 161), without the
stable `dispatch` and `navigate`. -/
abbrev PollingDeps := Option String × Step × Nat × Option String

/-- The page, the store and the environment of the page. -/
structure World where
  ui : Local
  store : Payments := {}
  gatewayDeps : Option GatewayDeps := none
  pollingDeps : Option PollingDeps := none
  interval : Option Poller := none
  inflight : List Poller := []
  nextInterval : Nat := 0
  nextRef : Nat := 0
  initRequests : List String := []
  statusQueries : List String := []
  awaitingInit : Bool := false
  navigations : List String := []
  deriving DecidableEq, Repr

/-- The constant `maxPolls` (Payment.jsx line 59). -/
def maxPolls : Nat := 30

/-! ## Phone validation (Payment.jsx lines 181-187) -/

/-- The characters matched by `\s` in a JavaScript regular expression. -/
def isJsSpace (c : Char) : Bool :=
  c.val = 0x09 || c.val = 0x0A || c.val = 0x0B || c.val = 0x0C || c.val = 0x0D ||
  c.val = 0x20 || c.val = 0xA0 || c.val = 0x1680 ||
  (0x2000 ≤ c.val && c.val ≤ 0x200A) ||
  c.val = 0x2028 || c.val = 0x2029 || c.val = 0x202F || c.val = 0x205F ||
  c.val = 0x3000 || c.val = 0xFEFF

/-- The characters matched by `\d` in a JavaScript regular expression. -/
def isJsDigit (c : Char) : Bool :=
  0x30 ≤ c.val && c.val ≤ 0x39

/-- The string `p.replace(/\s/g, "")`, as a list of characters. -/
def removeSpaces (p : String) : List Char :=
  p.toList.filter (fun c => !isJsSpace c)

/-- The test `/^\+?250\d{9}$/`. -/
def matchesInternational (cs : List Char) : Bool :=
  let body := match cs with
    | '+' :: rest => rest
    | other => other
  match body with
  | '2' :: '5' :: '0' :: ds => ds.length = 9 && ds.all isJsDigit
  | _ => false

/-- The test `/^07\d{8}$/`. -/
def matchesLocal (cs : List Char) : Bool :=
  match cs with
  | '0' :: '7' :: ds => ds.length = 8 && ds.all isJsDigit
  | _ => false

/-- The function `validatePhone`: `none` is JavaScript `null` (the number is accepted),
`some msg` is the error message. -/
def validatePhone (p : String) : Option String :=
  let cleaned := removeSpaces p
  if cleaned.isEmpty then some "Phone number is required"
  else if matchesInternational cleaned then none
  else if matchesLocal cleaned then none
  else some "Please enter a valid phone number (e.g. 0788123456)"

/-- The phone number put in the request payload (Payment.jsx lines 216-221). -/
def formatPhone (phone : String) : String :=
  let cleaned := removeSpaces phone
  match cleaned with
  | '0' :: rest => String.mk ('0' :: rest)
  | '+' :: rest => String.mk ('+' :: rest)
  | other => String.mk ('0' :: other)

/-! ## Reducer cases of the `payments` slice -/

/-- The case `processMoMoPayment.pending` (paymentSlice.js lines 179-183). -/
def processMoMoPayment_pending (s : Payments) : Payments :=
  { s with loading := true, error := none, success := false }

/-- The case `processMoMoPayment.fulfilled` (paymentSlice.js lines 184-195).
`action.payload.data || action.payload` is a fresh object, identified by `ref`. -/
def processMoMoPayment_fulfilled (s : Payments) (payload : InitResult) (ref : Nat) :
    Payments :=
  let currentTransaction : Transaction :=
    match payload.data with
    | some d => { transactionId := d.transactionId, ref := ref }
    | none => { transactionId := payload.transactionId, ref := ref }
  let paymentStatus := jsOr (payload.data.bind (fun d => d.status)) payload.status
  let gatewayStatus := payload.data.bind (fun d => d.gatewayStatus)
  let withdrawalsProcessed :=
    match payload.data with
    | some d => d.withdrawals
    | none => false
  { s with
    loading := false
    currentTransaction := some currentTransaction
    paymentStatus := paymentStatus
    gatewayStatus := gatewayStatus
    withdrawalsProcessed := withdrawalsProcessed
    success :=
      if gatewayStatus = some "SUCCESSFUL" || paymentStatus = some "SUCCESSFUL" then true
      else s.success }

/-- The case `processMoMoPayment.rejected` (paymentSlice.js lines 196-200). -/
def processMoMoPayment_rejected (s : Payments) (payload : Option String) : Payments :=
  { s with loading := false, error := payload, success := false }

/-- The case `checkMoMoPaymentStatus.pending` (paymentSlice.js lines 204-206). -/
def checkMoMoPaymentStatus_pending (s : Payments) : Payments :=
  { s with polling := true }

/-- The object `action.payload.data || action.payload` of the status reducer:
its `transactionId`, `status` and `reason`. -/
def responseData (payload : StatusResult) : Option String × Option String × Option String :=
  match payload.data with
  | some d => (d.transactionId, d.status, d.reason)
  | none => (payload.transactionId, payload.status, payload.reason)

/-- The case `checkMoMoPaymentStatus.fulfilled` (paymentSlice.js lines 207-236), without
the update of `paymentHistory`.  When the ids agree the current transaction is replaced
by a merged copy, a fresh object identified by `ref`; its `transactionId` is the one
both objects share. -/
def checkMoMoPaymentStatus_fulfilled (s : Payments) (payload : StatusResult) (ref : Nat) :
    Payments :=
  let (rid, rstatus, rreason) := responseData payload
  let currentId := s.currentTransaction.bind (fun t => t.transactionId)
  let currentTransaction :=
    if currentId = rid then some { transactionId := rid, ref := ref }
    else s.currentTransaction
  { s with
    polling := false
    currentTransaction := currentTransaction
    paymentStatus := rstatus
    success := if rstatus = some "SUCCESSFUL" then true else s.success
    error :=
      if rstatus = some "SUCCESSFUL" then s.error
      else if rstatus = some "FAILED" then jsOr rreason (some "Payment failed")
      else s.error }

/-- The case `checkMoMoPaymentStatus.rejected` (paymentSlice.js lines 237-240). -/
def checkMoMoPaymentStatus_rejected (s : Payments) (payload : Option String) : Payments :=
  { s with polling := false, error := payload }

/-- The reducer `updatePaymentStatus` (paymentSlice.js lines 169-174). -/
def updatePaymentStatus (s : Payments) (status gatewayStatus : Option String) : Payments :=
  { s with
    paymentStatus := status
    gatewayStatus := if truthy gatewayStatus then gatewayStatus else s.gatewayStatus }

/-- The reducer `clearTransaction` (paymentSlice.js lines 160-165). -/
def clearTransaction (s : Payments) : Payments :=
  { s with
    currentTransaction := none
    paymentStatus := none
    gatewayStatus := none
    withdrawalsProcessed := false }

/-- The rejection value of the thunk `processMoMoPayment` (paymentSlice.js lines 14-18);
the arguments are `error.response?.data?.message` and `error.response?.data?.error`. -/
def processMoMoPayment_rejectValue (message error : Option String) : Option String :=
  jsOr (jsOr message error) (some "MoMo payment failed")

/-- The rejection value of the thunk `checkMoMoPaymentStatus` (paymentSlice.js lines
31-34). -/
def checkMoMoPaymentStatus_rejectValue (message : Option String) : Option String :=
  jsOr message (some "Status check failed")

/-! ## The two effects of `Payment` -/

/-- The body of the gateway-success effect (Payment.jsx lines 98-110). -/
def gatewayEffect (w : World) : World :=
  match w.store.currentTransaction with
  | some tx =>
    if w.store.gatewayStatus = some "SUCCESSFUL" then
      { w with
        ui := { w.ui with
          localPaymentStatus := some "SUCCESSFUL"
          statusMessage := "Payment confirmed! Access granted."
          step := Step.success }
        navigations := w.navigations ++ [successPath tx.transactionId] }
    else w
  | none => w

/-- The body of the polling effect up to the creation of the timer (Payment.jsx lines
113-116 and 158), reading the values of the render `r`.  The guard is
`!transactionId || step !== "verifying" || gatewayStatus === 'SUCCESSFUL'`. -/
def pollingEffect (r : World) (w : World) : World :=
  match r.ui.transactionId with
  | some id =>
    if id = "" ∨ r.ui.step ≠ Step.verifying ∨ r.store.gatewayStatus = some "SUCCESSFUL" then w
    else
      { w with
        interval := some { id := w.nextInterval, transactionId := id,
                           pollCount := r.ui.pollCount }
        nextInterval := w.nextInterval + 1 }
  | none => w

/-- The dependencies of the gateway-success effect in the render `r`. -/
def gatewayDepsOf (r : World) : GatewayDeps :=
  (r.store.currentTransaction, r.store.gatewayStatus)

/-- The dependencies of the polling effect in the render `r`. -/
def pollingDepsOf (r : World) : PollingDeps :=
  (r.ui.transactionId, r.ui.step, r.ui.pollCount, r.store.gatewayStatus)

/-- One render and commit.  Both effects see the values of this render (`r`); an effect
runs when it has not run yet or one of its dependencies changed.  The cleanup of the
polling effect, `clearInterval(pollInterval)`, runs before its body runs again. -/
def renderPass (r : World) : World :=
  let w1 :=
    if r.gatewayDeps = some (gatewayDepsOf r) then r
    else gatewayEffect { r with gatewayDeps := some (gatewayDepsOf r) }
  if r.pollingDeps = some (pollingDepsOf r) then w1
  else pollingEffect r { w1 with pollingDeps := some (pollingDepsOf r), interval := none }

/-- Re-rendering until no effect is due.  Only the gateway-success effect sets state,
and it does not change its own dependencies, so two passes suffice
(`renderPass_settle`). -/
def settle (w : World) : World :=
  renderPass (renderPass w)

/-- Holds when no effect is due: both effects have run on the current values. -/
def Settled (w : World) : Prop :=
  w.gatewayDeps = some (gatewayDepsOf w) ∧ w.pollingDeps = some (pollingDepsOf w)

instance (w : World) : Decidable (Settled w) := by
  unfold Settled
  infer_instance

/-! ## Event handlers of `Payment` -/

/-- The handler `handleStartPayment` (Payment.jsx lines 189-195). -/
def handleStartPayment (type : String) (w : World) : World :=
  { w with ui := { w.ui with
      paymentType := type
      step := Step.confirm
      formError := ""
      localPaymentStatus := none
      statusMessage := "" } }

/-- The handler of the button "Change selection" (Payment.jsx lines 529-532). -/
def changeSelection (w : World) : World :=
  { w with ui := { w.ui with step := Step.choose, formError := "" } }

/-- The handler `doMoMoPayment` up to the point where it awaits the dispatch
(Payment.jsx lines 197-235).  The dispatch runs the `pending` case of the slice and
sends the request; the log keeps the `phoneNumber` of the payload. -/
def doMoMoPayment (w : World) : World :=
  let ui := { w.ui with formError := "", localPaymentStatus := none, statusMessage := "" }
  match validatePhone w.ui.phone with
  | some phoneErr => { w with ui := { ui with formError := phoneErr } }
  | none =>
    { w with
      ui := { ui with processing := true, step := Step.processing }
      store := processMoMoPayment_pending w.store
      initRequests := w.initRequests ++ [formatPhone w.ui.phone]
      awaitingInit := true }

/-- The message of the `TypeError` raised by `result.data.transactionId` when
`result.data` is missing (the wording is the one of V8). -/
def typeErrorMessage : String :=
  "Cannot read properties of undefined (reading 'transactionId')"

/-- The `catch` branch of `doMoMoPayment` (Payment.jsx lines 264-270); `message` is
`err.message || err`. -/
def doMoMoPayment_catch (message : Option String) (w : World) : World :=
  { w with ui := { w.ui with
      processing := false
      step := Step.confirm
      formError := jsOrDefault message "Payment processing failed. Please try again." } }

/-- The handler `doMoMoPayment` after the dispatch resolved with `result`
(Payment.jsx lines 237-263). -/
def doMoMoPayment_resolved (result : InitResult) (w : World) : World :=
  if result.success && truthy result.transactionId then
    match result.data with
    | none => doMoMoPayment_catch (some typeErrorMessage) w
    | some d =>
      let txId := d.transactionId
      let ui := { w.ui with transactionId := txId, processing := false }
      if result.status = some "SUCCESSFUL" then
        { w with
          ui := { ui with
            step := Step.success
            statusMessage := "Payment confirmed! Access granted." }
          navigations := w.navigations ++ [successPath txId] }
      else
        { w with
          ui := { ui with
            step := Step.verifying
            statusMessage := "Payment request sent. Please approve on your phone..."
            pollCount := 0 } }
  else
    { w with ui := { w.ui with
        processing := false
        step := Step.confirm
        formError := jsOrDefault result.message "Payment initiation failed. Please try again." } }

/-- The handler `retryPayment` (Payment.jsx lines 273-280). -/
def retryPayment (w : World) : World :=
  { w with ui := { w.ui with
      step := Step.confirm
      formError := ""
      localPaymentStatus := none
      statusMessage := ""
      transactionId := none
      pollCount := 0 } }

/-- The call `clearInterval(pollInterval)` made by a callback of the timer `id`. -/
def clearInterval (id : Nat) (w : World) : World :=
  match w.interval with
  | some p => if p.id = id then { w with interval := none } else w
  | none => w

/-- The branch taken by the timer callback when the maximum is reached
(Payment.jsx lines 143-149). -/
def onTimeout (p : Poller) (w : World) : World :=
  let w := clearInterval p.id w
  { w with ui := { w.ui with
      localPaymentStatus := some "TIMEOUT"
      statusMessage := "Payment verification timeout. Please check your transaction history."
      formError := "Payment is taking longer than expected. Your transaction may still process."
      step := Step.failed } }

/-- The value `result.data?.payment?.paymentStatus || result.status` (Payment.jsx line
119). -/
def statusOf (result : StatusResult) : Option String :=
  jsOr (result.data.bind (fun d => d.paymentStatus)) result.status

/-- The value `result.data?.reason || result.reason || "Payment was declined"`
(Payment.jsx line 133). -/
def reasonOf (result : StatusResult) : String :=
  jsOrDefault (jsOr (result.data.bind (fun d => d.reason)) result.reason)
    "Payment was declined"

/-- The timer callback after its status query resolved with `result`
(Payment.jsx lines 119-149).  `p` holds the values the callback closed over. -/
def onStatusResult (p : Poller) (result : StatusResult) (w : World) : World :=
  let status := statusOf result
  let w1 :=
    if status = some "succeeded" ∨ status = some "SUCCESSFUL" then
      let w := clearInterval p.id w
      { w with
        ui := { w.ui with
          localPaymentStatus := some "SUCCESSFUL"
          statusMessage := "Payment confirmed! Granting access..."
          step := Step.success }
        navigations := w.navigations ++ [successPath (some p.transactionId)] }
    else if status = some "failed" ∨ status = some "FAILED" then
      let w := clearInterval p.id w
      let reason := reasonOf result
      { w with ui := { w.ui with
          localPaymentStatus := some "FAILED"
          statusMessage := reason
          formError := reason
          step := Step.failed } }
    else
      { w with ui := { w.ui with
          statusMessage := "Waiting for payment confirmation..."
          pollCount := w.ui.pollCount + 1 } }
  if p.pollCount ≥ maxPolls then onTimeout p w1 else w1

/-- The timer callback after its status query was rejected (Payment.jsx lines
150-157). -/
def onStatusError (p : Poller) (w : World) : World :=
  if p.pollCount ≥ 5 then
    let w := clearInterval p.id w
    { w with ui := { w.ui with
        formError := "Unable to verify payment status. Please contact support."
        step := Step.failed } }
  else w

/-- The timer fires (Payment.jsx lines 116-118): the callback dispatches the status
query for the id it closed over and waits for the response. -/
def tick (w : World) : World :=
  match w.interval with
  | some p =>
    { w with
      store := checkMoMoPaymentStatus_pending w.store
      statusQueries := w.statusQueries ++ [p.transactionId]
      inflight := w.inflight ++ [p] }
  | none => w

/-! ## The transition system -/

/-- The tasks that can run while the page is mounted. -/
inductive Event where
  /-- The user picks "watch" or "download" (shown in step `choose`). -/
  | handleStartPayment (type : String)
  /-- The user presses "Change selection" (shown in step `confirm`). -/
  | changeSelection
  /-- The user edits the phone field (shown in step `confirm`). -/
  | setPhone (phone : String)
  /-- The user submits the form (shown in step `confirm`). -/
  | doMoMoPayment
  /-- The user presses "Try Again" (shown in step `failed`). -/
  | retryPayment
  /-- The initiation request resolves with the body `result`. -/
  | initFulfilled (result : InitResult)
  /-- The initiation request fails; the arguments are `error.response?.data?.message`
  and `error.response?.data?.error`. -/
  | initRejected (message error : Option String)
  /-- The polling timer fires. -/
  | tick
  /-- The status query at position `i` of the pending ones resolves with `result`. -/
  | statusFulfilled (i : Nat) (result : StatusResult)
  /-- The status query at position `i` of the pending ones fails; `message` is
  `error.response?.data?.message`. -/
  | statusRejected (i : Nat) (message : Option String)
  /-- Some code outside the page dispatches `updatePaymentStatus`. -/
  | updatePaymentStatus (status gatewayStatus : Option String)
  /-- Some code outside the page dispatches `clearTransaction`. -/
  | clearTransaction
  deriving DecidableEq, Repr

/-- The task of an event, before the page re-renders.  A user action has an effect only
in the step that shows its control, a response only when its request is pending.  When a
response arrives, the store is updated and the page re-rendered before the code after
`await` resumes. -/
def applyEvent (w : World) : Event → World
  | Event.handleStartPayment type =>
    if w.ui.step = Step.choose then handleStartPayment type w else w
  | Event.changeSelection =>
    if w.ui.step = Step.confirm ∧ w.ui.processing = false then changeSelection w else w
  | Event.setPhone phone =>
    if w.ui.step = Step.confirm ∧ w.ui.processing = false then
      { w with ui := { w.ui with phone := phone } }
    else w
  | Event.doMoMoPayment =>
    if w.ui.step = Step.confirm ∧ w.ui.processing = false then doMoMoPayment w else w
  | Event.retryPayment =>
    if w.ui.step = Step.failed then retryPayment w else w
  | Event.initFulfilled result =>
    if w.awaitingInit then
      doMoMoPayment_resolved result
        (settle { w with
          awaitingInit := false
          store := processMoMoPayment_fulfilled w.store result w.nextRef
          nextRef := w.nextRef + 1 })
    else w
  | Event.initRejected message error =>
    if w.awaitingInit then
      doMoMoPayment_catch (processMoMoPayment_rejectValue message error)
        (settle { w with
          awaitingInit := false
          store := processMoMoPayment_rejected w.store
            (processMoMoPayment_rejectValue message error) })
    else w
  | Event.tick => tick w
  | Event.statusFulfilled i result =>
    match w.inflight.get? i with
    | some p =>
      onStatusResult p result
        (settle { w with
          inflight := w.inflight.eraseIdx i
          store := checkMoMoPaymentStatus_fulfilled w.store result w.nextRef
          nextRef := w.nextRef + 1 })
    | none => w
  | Event.statusRejected i message =>
    match w.inflight.get? i with
    | some p =>
      onStatusError p
        (settle { w with
          inflight := w.inflight.eraseIdx i
          store := checkMoMoPaymentStatus_rejected w.store
            (checkMoMoPaymentStatus_rejectValue message) })
    | none => w
  | Event.updatePaymentStatus status gatewayStatus =>
    { w with store := updatePaymentStatus w.store status gatewayStatus }
  | Event.clearTransaction =>
    { w with store := clearTransaction w.store }

/-- One event followed by the re-render of the page. -/
def step (w : World) (e : Event) : World :=
  settle (applyEvent w e)

/-- A sequence of events, in order. -/
def run (w : World) (es : List Event) : World :=
  es.foldl step w

/-- The page right after it mounted: the initial values of the state cells
(Payment.jsx lines 43-58, `type` is `searchParams.get("type")`) and the first run of
both effects, over the store as it is at that moment. -/
def mount (type : Option String) (store : Payments) : World :=
  settle
    { ui := { step := if truthy type then Step.confirm else Step.choose
              paymentType := jsOrDefault type "watch" }
      store := store
      nextRef := match store.currentTransaction with
        | some tx => tx.ref + 1
        | none => 0 }

/-! ## States and inputs used in the statements -/

/-- The poller is running for transaction `id` with `k` counted polls: the page is in
step `verifying`, no effect is due, the store does not report gateway success, the
timer closed over `id` and `k`, and no status query is awaiting its response. -/
def Polling (w : World) (id : String) (k : Nat) : Prop :=
  w.ui.step = Step.verifying ∧ w.ui.transactionId = some id ∧ id ≠ "" ∧
  w.ui.pollCount = k ∧ w.store.gatewayStatus ≠ some "SUCCESSFUL" ∧ Settled w ∧
  w.interval.map (fun p => (p.transactionId, p.pollCount)) = some (id, k) ∧
  w.inflight = []

instance (w : World) (id : String) (k : Nat) : Decidable (Polling w id k) := by
  unfold Polling
  infer_instance

/-- The flow has ended for the page: the step is `success` or `failed`, no effect is due,
no timer is running and no status query is awaiting its response. -/
def Terminal (w : World) : Prop :=
  (w.ui.step = Step.success ∨ w.ui.step = Step.failed) ∧ Settled w ∧
  w.interval = none ∧ w.inflight = []

instance (w : World) : Decidable (Terminal w) := by
  unfold Terminal
  infer_instance

/-- A status response that reports neither success nor failure, such as `PENDING`. -/
def NonTerminal (result : StatusResult) : Prop :=
  statusOf result ≠ some "succeeded" ∧ statusOf result ≠ some "SUCCESSFUL" ∧
  statusOf result ≠ some "failed" ∧ statusOf result ≠ some "FAILED"

instance (result : StatusResult) : Decidable (NonTerminal result) := by
  unfold NonTerminal
  infer_instance

/-- One tick of the timer followed by the response `result` to its query. -/
def pollRound (result : StatusResult) : List Event :=
  [Event.tick, Event.statusFulfilled 0 result]

/-- One tick of the timer followed by the failure of its query. -/
def errorRound (message : Option String) : List Event :=
  [Event.tick, Event.statusRejected 0 message]

/-- The events `n` times in a row. -/
def repeatEvents (n : Nat) (es : List Event) : List Event :=
  match n with
  | 0 => []
  | n + 1 => es ++ repeatEvents n es

/-- An initiation response that reports a pending payment for transaction `id`. -/
def pendingInit (id : String) : InitResult :=
  { success := true
    transactionId := some id
    status := some "PENDING"
    data := some { transactionId := some id, status := some "PENDING" } }

/-- An initiation response whose top-level status is `SUCCESSFUL`, with no gateway status
inside `data.customerTransaction`. -/
def immediateInit (id : String) : InitResult :=
  { success := true
    transactionId := some id
    status := some "SUCCESSFUL"
    data := some { transactionId := some id, status := some "SUCCESSFUL" } }

/-- An initiation response whose top-level status is `SUCCESSFUL` and whose
`data.customerTransaction.gatewayStatus` is `SUCCESSFUL` as well. -/
def gatewayInit (id : String) : InitResult :=
  { success := true
    transactionId := some id
    status := some "SUCCESSFUL"
    data := some { transactionId := some id, status := some "SUCCESSFUL",
                   gatewayStatus := some "SUCCESSFUL" } }

/-- An initiation response in the shape of the wire contract, `{success, transactionId,
status}`, with no `data` member. -/
def flatInit (id status : String) : InitResult :=
  { success := true, transactionId := some id, status := some status }

/-- A status response `PENDING` for transaction `id`. -/
def pendingStatus (id : String) : StatusResult :=
  { status := some "PENDING", transactionId := some id }

/-- A status response `SUCCESSFUL`, in the shape of the wire contract
`{status, reason?}`. -/
def successStatus : StatusResult :=
  { status := some "SUCCESSFUL" }

/-- A status response `FAILED` with an optional reason. -/
def failedStatus (reason : Option String) : StatusResult :=
  { status := some "FAILED", reason := reason }

/-- A purchase on a freshly mounted page over an empty store: the user enters a valid
phone number and submits, and the initiation request resolves with `result`. -/
def purchase (result : InitResult) : World :=
  run (mount (some "watch") {})
    [Event.setPhone "0788123456", Event.doMoMoPayment, Event.initFulfilled result]

/-- The page after a purchase of transaction `id` for which the initiation reported
`PENDING`. -/
def verifyingWorld (id : String) : World :=
  purchase (pendingInit id)

/-- The gateway-success effect is due in `w` and its condition holds: one of
`currentTransaction` and `gatewayStatus` differs from the last run of the effect,
`currentTransaction` is set and `gatewayStatus` is `SUCCESSFUL`. -/
def GatewayFires (w : World) : Prop :=
  w.gatewayDeps ≠ some (gatewayDepsOf w) ∧ w.store.currentTransaction ≠ none ∧
  w.store.gatewayStatus = some "SUCCESSFUL"

instance (w : World) : Decidable (GatewayFires w) := by
  unfold GatewayFires
  infer_instance

/-- The status observations that can reach the page while no status query is pending:
a timer tick and the two store updates dispatched from outside the page. -/
def Observation : Event → Prop
  | Event.tick => True
  | Event.updatePaymentStatus _ _ => True
  | Event.clearTransaction => True
  | _ => False

instance (e : Event) : Decidable (Observation e) := by
  cases e <;> unfold Observation <;> infer_instance

/-- The page shows the form of step `confirm` and nothing is going on: no request is
awaited, no effect is due, no timer is running and no status query is pending.  The
store may hold anything, also what an earlier attempt left in it. -/
def Idle (w : World) : Prop :=
  w.ui.step = Step.confirm ∧ w.ui.processing = false ∧ w.awaitingInit = false ∧
  Settled w ∧ w.interval = none ∧ w.inflight = []

instance (w : World) : Decidable (Idle w) := by
  unfold Idle
  infer_instance

/-- The page has dispatched `processMoMoPayment` and awaits the response: step
`processing`, no effect due, no timer running and no status query pending. -/
def Initiating (w : World) : Prop :=
  w.awaitingInit = true ∧ w.ui.step = Step.processing ∧ Settled w ∧
  w.interval = none ∧ w.inflight = []

instance (w : World) : Decidable (Initiating w) := by
  unfold Initiating
  infer_instance

/-- The initiation response passes the test `result.success && result.transactionId` of
`doMoMoPayment` and carries the non-empty `id` as `result.data.transactionId`, the
member that the handler tracks. -/
def Reports (result : InitResult) (id : String) : Prop :=
  result.success = true ∧ truthy result.transactionId = true ∧ id ≠ "" ∧
  result.data.bind (fun d => d.transactionId) = some id

instance (result : InitResult) (id : String) : Decidable (Reports result id) := by
  unfold Reports
  infer_instance

/-- The initiation response lacks success or a transaction id: the test
`result.success && result.transactionId` of `doMoMoPayment` fails. -/
def LacksSuccess (result : InitResult) : Prop :=
  (result.success && truthy result.transactionId) = false

instance (result : InitResult) : Decidable (LacksSuccess result) := by
  unfold LacksSuccess
  infer_instance

/-- One poll round for each response of the list, in order. -/
def pollRounds : List StatusResult → List Event
  | [] => []
  | r :: rs => pollRound r ++ pollRounds rs

/-- The events that can follow the start of verification without a user action and
without a new initiation: timer ticks, responses and failures of status queries, and
store updates dispatched from outside the page. -/
def Background : Event → Prop
  | Event.tick => True
  | Event.statusFulfilled _ _ => True
  | Event.statusRejected _ _ => True
  | Event.updatePaymentStatus _ _ => True
  | Event.clearTransaction => True
  | _ => False

instance (e : Event) : Decidable (Background e) := by
  cases e <;> unfold Background <;> infer_instance

/-- The page tracks transaction `id`, and so does the timer if one is running. -/
def Tracks (w : World) (id : String) : Prop :=
  w.ui.transactionId = some id ∧
  w.interval.map (fun p => p.transactionId) = (w.interval.map (fun _ => id))

instance (w : World) (id : String) : Decidable (Tracks w id) := by
  unfold Tracks
  infer_instance

/-! ## The device fingerprint (`src/utils/fingerprint.js`) -/

/-- The content of `localStorage`: the keys that hold a value, each once. -/
abbrev LocalStorage := List (String × String)

/-- The call `localStorage.getItem(key)`; `none` is `null`. -/
def getItem (ls : LocalStorage) (key : String) : Option String :=
  ls.lookup key

/-- The call `localStorage.setItem(key, value)`. -/
def setItem (ls : LocalStorage) (key value : String) : LocalStorage :=
  (key, value) :: ls.filter (fun kv => kv.1 != key)

/-- The value of a character as a digit in the given radix, for `parseInt`. -/
def digitValue (radix : Nat) (c : Char) : Option Nat :=
  let v :=
    if 0x30 ≤ c.val ∧ c.val ≤ 0x39 then some (c.val.toNat - 0x30)
    else if 0x61 ≤ c.val ∧ c.val ≤ 0x7A then some (c.val.toNat - 0x61 + 10)
    else if 0x41 ≤ c.val ∧ c.val ≤ 0x5A then some (c.val.toNat - 0x41 + 10)
    else none
  match v with
  | some d => if d < radix then some d else none
  | none => none

/-- The digits of the longest prefix of `cs` made of digits of the radix. -/
def leadingDigits (radix : Nat) : List Char → List Nat
  | [] => []
  | c :: cs =>
    match digitValue radix c with
    | some d => d :: leadingDigits radix cs
    | none => []

/-- The JavaScript call `parseInt(s)` without a radix: leading white space is skipped, a
sign and a prefix `0x` are read, then the longest run of digits; `none` is `NaN`.  The
value is the exact integer, which is what JavaScript computes below `2 ^ 53`. -/
def parseInt (s : String) : Option Int :=
  let trimmed := s.toList.dropWhile isJsSpace
  let signed : Bool × List Char :=
    match trimmed with
    | '-' :: rest => (true, rest)
    | '+' :: rest => (false, rest)
    | other => (false, other)
  let based : Nat × List Char :=
    match signed.2 with
    | '0' :: 'x' :: rest => (16, rest)
    | '0' :: 'X' :: rest => (16, rest)
    | other => (10, other)
  match leadingDigits based.1 based.2 with
  | [] => none
  | d :: ds =>
    let magnitude : Nat := (d :: ds).foldl (fun acc x => acc * based.1 + x) 0
    some (if signed.1 then - (magnitude : Int) else (magnitude : Int))

/-- The number `7 * 24 * 60 * 60 * 1000` of milliseconds in seven days. -/
def sevenDays : Int := 7 * 24 * 60 * 60 * 1000

/-- The test `shouldRegenerate` of `getOrCreateDeviceFingerprint` (fingerprint.js lines
124-126); a comparison with `NaN` is false. -/
def shouldRegenerate (fingerprint fingerprintTimestamp : Option String) (now : Nat) : Bool :=
  !truthy fingerprint || !truthy fingerprintTimestamp ||
    (match fingerprintTimestamp.bind parseInt with
     | some t => decide ((now : Int) - t > sevenDays)
     | none => false)

/-- The function `getOrCreateDeviceFingerprint` (fingerprint.js lines 118-134) with the
storage made explicit: it returns the fingerprint and the storage it leaves.  `now` is
the value of `Date.now()` during the call and `generated` the string that
`generateDeviceFingerprint()` returns in this browser.  The `catch` branch, reached
only when `localStorage` itself throws, is not part of the model. -/
def getOrCreateDeviceFingerprint (ls : LocalStorage) (now : Nat) (generated : String) :
    String × LocalStorage :=
  let fingerprint := getItem ls "deviceFingerprint"
  let fingerprintTimestamp := getItem ls "fingerprintTimestamp"
  if shouldRegenerate fingerprint fingerprintTimestamp now then
    (generated,
      setItem (setItem ls "deviceFingerprint" generated) "fingerprintTimestamp"
        (toString now))
  else
    (fingerprint.getD "", ls)

/-! ## The `auth` slice (`src/store/slices/authSlice.js`) -/

/-- The state of the `auth` slice (authSlice.js lines 133-138); `user` is the user
object, kept as an uninterpreted value. -/
structure AuthState where
  user : Option String := none
  token : Option String := none
  loading : Bool := false
  error : Option String := none
  deriving DecidableEq, Repr

/-- The members `user` and `token` of the payload of a fulfilled action. -/
structure AuthPayload where
  user : Option String := none
  token : Option String := none
  deriving DecidableEq, Repr

/-- The actions the `auth` reducer has a case for, and `other` for every other action.
The payload of `handleGoogleCallback.fulfilled` may be null. -/
inductive AuthAction where
  | clearError
  | register_pending
  | register_fulfilled (payload : AuthPayload)
  | register_rejected (payload : Option String)
  | login_pending
  | login_fulfilled
  | login_rejected (payload : Option String)
  | verifyOTP_pending
  | verifyOTP_fulfilled (payload : AuthPayload)
  | verifyOTP_rejected (payload : Option String)
  | googleAuth_pending
  | googleAuth_fulfilled
  | googleAuth_rejected (payload : Option String)
  | handleGoogleCallback_pending
  | handleGoogleCallback_fulfilled (payload : Option AuthPayload)
  | handleGoogleCallback_rejected (payload : Option String)
  | logout_fulfilled
  | other
  deriving DecidableEq, Repr

/-- The reducer of the `auth` slice (authSlice.js lines 139-230). -/
def authReducer (state : AuthState) : AuthAction → AuthState
  | AuthAction.clearError => { state with error := none }
  | AuthAction.register_pending => { state with loading := true, error := none }
  | AuthAction.register_fulfilled payload =>
    { state with loading := false, user := payload.user, token := payload.token }
  | AuthAction.register_rejected payload => { state with loading := false, error := payload }
  | AuthAction.login_pending => { state with loading := true, error := none }
  | AuthAction.login_fulfilled => { state with loading := false }
  | AuthAction.login_rejected payload => { state with loading := false, error := payload }
  | AuthAction.verifyOTP_pending => { state with loading := true, error := none }
  | AuthAction.verifyOTP_fulfilled payload =>
    { state with loading := false, user := payload.user, token := payload.token }
  | AuthAction.verifyOTP_rejected payload => { state with loading := false, error := payload }
  | AuthAction.googleAuth_pending => { state with loading := true, error := none }
  | AuthAction.googleAuth_fulfilled => { state with loading := false }
  | AuthAction.googleAuth_rejected payload => { state with loading := false, error := payload }
  | AuthAction.handleGoogleCallback_pending => { state with loading := true, error := none }
  | AuthAction.handleGoogleCallback_fulfilled payload =>
    match payload with
    | some p => { state with loading := false, user := p.user, token := p.token }
    | none => { state with loading := false }
  | AuthAction.handleGoogleCallback_rejected payload =>
    { state with loading := false, error := payload }
  | AuthAction.logout_fulfilled => { state with user := none, token := none }
  | AuthAction.other => state

/-- The actions that can authenticate: `register.fulfilled`, `verifyOTP.fulfilled` and
`handleGoogleCallback.fulfilled`. -/
def Authenticating : AuthAction → Prop
  | AuthAction.register_fulfilled _ => True
  | AuthAction.verifyOTP_fulfilled _ => True
  | AuthAction.handleGoogleCallback_fulfilled _ => True
  | _ => False

instance (a : AuthAction) : Decidable (Authenticating a) := by
  cases a <;> unfold Authenticating <;> infer_instance

/-- The state of the slice after a sequence of actions, in order. -/
def authRun (state : AuthState) (actions : List AuthAction) : AuthState :=
  actions.foldl authReducer state

/-! ## The status case of the slice on whole objects -/

/-- A primitive value of a JSON document. -/
inductive Value where
  | null
  | bool (b : Bool)
  | num (n : Int)
  | str (s : String)
  deriving DecidableEq, Repr

/-- A plain object with primitive members: its keys, each once, with their values. -/
abbrev Obj := List (String × Value)

/-- Member access `o.key`; `none` is `undefined`, the value of a key that is absent. -/
def member (o : Obj) (key : String) : Option Value :=
  o.lookup key

/-- Truthiness of the value of a member. -/
def valueTruthy : Option Value → Bool
  | some (Value.str s) => s != ""
  | some (Value.num n) => n != 0
  | some (Value.bool b) => b
  | some Value.null => false
  | none => false

/-- The object `{...a, ...b}`: the keys of `a` in their order, with the value from `b`
where `b` has the key, then the keys that only `b` has. -/
def spread (a b : Obj) : Obj :=
  a.map (fun kv => (kv.1, (b.lookup kv.1).getD kv.2)) ++
    b.filter (fun kv => (a.lookup kv.1).isNone)

/-- The members of the `payments` slice that the case `checkMoMoPaymentStatus.fulfilled`
reads or writes, with the transactions as whole objects. -/
structure StatusSlice where
  currentTransaction : Option Obj := none
  paymentHistory : List Obj := []
  paymentStatus : Option Value := none
  success : Bool := false
  polling : Bool := false
  error : Option Value := none
  deriving DecidableEq, Repr

/-- The payload of `checkMoMoPaymentStatus.fulfilled`: the object in its member `data`,
if it has one, and its own primitive members. -/
structure StatusPayload where
  data : Option Obj := none
  body : Obj := []
  deriving DecidableEq, Repr

/-- The object `action.payload.data || action.payload` (paymentSlice.js line 209). -/
def responseObject (payload : StatusPayload) : Obj :=
  match payload.data with
  | some d => d
  | none => payload.body

/-- The test `state.paymentHistory.some(p => p.transactionId ===
responseData.transactionId)` (paymentSlice.js lines 227-229). -/
def existsInHistory (history : List Obj) (responseData : Obj) : Bool :=
  history.any (fun p =>
    decide (member p "transactionId" = member responseData "transactionId"))

/-- The case `checkMoMoPaymentStatus.fulfilled` (paymentSlice.js lines 207-236) on whole
objects.  The spread of a null `currentTransaction` contributes no key. -/
def statusFulfilled (state : StatusSlice) (payload : StatusPayload) : StatusSlice :=
  let responseData := responseObject payload
  let currentTransaction :=
    if state.currentTransaction.bind (fun t => member t "transactionId") =
        member responseData "transactionId" then
      some (spread (state.currentTransaction.getD []) responseData)
    else state.currentTransaction
  let status := member responseData "status"
  if status = some (Value.str "SUCCESSFUL") then
    { state with
      polling := false
      currentTransaction := currentTransaction
      paymentStatus := status
      success := true
      paymentHistory :=
        if existsInHistory state.paymentHistory responseData then state.paymentHistory
        else responseData :: state.paymentHistory }
  else if status = some (Value.str "FAILED") then
    { state with
      polling := false
      currentTransaction := currentTransaction
      paymentStatus := status
      error :=
        if valueTruthy (member responseData "reason") then member responseData "reason"
        else some (Value.str "Payment failed") }
  else
    { state with
      polling := false
      currentTransaction := currentTransaction
      paymentStatus := status }

/-- The values of `transactionId` of the entries of a history, in order. -/
def historyIds (history : List Obj) : List (Option Value) :=
  history.map (fun p => member p "transactionId")

/-! ## The payment-history fetch -/

/-- The argument that reaches the payload creator of a thunk.  The action creator made
by `createAsyncThunk` hands on its first argument only. -/
inductive ThunkArg where
  | undefined
  | primitive (text : String)
  | object (userId : Option String) (page limit : Option Nat)
  deriving DecidableEq, Repr

/-- The request `GET /user/${userId}` with the query parameters `page` and `limit`. -/
structure HistoryRequest where
  path : String
  page : Nat
  limit : Nat
  deriving DecidableEq, Repr

/-- The call `paymentsService.getPaymentHistory(userId, { page, limit })` (payments.js
lines 39-40). -/
def paymentsService_getPaymentHistory (userId : Option String) (page limit : Nat) :
    HistoryRequest :=
  { path := "/user/" ++ interpolate userId, page := page, limit := limit }

/-- The payload creator of the thunk `getPaymentHistory` up to its request
(paymentSlice.js lines 58-60).  Its parameter is the pattern
`{ userId, page = 1, limit = 10 }`: a string or a number has none of these members, and
to destructure `undefined` throws before the `try` block is entered (`none`). -/
def getPaymentHistory : ThunkArg → Option HistoryRequest
  | ThunkArg.undefined => none
  | ThunkArg.primitive _ => some (paymentsService_getPaymentHistory none 1 10)
  | ThunkArg.object userId page limit =>
    some (paymentsService_getPaymentHistory userId (page.getD 1) (limit.getD 10))

/-- The dispatch `dispatch(getPaymentHistory(userId, { page: 1, limit: 50 }))` of
`PaymentSuccess` (line 19) and of `FilmmakerDashboard` (line 81), where `userId` is
`getUsers?.id`: the action creator is called with two arguments and keeps the first. -/
def fetchHistoryOnMount (userId : Option String) : Option HistoryRequest :=
  match userId with
  | some u => getPaymentHistory (ThunkArg.primitive u)
  | none => getPaymentHistory ThunkArg.undefined

/-! ## Display helpers of `Payment` -/

/-- The function `formatDuration` of Payment.jsx (lines 61-75) on a whole number of
seconds; `none` is a missing value.  For a whole number below `2 ^ 53` the expression
`parseInt(seconds) || 0` is the number itself. -/
def formatDuration (seconds : Option Nat) : String :=
  match seconds with
  | none => "N/A"
  | some 0 => "N/A"
  | some totalSeconds =>
    let hours := totalSeconds / 3600
    let minutes := (totalSeconds % 3600) / 60
    let secs := totalSeconds % 60
    if hours > 0 then
      if minutes > 0 then
        toString hours ++ "h : " ++ toString minutes ++ "m : " ++ toString secs ++ "s"
      else toString hours ++ "h"
    else if minutes > 0 then
      if secs > 0 then toString minutes ++ "m : " ++ toString secs ++ "s"
      else toString minutes ++ "m"
    else toString secs ++ "s"

/-- The copy of `formatDuration` in FilmmakerDashboard.jsx (lines 107-121). -/
def dashboardFormatDuration (seconds : Option Nat) : String :=
  match seconds with
  | none => "N/A"
  | some 0 => "N/A"
  | some totalSeconds =>
    let hours := totalSeconds / 3600
    let minutes := (totalSeconds % 3600) / 60
    let secs := totalSeconds % 60
    if hours > 0 then
      if minutes > 0 then
        toString hours ++ "h : " ++ toString minutes ++ "m : " ++ toString secs ++ "s"
      else toString hours ++ "h"
    else if minutes > 0 then
      if secs > 0 then toString minutes ++ "m : " ++ toString secs ++ "s"
      else toString minutes ++ "m"
    else toString secs ++ "s"

/-- The line `Check #{pollCount + 1} of {maxPolls}` of the view of step `verifying`
(Payment.jsx line 564). -/
def checkLabel (w : World) : String :=
  "Check #" ++ toString (w.ui.pollCount + 1) ++ " of " ++ toString maxPolls

/-! ## Rendering lemmas -/

theorem renderPass_of_settled (w : World) (h : Settled w) : renderPass w = w := by
  obtain ⟨hg, hp⟩ := h
  simp [renderPass, hg, hp]

theorem settle_of_settled (w : World) (h : Settled w) : settle w = w := by
  simp [settle, renderPass_of_settled w h]

theorem validatePhone_sample : validatePhone "0788123456" = none := by decide

theorem formatPhone_sample : formatPhone "0788123456" = "0788123456" := by decide

theorem verifyingWorld_polling (id : String) (h : id ≠ "") : Polling (verifyingWorld id) id 0 := by
  simp [verifyingWorld, purchase, run, step, applyEvent, mount, settle, renderPass, gatewayEffect, pollingEffect,
    gatewayDepsOf, pollingDepsOf, truthy, jsOrDefault, doMoMoPayment, validatePhone_sample, formatPhone_sample, Polling, Settled,
    processMoMoPayment_pending, processMoMoPayment_fulfilled, doMoMoPayment_resolved, pendingInit, jsOr, h]


@[simp]
theorem checkMoMoPaymentStatus_pending_gatewayStatus (s : Payments) :
    (checkMoMoPaymentStatus_pending s).gatewayStatus = s.gatewayStatus := rfl

@[simp]
theorem checkMoMoPaymentStatus_pending_currentTransaction (s : Payments) :
    (checkMoMoPaymentStatus_pending s).currentTransaction = s.currentTransaction := rfl

@[simp]
theorem checkMoMoPaymentStatus_rejected_gatewayStatus (s : Payments) (m : Option String) :
    (checkMoMoPaymentStatus_rejected s m).gatewayStatus = s.gatewayStatus := rfl

@[simp]
theorem checkMoMoPaymentStatus_rejected_currentTransaction (s : Payments)
    (m : Option String) :
    (checkMoMoPaymentStatus_rejected s m).currentTransaction = s.currentTransaction := rfl

@[simp]
theorem checkMoMoPaymentStatus_fulfilled_gatewayStatus (s : Payments)
    (r : StatusResult) (n : Nat) :
    (checkMoMoPaymentStatus_fulfilled s r n).gatewayStatus = s.gatewayStatus := rfl

theorem gatewayEffect_of_ne (w : World) (h : w.store.gatewayStatus ≠ some "SUCCESSFUL") :
    gatewayEffect w = w := by
  unfold gatewayEffect
  cases w.store.currentTransaction <;> simp [h]

theorem renderPass_quiet (w : World) (h : w.store.gatewayStatus ≠ some "SUCCESSFUL")
    (hp : w.pollingDeps = some (pollingDepsOf w)) :
    renderPass w = { w with gatewayDeps := some (gatewayDepsOf w) } := by
  unfold renderPass
  rw [gatewayEffect_of_ne _ (by simpa using h)]
  by_cases hg : w.gatewayDeps = some (gatewayDepsOf w)
  · obtain ⟨ui, store, gd, pd, iv, infl, ni, nr, ireq, sq, ai, nav⟩ := w
    simp only [gatewayDepsOf] at hg
    subst hg
    simp only [pollingDepsOf] at hp
    subst hp
    simp [gatewayDepsOf, pollingDepsOf]
  · simp [hg, hp]

theorem settle_quiet (w : World) (h : w.store.gatewayStatus ≠ some "SUCCESSFUL")
    (hp : w.pollingDeps = some (pollingDepsOf w)) :
    settle w = { w with gatewayDeps := some (gatewayDepsOf w) } := by
  unfold settle
  rw [renderPass_quiet w h hp]
  exact renderPass_of_settled _ ⟨rfl, hp⟩

theorem renderPass_restart (w : World) (id : String)
    (h : w.store.gatewayStatus ≠ some "SUCCESSFUL")
    (hs : w.ui.step = Step.verifying) (ht : w.ui.transactionId = some id) (hid : id ≠ "")
    (hp : w.pollingDeps ≠ some (pollingDepsOf w)) :
    renderPass w =
      { w with
        gatewayDeps := some (gatewayDepsOf w)
        pollingDeps := some (pollingDepsOf w)
        interval := some { id := w.nextInterval, transactionId := id,
                           pollCount := w.ui.pollCount }
        nextInterval := w.nextInterval + 1 } := by
  unfold renderPass
  rw [gatewayEffect_of_ne _ (by simpa using h)]
  by_cases hg : w.gatewayDeps = some (gatewayDepsOf w)
  · obtain ⟨ui, store, gd, pd, iv, infl, ni, nr, ireq, sq, ai, nav⟩ := w
    simp only [gatewayDepsOf] at hg
    subst hg
    simp only at hp hs ht h
    simp [hp, gatewayDepsOf, pollingEffect, ht, hs, hid, h]
  · simp [hg, hp, pollingEffect, ht, hs, hid, h]

theorem settle_restart (w : World) (id : String)
    (h : w.store.gatewayStatus ≠ some "SUCCESSFUL")
    (hs : w.ui.step = Step.verifying) (ht : w.ui.transactionId = some id) (hid : id ≠ "")
    (hp : w.pollingDeps ≠ some (pollingDepsOf w)) :
    settle w =
      { w with
        gatewayDeps := some (gatewayDepsOf w)
        pollingDeps := some (pollingDepsOf w)
        interval := some { id := w.nextInterval, transactionId := id,
                           pollCount := w.ui.pollCount }
        nextInterval := w.nextInterval + 1 } := by
  unfold settle
  rw [renderPass_restart w id h hs ht hid hp]
  exact renderPass_of_settled _ ⟨rfl, rfl⟩


theorem onStatusResult_nonTerminal (p : Poller) (r : StatusResult) (w : World)
    (hr : NonTerminal r) (hk : p.pollCount < maxPolls) :
    onStatusResult p r w =
      { w with ui := { w.ui with
          statusMessage := "Waiting for payment confirmation..."
          pollCount := w.ui.pollCount + 1 } } := by
  obtain ⟨nt1, nt2, nt3, nt4⟩ := hr
  simp [onStatusResult, nt1, nt2, nt3, nt4, Nat.not_le.mpr hk]

theorem step_tick_polling (w : World) (p : Poller) (hs : Settled w)
    (hi : w.interval = some p) :
    step w Event.tick =
      { w with
        store := checkMoMoPaymentStatus_pending w.store
        statusQueries := w.statusQueries ++ [p.transactionId]
        inflight := w.inflight ++ [p] } := by
  simp only [step, applyEvent, tick, hi]
  exact settle_of_settled _ hs

theorem response_nonTerminal (x : World) (p : Poller) (r : StatusResult) (id : String)
    (hg : x.store.gatewayStatus ≠ some "SUCCESSFUL")
    (hp : x.pollingDeps = some (pollingDepsOf x))
    (hs : x.ui.step = Step.verifying) (ht : x.ui.transactionId = some id) (hid : id ≠ "")
    (hr : NonTerminal r) (hk : p.pollCount < maxPolls) :
    settle (onStatusResult p r (settle x)) =
      { x with
        ui := { x.ui with
          statusMessage := "Waiting for payment confirmation..."
          pollCount := x.ui.pollCount + 1 }
        gatewayDeps := some (gatewayDepsOf x)
        pollingDeps := some (some id, Step.verifying, x.ui.pollCount + 1, x.store.gatewayStatus)
        interval := some { id := x.nextInterval, transactionId := id,
                           pollCount := x.ui.pollCount + 1 }
        nextInterval := x.nextInterval + 1 } := by
  rw [settle_quiet x hg hp, onStatusResult_nonTerminal p r _ hr hk]
  rw [settle_restart _ id (by simpa using hg) (by simpa using hs) (by simpa using ht) hid
    (by simp [pollingDepsOf, hp])]
  simp [gatewayDepsOf, pollingDepsOf, ht, hs]

theorem polling_pending_round (w : World) (id : String) (k : Nat) (r : StatusResult)
    (h : Polling w id k) (hk : k < maxPolls) (hr : NonTerminal r) :
    Polling (run w (pollRound r)) id (k + 1) ∧
    (run w (pollRound r)).statusQueries = w.statusQueries ++ [id] ∧
    (run w (pollRound r)).navigations = w.navigations ∧
    (run w (pollRound r)).ui.localPaymentStatus = w.ui.localPaymentStatus := by
  obtain ⟨h1, h2, h3, h4, h5, h6, h7, h8⟩ := h
  cases hi : w.interval with
  | none => simp [hi] at h7
  | some p =>
    simp only [hi, Option.map_some', Option.some.injEq, Prod.mk.injEq] at h7
    obtain ⟨hp1, hp2⟩ := h7
    have e1 := step_tick_polling w p h6 hi
    simp only [run, pollRound, List.foldl_cons, List.foldl_nil, e1]
    simp only [step, applyEvent, h8, List.nil_append, List.get?_cons_zero, List.eraseIdx_cons_zero]
    rw [response_nonTerminal _ p r id (by simpa using h5) (by simpa [pollingDepsOf] using h6.2)
      (by simpa using h1) (by simpa using h2) h3 hr (by omega)]
    simp [Polling, Settled, h1, h2, h3, h4, h5, hp1, gatewayDepsOf, pollingDepsOf]

theorem run_append (w : World) (a b : List Event) : run w (a ++ b) = run (run w a) b := by
  simp [run, List.foldl_append]

theorem repeatEvents_succ_right (n : Nat) (es : List Event) :
    repeatEvents (n + 1) es = repeatEvents n es ++ es := by
  induction n with
  | zero => simp [repeatEvents]
  | succ n ih =>
    calc repeatEvents (n + 1 + 1) es
        = es ++ repeatEvents (n + 1) es := rfl
      _ = es ++ (repeatEvents n es ++ es) := by rw [ih]
      _ = (es ++ repeatEvents n es) ++ es := by rw [List.append_assoc]
      _ = repeatEvents (n + 1) es ++ es := rfl

theorem polling_pending_rounds (w : World) (id : String) (k : Nat) (r : StatusResult)
    (hr : NonTerminal r) (h : Polling w id k) (n : Nat) (hk : k + n ≤ maxPolls) :
    Polling (run w (repeatEvents n (pollRound r))) id (k + n) ∧
    (run w (repeatEvents n (pollRound r))).statusQueries =
      w.statusQueries ++ List.replicate n id ∧
    (run w (repeatEvents n (pollRound r))).navigations = w.navigations ∧
    (run w (repeatEvents n (pollRound r))).ui.localPaymentStatus = w.ui.localPaymentStatus := by
  induction n with
  | zero => simpa [repeatEvents, run] using h
  | succ n ih =>
    obtain ⟨i1, i2, i3, i4⟩ := ih (by omega)
    rw [repeatEvents_succ_right, run_append]
    obtain ⟨j1, j2, j3, j4⟩ :=
      polling_pending_round _ id (k + n) r i1 (by omega) hr
    refine ⟨j1, ?_, ?_, ?_⟩
    · rw [j2, i2, List.replicate_succ', List.append_assoc]
    · rw [j3, i3]
    · rw [j4, i4]

theorem onStatusError_low (p : Poller) (w : World) (hk : p.pollCount < 5) :
    onStatusError p w = w := by
  simp [onStatusError, Nat.not_le.mpr hk]

theorem response_error_low (x : World) (p : Poller) (hs : Settled x) (hk : p.pollCount < 5) :
    settle (onStatusError p (settle x)) = x := by
  rw [settle_of_settled x hs, onStatusError_low p x hk, settle_of_settled x hs]

theorem polling_error_round_low (w : World) (id : String) (k : Nat) (m : Option String)
    (h : Polling w id k) (hk : k < 5) :
    run w (errorRound m) =
      { w with
        store := checkMoMoPaymentStatus_rejected (checkMoMoPaymentStatus_pending w.store)
          (checkMoMoPaymentStatus_rejectValue m)
        statusQueries := w.statusQueries ++ [id] } := by
  obtain ⟨h1, h2, h3, h4, h5, h6, h7, h8⟩ := h
  cases hi : w.interval with
  | none => simp [hi] at h7
  | some p =>
    simp only [hi, Option.map_some', Option.some.injEq, Prod.mk.injEq] at h7
    obtain ⟨hp1, hp2⟩ := h7
    have e1 := step_tick_polling w p h6 hi
    simp only [run, errorRound, List.foldl_cons, List.foldl_nil, e1]
    simp only [step, applyEvent, h8, List.nil_append, List.get?_cons_zero, List.eraseIdx_cons_zero]
    rw [response_error_low _ p (by simpa [Settled, gatewayDepsOf, pollingDepsOf] using h6)
      (by omega)]
    simp [hp1, hi]

theorem renderPass_stop (w : World) (h : w.store.gatewayStatus ≠ some "SUCCESSFUL")
    (hs : w.ui.step ≠ Step.verifying) (hp : w.pollingDeps ≠ some (pollingDepsOf w)) :
    renderPass w =
      { w with
        gatewayDeps := some (gatewayDepsOf w)
        pollingDeps := some (pollingDepsOf w)
        interval := none } := by
  unfold renderPass
  rw [gatewayEffect_of_ne _ (by simpa using h)]
  by_cases hg : w.gatewayDeps = some (gatewayDepsOf w)
  · obtain ⟨ui, store, gd, pd, iv, infl, ni, nr, ireq, sq, ai, nav⟩ := w
    simp only [gatewayDepsOf] at hg
    subst hg
    simp only at hp hs h
    cases htid : ui.transactionId <;>
      simp [hp, gatewayDepsOf, pollingEffect, hs, h, htid]
  · cases htid : w.ui.transactionId <;>
      simp [hg, hp, pollingEffect, hs, h, htid]

theorem settle_stop (w : World) (h : w.store.gatewayStatus ≠ some "SUCCESSFUL")
    (hs : w.ui.step ≠ Step.verifying) (hp : w.pollingDeps ≠ some (pollingDepsOf w)) :
    settle w =
      { w with
        gatewayDeps := some (gatewayDepsOf w)
        pollingDeps := some (pollingDepsOf w)
        interval := none } := by
  unfold settle
  rw [renderPass_stop w h hs hp]
  exact renderPass_of_settled _ ⟨rfl, rfl⟩

theorem clearInterval_self (x : World) (p : Poller) (hi : x.interval = some p) :
    clearInterval p.id x = { x with interval := none } := by
  simp [clearInterval, hi]

theorem clearInterval_none (x : World) (n : Nat) (hi : x.interval = none) :
    clearInterval n x = x := by
  simp [clearInterval, hi]

theorem onStatusResult_success (p : Poller) (r : StatusResult) (x : World)
    (hr : statusOf r = some "succeeded" ∨ statusOf r = some "SUCCESSFUL")
    (hk : p.pollCount < maxPolls) (hi : x.interval = some p) :
    onStatusResult p r x =
      { x with
        interval := none
        ui := { x.ui with
          localPaymentStatus := some "SUCCESSFUL"
          statusMessage := "Payment confirmed! Granting access..."
          step := Step.success }
        navigations := x.navigations ++ [successPath (some p.transactionId)] } := by
  simp [onStatusResult, hr, Nat.not_le.mpr hk, clearInterval_self x p hi]

theorem onStatusResult_failed (p : Poller) (r : StatusResult) (x : World)
    (hr : statusOf r = some "failed" ∨ statusOf r = some "FAILED")
    (hk : p.pollCount < maxPolls) (hi : x.interval = some p) :
    onStatusResult p r x =
      { x with
        interval := none
        ui := { x.ui with
          localPaymentStatus := some "FAILED"
          statusMessage := reasonOf r
          formError := reasonOf r
          step := Step.failed } } := by
  have hn : ¬ (statusOf r = some "succeeded" ∨ statusOf r = some "SUCCESSFUL") := by
    rcases hr with h | h <;> simp [h]
  simp [onStatusResult, hr, hn, Nat.not_le.mpr hk, clearInterval_self x p hi]

theorem onStatusResult_ceiling (p : Poller) (r : StatusResult) (x : World)
    (hk : maxPolls ≤ p.pollCount) (hi : x.interval = some p) :
    onStatusResult p r x =
      { x with
        interval := none
        ui := { x.ui with
          localPaymentStatus := some "TIMEOUT"
          statusMessage :=
            "Payment verification timeout. Please check your transaction history."
          formError :=
            "Payment is taking longer than expected. Your transaction may still process."
          step := Step.failed
          pollCount :=
            if statusOf r = some "succeeded" ∨ statusOf r = some "SUCCESSFUL" then
              x.ui.pollCount
            else if statusOf r = some "failed" ∨ statusOf r = some "FAILED" then
              x.ui.pollCount
            else x.ui.pollCount + 1 }
        navigations :=
          if statusOf r = some "succeeded" ∨ statusOf r = some "SUCCESSFUL" then
            x.navigations ++ [successPath (some p.transactionId)]
          else x.navigations } := by
  by_cases h1 : statusOf r = some "succeeded" ∨ statusOf r = some "SUCCESSFUL"
  · simp [onStatusResult, onTimeout, h1, hk, clearInterval_self x p hi, clearInterval_none]
  · by_cases h2 : statusOf r = some "failed" ∨ statusOf r = some "FAILED"
    · simp [onStatusResult, onTimeout, h1, h2, hk, clearInterval_self x p hi, clearInterval_none]
    · simp [onStatusResult, onTimeout, h1, h2, hk, clearInterval_self, hi]

theorem polling_round_eq (w : World) (id : String) (k : Nat) (r : StatusResult) (p : Poller)
    (h : Polling w id k) (hi : w.interval = some p) :
    run w (pollRound r) =
      settle (onStatusResult p r
        { w with
          store := checkMoMoPaymentStatus_fulfilled (checkMoMoPaymentStatus_pending w.store)
            r w.nextRef
          inflight := []
          nextRef := w.nextRef + 1
          statusQueries := w.statusQueries ++ [id]
          gatewayDeps := some
            ((checkMoMoPaymentStatus_fulfilled (checkMoMoPaymentStatus_pending w.store)
                r w.nextRef).currentTransaction, w.store.gatewayStatus) }) := by
  obtain ⟨h1, h2, h3, h4, h5, h6, h7, h8⟩ := h
  simp only [hi, Option.map_some', Option.some.injEq, Prod.mk.injEq] at h7
  obtain ⟨hp1, hp2⟩ := h7
  have e1 := step_tick_polling w p h6 hi
  simp only [run, pollRound, List.foldl_cons, List.foldl_nil, e1]
  simp only [step, applyEvent, h8, List.nil_append, List.get?_cons_zero, List.eraseIdx_cons_zero]
  have e2 := settle_quiet
    { w with
      store := checkMoMoPaymentStatus_fulfilled (checkMoMoPaymentStatus_pending w.store)
        r w.nextRef
      inflight := []
      nextRef := w.nextRef + 1
      statusQueries := w.statusQueries ++ [p.transactionId] }
    (by simpa using h5) (by simpa [pollingDepsOf] using h6.2)
  simp only [gatewayDepsOf, checkMoMoPaymentStatus_fulfilled_gatewayStatus,
    checkMoMoPaymentStatus_pending_gatewayStatus] at e2
  rw [e2, hp1]

theorem polling_success_round (w : World) (id : String) (k : Nat) (r : StatusResult)
    (h : Polling w id k) (hk : k < maxPolls)
    (hr : statusOf r = some "succeeded" ∨ statusOf r = some "SUCCESSFUL") :
    Terminal (run w (pollRound r)) ∧
    (run w (pollRound r)).ui =
      { w.ui with
        localPaymentStatus := some "SUCCESSFUL"
        statusMessage := "Payment confirmed! Granting access..."
        step := Step.success } ∧
    (run w (pollRound r)).statusQueries = w.statusQueries ++ [id] ∧
    (run w (pollRound r)).navigations = w.navigations ++ [successPath (some id)] ∧
    (run w (pollRound r)).store.gatewayStatus = w.store.gatewayStatus := by
  have h' := h
  obtain ⟨h1, h2, h3, h4, h5, h6, h7, h8⟩ := h
  cases hi : w.interval with
  | none => simp [hi] at h7
  | some p =>
    simp only [hi, Option.map_some', Option.some.injEq, Prod.mk.injEq] at h7
    obtain ⟨hp1, hp2⟩ := h7
    rw [polling_round_eq w id k r p h' hi]
    rw [onStatusResult_success p r _ hr (by omega) (by simpa using hi)]
    rw [settle_stop _ (by simpa using h5) (by simp) (by simp [pollingDepsOf, h6.2, h1])]
    simp [Terminal, Settled, gatewayDepsOf, pollingDepsOf, hp1]

theorem polling_failed_round (w : World) (id : String) (k : Nat) (r : StatusResult)
    (h : Polling w id k) (hk : k < maxPolls)
    (hr : statusOf r = some "failed" ∨ statusOf r = some "FAILED") :
    Terminal (run w (pollRound r)) ∧
    (run w (pollRound r)).ui =
      { w.ui with
        localPaymentStatus := some "FAILED"
        statusMessage := reasonOf r
        formError := reasonOf r
        step := Step.failed } ∧
    (run w (pollRound r)).statusQueries = w.statusQueries ++ [id] ∧
    (run w (pollRound r)).navigations = w.navigations ∧
    (run w (pollRound r)).store.gatewayStatus = w.store.gatewayStatus := by
  have h' := h
  obtain ⟨h1, h2, h3, h4, h5, h6, h7, h8⟩ := h
  cases hi : w.interval with
  | none => simp [hi] at h7
  | some p =>
    simp only [hi, Option.map_some', Option.some.injEq, Prod.mk.injEq] at h7
    obtain ⟨hp1, hp2⟩ := h7
    rw [polling_round_eq w id k r p h' hi]
    rw [onStatusResult_failed p r _ hr (by omega) (by simpa using hi)]
    rw [settle_stop _ (by simpa using h5) (by simp) (by simp [pollingDepsOf, h6.2, h1])]
    simp [Terminal, Settled, gatewayDepsOf, pollingDepsOf]

theorem polling_ceiling_round (w : World) (id : String) (k : Nat) (r : StatusResult)
    (h : Polling w id k) (hk : maxPolls ≤ k) :
    Terminal (run w (pollRound r)) ∧
    (run w (pollRound r)).ui.step = Step.failed ∧
    (run w (pollRound r)).ui.localPaymentStatus = some "TIMEOUT" ∧
    (run w (pollRound r)).ui.statusMessage =
      "Payment verification timeout. Please check your transaction history." ∧
    (run w (pollRound r)).ui.formError =
      "Payment is taking longer than expected. Your transaction may still process." ∧
    (run w (pollRound r)).statusQueries = w.statusQueries ++ [id] ∧
    (run w (pollRound r)).navigations =
      (if statusOf r = some "succeeded" ∨ statusOf r = some "SUCCESSFUL" then
        w.navigations ++ [successPath (some id)]
      else w.navigations) := by
  have h' := h
  obtain ⟨h1, h2, h3, h4, h5, h6, h7, h8⟩ := h
  cases hi : w.interval with
  | none => simp [hi] at h7
  | some p =>
    simp only [hi, Option.map_some', Option.some.injEq, Prod.mk.injEq] at h7
    obtain ⟨hp1, hp2⟩ := h7
    rw [polling_round_eq w id k r p h' hi]
    rw [onStatusResult_ceiling p r _ (by omega) (by simpa using hi)]
    rw [settle_stop _ (by simpa using h5) (by simp) (by simp [pollingDepsOf, h6.2, h1])]
    simp [Terminal, Settled, gatewayDepsOf, pollingDepsOf, hp1]

theorem pollingEffect_of_gateway (r w : World)
    (h : r.store.gatewayStatus = some "SUCCESSFUL") : pollingEffect r w = w := by
  unfold pollingEffect
  cases r.ui.transactionId <;> simp [h]

theorem pollingEffect_of_step (r w : World)
    (h : r.ui.step ≠ Step.verifying) : pollingEffect r w = w := by
  unfold pollingEffect
  cases r.ui.transactionId <;> simp [h]

theorem settle_gateway (w : World) (tx : Transaction)
    (hct : w.store.currentTransaction = some tx)
    (hgs : w.store.gatewayStatus = some "SUCCESSFUL")
    (hgd : w.gatewayDeps ≠ some (gatewayDepsOf w))
    (hi : w.interval = none ∨ w.pollingDeps ≠ some (pollingDepsOf w)) :
    settle w =
      { w with
        ui := { w.ui with
          localPaymentStatus := some "SUCCESSFUL"
          statusMessage := "Payment confirmed! Access granted."
          step := Step.success }
        navigations := w.navigations ++ [successPath tx.transactionId]
        gatewayDeps := some (gatewayDepsOf w)
        pollingDeps := some (w.ui.transactionId, Step.success, w.ui.pollCount,
          some "SUCCESSFUL")
        interval := none } := by
  obtain ⟨ui, store, gd, pd, iv, infl, ni, nr, ireq, sq, ai, nav⟩ := w
  obtain ⟨ct, ld, er, su, po, ps, gs, wp⟩ := store
  simp only at hct hgs hgd hi
  subst hct hgs
  simp only [gatewayDepsOf] at hgd
  simp only [pollingDepsOf] at hi
  by_cases hp : pd = some (ui.transactionId, ui.step, ui.pollCount, some "SUCCESSFUL")
  · have hiv : iv = none := by
      rcases hi with h | h
      · exact h
      · exact absurd hp h
    subst hiv hp
    by_cases hst : ui.step = Step.success
    · simp [settle, renderPass, gatewayEffect, gatewayDepsOf, pollingDepsOf, hgd,
        hst, pollingEffect_of_gateway]
    · simp [settle, renderPass, gatewayEffect, gatewayDepsOf, pollingDepsOf, hgd,
        hst, pollingEffect_of_gateway]
  · simp [settle, renderPass, gatewayEffect, gatewayDepsOf, pollingDepsOf, hgd,
        hp, pollingEffect_of_gateway]

theorem onStatusError_high (p : Poller) (x : World) (hk : 5 ≤ p.pollCount)
    (hi : x.interval = some p) :
    onStatusError p x =
      { x with
        interval := none
        ui := { x.ui with
          formError := "Unable to verify payment status. Please contact support."
          step := Step.failed } } := by
  simp [onStatusError, hk, clearInterval_self x p hi]

theorem error_round_eq (w : World) (id : String) (k : Nat) (m : Option String) (p : Poller)
    (h : Polling w id k) (hi : w.interval = some p) :
    run w (errorRound m) =
      settle (onStatusError p
        { w with
          store := checkMoMoPaymentStatus_rejected (checkMoMoPaymentStatus_pending w.store)
            (checkMoMoPaymentStatus_rejectValue m)
          statusQueries := w.statusQueries ++ [id] }) := by
  obtain ⟨h1, h2, h3, h4, h5, h6, h7, h8⟩ := h
  simp only [hi, Option.map_some', Option.some.injEq, Prod.mk.injEq] at h7
  obtain ⟨hp1, hp2⟩ := h7
  have e1 := step_tick_polling w p h6 hi
  simp only [run, errorRound, List.foldl_cons, List.foldl_nil, e1]
  simp only [step, applyEvent, h8, List.nil_append, List.get?_cons_zero, List.eraseIdx_cons_zero]
  have e2 := settle_of_settled
    { w with
      store := checkMoMoPaymentStatus_rejected (checkMoMoPaymentStatus_pending w.store)
        (checkMoMoPaymentStatus_rejectValue m)
      inflight := []
      statusQueries := w.statusQueries ++ [p.transactionId] }
    (by simpa [Settled, gatewayDepsOf, pollingDepsOf] using h6)
  rw [e2, hp1, ← h8]

theorem polling_error_round_high (w : World) (id : String) (k : Nat) (m : Option String)
    (h : Polling w id k) (hk : 5 ≤ k) :
    Terminal (run w (errorRound m)) ∧
    (run w (errorRound m)).ui =
      { w.ui with
        formError := "Unable to verify payment status. Please contact support."
        step := Step.failed } ∧
    (run w (errorRound m)).statusQueries = w.statusQueries ++ [id] ∧
    (run w (errorRound m)).navigations = w.navigations := by
  have h' := h
  obtain ⟨h1, h2, h3, h4, h5, h6, h7, h8⟩ := h
  cases hi : w.interval with
  | none => simp [hi] at h7
  | some p =>
    simp only [hi, Option.map_some', Option.some.injEq, Prod.mk.injEq] at h7
    obtain ⟨hp1, hp2⟩ := h7
    rw [error_round_eq w id k m p h' hi]
    rw [onStatusError_high p _ (by omega) (by simpa using hi)]
    rw [settle_stop _ (by simpa using h5) (by simp) (by simp [pollingDepsOf, h6.2, h1])]
    simp [Terminal, Settled, gatewayDepsOf, pollingDepsOf, h6.1, h8]

theorem terminal_tick (w : World) (h : Terminal w) : step w Event.tick = w := by
  obtain ⟨_, hs, hi, _⟩ := h
  simp only [step, applyEvent, tick, hi]
  exact settle_of_settled w hs

theorem terminal_ticks (w : World) (h : Terminal w) (n : Nat) :
    run w (repeatEvents n [Event.tick]) = w := by
  induction n with
  | zero => rfl
  | succ n ih =>
    rw [repeatEvents_succ_right, run_append, ih]
    simp only [run, List.foldl_cons, List.foldl_nil]
    exact terminal_tick w h

theorem gatewayEffect_inert (w : World)
    (h : w.store.currentTransaction = none ∨ w.store.gatewayStatus ≠ some "SUCCESSFUL") :
    gatewayEffect w = w := by
  rcases h with h | h
  · simp [gatewayEffect, h]
  · exact gatewayEffect_of_ne w h

theorem settle_idle (w : World) (hs : w.ui.step ≠ Step.verifying) (hi : w.interval = none)
    (hnf : ¬ GatewayFires w) :
    settle w =
      { w with
        gatewayDeps := some (gatewayDepsOf w)
        pollingDeps := some (pollingDepsOf w) } := by
  obtain ⟨ui, store, gd, pd, iv, infl, ni, nr, ireq, sq, ai, nav⟩ := w
  simp only at hs hi
  subst hi
  simp only [GatewayFires, gatewayDepsOf, not_and_or, not_not] at hnf
  by_cases hg : gd = some (store.currentTransaction, store.gatewayStatus)
  · subst hg
    by_cases hp : pd = some (ui.transactionId, ui.step, ui.pollCount, store.gatewayStatus)
    · simp [settle, renderPass, gatewayDepsOf, pollingDepsOf, hp]
    · simp [settle, renderPass, gatewayDepsOf, pollingDepsOf, hp, pollingEffect_of_step, hs]
  · have h' : store.currentTransaction = none ∨ store.gatewayStatus ≠ some "SUCCESSFUL" := by
      rcases hnf with h | h | h
      · exact absurd h hg
      · exact Or.inl h
      · exact Or.inr h
    by_cases hp : pd = some (ui.transactionId, ui.step, ui.pollCount, store.gatewayStatus)
    · simp [settle, renderPass, gatewayDepsOf, pollingDepsOf, hp, hg, gatewayEffect_inert, h']
    · simp [settle, renderPass, gatewayDepsOf, pollingDepsOf, hp, hg, gatewayEffect_inert, h',
        pollingEffect_of_step, hs]

theorem terminal_store_update (w : World) (s : Payments) (h : Terminal w) :
    Terminal (settle { w with store := s }) ∧
    (settle { w with store := s }).statusQueries = w.statusQueries ∧
    (GatewayFires { w with store := s } →
      (settle { w with store := s }).ui.step = Step.success ∧
      (settle { w with store := s }).ui.localPaymentStatus = some "SUCCESSFUL") ∧
    (¬ GatewayFires { w with store := s } → (settle { w with store := s }).ui = w.ui) := by
  obtain ⟨hst, hs, hi, hin⟩ := h
  have hnv : w.ui.step ≠ Step.verifying := by
    rcases hst with h | h <;> simp [h]
  by_cases hf : GatewayFires { w with store := s }
  · obtain ⟨hf1, hf2, hf3⟩ := hf
    cases hct : s.currentTransaction with
    | none => simp [hct] at hf2
    | some tx =>
      rw [settle_gateway { w with store := s } tx (by simpa using hct) (by simpa using hf3)
        hf1 (Or.inl (by simpa using hi))]
      refine ⟨?_, rfl, fun _ => ⟨rfl, rfl⟩, fun hn => absurd ⟨hf1, hf2, hf3⟩ hn⟩
      have hf3' : s.gatewayStatus = some "SUCCESSFUL" := hf3
      simp [Terminal, Settled, gatewayDepsOf, pollingDepsOf, hin, hf3']
  · rw [settle_idle { w with store := s } (by simpa using hnv) (by simpa using hi) hf]
    refine ⟨?_, rfl, fun hy => absurd hy hf, fun _ => rfl⟩
    simp [Terminal, Settled, gatewayDepsOf, pollingDepsOf, hin, hi, hst]

theorem terminal_pollRound (w : World) (h : Terminal w) (r : StatusResult) :
    run w (pollRound r) = w := by
  have ht := terminal_tick w h
  simp only [run, pollRound, List.foldl_cons, List.foldl_nil, ht]
  simp only [step, applyEvent, h.2.2.2, List.get?_nil]
  exact settle_of_settled w h.2.1

theorem terminal_errorRound (w : World) (h : Terminal w) (m : Option String) :
    run w (errorRound m) = w := by
  have ht := terminal_tick w h
  simp only [run, errorRound, List.foldl_cons, List.foldl_nil, ht]
  simp only [step, applyEvent, h.2.2.2, List.get?_nil]
  exact settle_of_settled w h.2.1

theorem terminal_errorRounds (w : World) (h : Terminal w) (m : Option String) (n : Nat) :
    run w (repeatEvents n (errorRound m)) = w := by
  induction n with
  | zero => rfl
  | succ n ih => rw [repeatEvents_succ_right, run_append, ih, terminal_errorRound w h m]

theorem polling_error_rounds_low (w : World) (id : String) (k : Nat) (m : Option String)
    (h : Polling w id k) (hk : k < 5) (n : Nat) :
    Polling (run w (repeatEvents n (errorRound m))) id k ∧
    (run w (repeatEvents n (errorRound m))).ui = w.ui ∧
    (run w (repeatEvents n (errorRound m))).statusQueries =
      w.statusQueries ++ List.replicate n id := by
  induction n with
  | zero => simpa [repeatEvents, run] using h
  | succ n ih =>
    obtain ⟨i1, i2, i3⟩ := ih
    rw [repeatEvents_succ_right, run_append, polling_error_round_low _ id k m i1 hk]
    refine ⟨?_, ?_, ?_⟩
    · obtain ⟨h1, h2, h3, h4, h5, h6, h7, h8⟩ := i1
      exact ⟨h1, h2, h3, h4, by simpa using h5,
        by simpa [Settled, gatewayDepsOf, pollingDepsOf] using h6, h7, h8⟩
    · exact i2
    · simp only [i3, List.replicate_succ', List.append_assoc]

theorem nonTerminal_pendingStatus (id : String) : NonTerminal (pendingStatus id) := by
  simp [NonTerminal, statusOf, pendingStatus, jsOr, truthy]

theorem statusOf_successStatus : statusOf successStatus = some "SUCCESSFUL" := by decide

theorem purchase_immediate (id : String) (h : id ≠ "") :
    Terminal (purchase (immediateInit id)) ∧
    (purchase (immediateInit id)).ui.step = Step.success ∧
    (purchase (immediateInit id)).statusQueries = [] ∧
    (purchase (immediateInit id)).navigations = [successPath (some id)] := by
  simp [purchase, run, step, applyEvent, mount, settle, renderPass, gatewayEffect,
    pollingEffect, gatewayDepsOf, pollingDepsOf, truthy, jsOrDefault, doMoMoPayment,
    validatePhone_sample, formatPhone_sample, Terminal, Settled, processMoMoPayment_pending,
    processMoMoPayment_fulfilled, doMoMoPayment_resolved, immediateInit, jsOr, h]

theorem gatewayEffect_frame (w : World) :
    (gatewayEffect w).store = w.store ∧ (gatewayEffect w).gatewayDeps = w.gatewayDeps ∧
    (gatewayEffect w).pollingDeps = w.pollingDeps := by
  unfold gatewayEffect
  cases w.store.currentTransaction with
  | none => simp
  | some tx =>
    by_cases h : w.store.gatewayStatus = some "SUCCESSFUL"
    · simp [h]
    · simp [h]

theorem pollingEffect_frame (r w : World) :
    (pollingEffect r w).store = w.store ∧ (pollingEffect r w).ui = w.ui ∧
    (pollingEffect r w).gatewayDeps = w.gatewayDeps ∧
    (pollingEffect r w).pollingDeps = w.pollingDeps := by
  unfold pollingEffect
  cases r.ui.transactionId with
  | none => simp
  | some id =>
    by_cases h : id = "" ∨ r.ui.step ≠ Step.verifying ∨
        r.store.gatewayStatus = some "SUCCESSFUL"
    · simp only [h, if_true, and_self]
    · simp only [h, if_false, and_self]

theorem renderPass_gatewayDeps (w : World) :
    (renderPass w).gatewayDeps = some (gatewayDepsOf (renderPass w)) := by
  unfold renderPass
  simp only [gatewayDepsOf, pollingDepsOf]
  by_cases hg : w.gatewayDeps = some (w.store.currentTransaction, w.store.gatewayStatus) <;>
    by_cases hp : w.pollingDeps =
      some (w.ui.transactionId, w.ui.step, w.ui.pollCount, w.store.gatewayStatus) <;>
    simp [hg, hp, (pollingEffect_frame _ _).1, (pollingEffect_frame _ _).2.2.1,
      (gatewayEffect_frame _).1, (gatewayEffect_frame _).2.1]

theorem renderPass_settled (w : World) (hg : w.gatewayDeps = some (gatewayDepsOf w)) :
    Settled (renderPass w) := by
  refine ⟨renderPass_gatewayDeps w, ?_⟩
  unfold renderPass
  simp only [gatewayDepsOf, pollingDepsOf] at hg ⊢
  by_cases hp : w.pollingDeps =
      some (w.ui.transactionId, w.ui.step, w.ui.pollCount, w.store.gatewayStatus) <;>
    simp [hg, hp, (pollingEffect_frame _ _).1, (pollingEffect_frame _ _).2.1,
      (pollingEffect_frame _ _).2.2.2]

/-- Two render passes reach a state in which no effect is due. -/
theorem settle_settled (w : World) : Settled (settle w) :=
  renderPass_settled (renderPass w) (renderPass_gatewayDeps w)

/-- A third render pass changes nothing. -/
theorem renderPass_settle (w : World) : renderPass (settle w) = settle w :=
  renderPass_of_settled (settle w) (settle_settled w)

theorem polling_pending_round_store (w : World) (id : String) (k : Nat) (r : StatusResult)
    (h : Polling w id k) (hk : k < maxPolls) (hr : NonTerminal r) :
    (run w (pollRound r)).store =
      checkMoMoPaymentStatus_fulfilled (checkMoMoPaymentStatus_pending w.store) r
        w.nextRef := by
  have h' := h
  obtain ⟨h1, h2, h3, h4, h5, h6, h7, h8⟩ := h
  cases hi : w.interval with
  | none => simp [hi] at h7
  | some p =>
    simp only [hi, Option.map_some', Option.some.injEq, Prod.mk.injEq] at h7
    obtain ⟨hp1, hp2⟩ := h7
    rw [polling_round_eq w id k r p h' hi]
    rw [onStatusResult_nonTerminal p r _ hr (by omega)]
    rw [settle_restart _ id (by simpa using h5) (by simpa using h1) (by simpa using h2) h3
      (by simp [pollingDepsOf, h6.2, h4])]

theorem pendingStatus_keeps_current (s : Payments) (id : String) (n : Nat)
    (h : s.currentTransaction.bind (fun t => t.transactionId) = some id) :
    (checkMoMoPaymentStatus_fulfilled (checkMoMoPaymentStatus_pending s) (pendingStatus id)
      n).currentTransaction.bind (fun t => t.transactionId) = some id := by
  simp [checkMoMoPaymentStatus_fulfilled, checkMoMoPaymentStatus_pending, responseData,
    pendingStatus, h]

theorem polling_pending_rounds_current (w : World) (id : String) (k : Nat)
    (h : Polling w id k)
    (hc : w.store.currentTransaction.bind (fun t => t.transactionId) = some id)
    (n : Nat) (hk : k + n ≤ maxPolls) :
    (run w (repeatEvents n (pollRound (pendingStatus id)))).store.currentTransaction.bind
      (fun t => t.transactionId) = some id := by
  induction n with
  | zero => simpa [repeatEvents, run] using hc
  | succ n ih =>
    have hp := (polling_pending_rounds w id k (pendingStatus id)
      (nonTerminal_pendingStatus id) h n (by omega)).1
    rw [repeatEvents_succ_right, run_append,
      polling_pending_round_store _ id (k + n) (pendingStatus id) hp (by omega)
        (nonTerminal_pendingStatus id)]
    exact pendingStatus_keeps_current _ id _ (ih (by omega))

theorem polling_gateway_push (w : World) (id : String) (k : Nat) (s : Option String)
    (h : Polling w id k)
    (hc : w.store.currentTransaction.bind (fun t => t.transactionId) = some id) :
    Terminal (step w (Event.updatePaymentStatus s (some "SUCCESSFUL"))) ∧
    (step w (Event.updatePaymentStatus s (some "SUCCESSFUL"))).ui.step = Step.success ∧
    (step w (Event.updatePaymentStatus s (some "SUCCESSFUL"))).ui.localPaymentStatus
      = some "SUCCESSFUL" ∧
    (step w (Event.updatePaymentStatus s (some "SUCCESSFUL"))).navigations
      = w.navigations ++ [successPath (some id)] ∧
    (step w (Event.updatePaymentStatus s (some "SUCCESSFUL"))).statusQueries
      = w.statusQueries := by
  obtain ⟨h1, h2, h3, h4, h5, h6, h7, h8⟩ := h
  cases hct : w.store.currentTransaction with
  | none => simp [hct] at hc
  | some tx =>
    have htx : tx.transactionId = some id := by simpa [hct] using hc
    have hg : w.gatewayDeps ≠ some (some tx, some "SUCCESSFUL") := by
      rw [h6.1]
      simp [gatewayDepsOf, h5]
    have hp : w.pollingDeps ≠
        some (w.ui.transactionId, w.ui.step, w.ui.pollCount, some "SUCCESSFUL") := by
      rw [h6.2]
      simp [pollingDepsOf, h5]
    have e : step w (Event.updatePaymentStatus s (some "SUCCESSFUL")) = _ :=
      settle_gateway { w with store := updatePaymentStatus w.store s (some "SUCCESSFUL") } tx
        (by simpa [updatePaymentStatus] using hct)
        (by simp [updatePaymentStatus, truthy])
        (by simpa [gatewayDepsOf, updatePaymentStatus, truthy, hct] using hg)
        (Or.inr (by simpa [pollingDepsOf, updatePaymentStatus, truthy] using hp))
    rw [e]
    refine ⟨?_, rfl, rfl, ?_, rfl⟩
    · simp [Terminal, Settled, gatewayDepsOf, pollingDepsOf, updatePaymentStatus, truthy, h8]
    · simp [htx]

theorem verifyingWorld_current (id : String) (h : id ≠ "") :
    (verifyingWorld id).store.currentTransaction.bind (fun t => t.transactionId) = some id ∧
    (verifyingWorld id).navigations = [] ∧ (verifyingWorld id).statusQueries = [] := by
  simp [verifyingWorld, purchase, run, step, applyEvent, mount, settle, renderPass,
    gatewayEffect, pollingEffect, gatewayDepsOf, pollingDepsOf, truthy, jsOrDefault,
    doMoMoPayment, validatePhone_sample, formatPhone_sample, processMoMoPayment_pending,
    processMoMoPayment_fulfilled, doMoMoPayment_resolved, pendingInit, jsOr, h]

/-! ## The claims -/

/-- C1 (bounded polling), evaluated on the code: from a poller that has just started,
with every status query answered by a non-terminal status such as `PENDING`, the 30th
response leaves the page in step `verifying` with the timer running, and it is the 31st
query whose response ends polling with `TIMEOUT` and step `failed`; 31 status queries
are issued, not 30. -/
theorem pending_polling_times_out_at_query_31 (w : World) (id : String) (r : StatusResult)
    (h : Polling w id 0) (hr : NonTerminal r) :
    (Polling (run w (repeatEvents 30 (pollRound r))) id 30 ∧
      (run w (repeatEvents 30 (pollRound r))).statusQueries =
        w.statusQueries ++ List.replicate 30 id ∧
      (run w (repeatEvents 30 (pollRound r))).ui.localPaymentStatus =
        w.ui.localPaymentStatus) ∧
    ((run w (repeatEvents 31 (pollRound r))).ui.step = Step.failed ∧
      (run w (repeatEvents 31 (pollRound r))).ui.localPaymentStatus = some "TIMEOUT" ∧
      (run w (repeatEvents 31 (pollRound r))).interval = none ∧
      (run w (repeatEvents 31 (pollRound r))).statusQueries =
        w.statusQueries ++ List.replicate 31 id) := by
  obtain ⟨p1, p2, _, p4⟩ := polling_pending_rounds w id 0 r hr h 30 (by decide)
  rw [Nat.zero_add] at p1
  refine ⟨⟨p1, p2, p4⟩, ?_⟩
  rw [repeatEvents_succ_right, run_append]
  obtain ⟨c1, c2, c3, _, _, c6, _⟩ :=
    polling_ceiling_round _ id 30 r p1 (by decide)
  refine ⟨c2, c3, c1.2.2.1, ?_⟩
  rw [c6, p2, List.append_assoc, ← List.replicate_succ']

/-- Witness of C1: the purchase of transaction `tx1` answered `PENDING` throughout. -/
theorem pending_polling_times_out_at_query_31_witness :
    Polling (verifyingWorld "tx1") "tx1" 0 ∧ NonTerminal (pendingStatus "tx1") ∧
    (run (verifyingWorld "tx1")
      (repeatEvents 30 (pollRound (pendingStatus "tx1")))).ui.step = Step.verifying ∧
    (run (verifyingWorld "tx1")
      (repeatEvents 31 (pollRound (pendingStatus "tx1")))).statusQueries =
        (verifyingWorld "tx1").statusQueries ++ List.replicate 31 "tx1" :=
  ⟨by decide, by decide,
    (pending_polling_times_out_at_query_31 (verifyingWorld "tx1") "tx1"
      (pendingStatus "tx1") (by decide) (by decide)).1.1.1,
    (pending_polling_times_out_at_query_31 (verifyingWorld "tx1") "tx1"
      (pendingStatus "tx1") (by decide) (by decide)).2.2.2.2⟩

/-- C2, counterexample: five status queries in a row fail right after verification
started; the page is still in step `verifying`, the timer is still running and no
reason was set. -/
theorem five_errors_at_start_keep_polling :
    (run (verifyingWorld "tx1") (repeatEvents 5 (errorRound none))).ui.step
      = Step.verifying ∧
    (run (verifyingWorld "tx1") (repeatEvents 5 (errorRound none))).ui.step
      ≠ Step.failed ∧
    (run (verifyingWorld "tx1") (repeatEvents 5 (errorRound none))).interval ≠ none ∧
    (run (verifyingWorld "tx1") (repeatEvents 5 (errorRound none))).ui.formError
      ≠ "Unable to verify payment status. Please contact support." ∧
    (run (verifyingWorld "tx1") (repeatEvents 5 (errorRound none))).statusQueries.length
      = 5 := by
  decide

/-- C2, amended: when five consecutive status queries fail and at least five polls have
been counted for the transaction (`pollCount ≥ 5`), the handler stops the timer and ends
in step `failed` with the generic reason; this happens at the first of these failures,
so only one of the five queries is issued. -/
theorem errors_after_five_counted_polls_are_fatal (w : World) (id : String) (k : Nat)
    (m : Option String) (h : Polling w id k) (hk : 5 ≤ k) :
    (run w (repeatEvents 5 (errorRound m))).ui.step = Step.failed ∧
    (run w (repeatEvents 5 (errorRound m))).ui.formError =
      "Unable to verify payment status. Please contact support." ∧
    (run w (repeatEvents 5 (errorRound m))).interval = none ∧
    (run w (repeatEvents 5 (errorRound m))).statusQueries = w.statusQueries ++ [id] := by
  have e : repeatEvents 5 (errorRound m) = errorRound m ++ repeatEvents 4 (errorRound m) :=
    rfl
  obtain ⟨t1, t2, t3, _⟩ := polling_error_round_high w id k m h hk
  rw [e, run_append, terminal_errorRounds _ t1 m 4]
  exact ⟨by rw [t2], by rw [t2], t1.2.2.1, t3⟩

/-- Witness of C2 (amended): five `PENDING` responses, then the failures. -/
theorem errors_after_five_counted_polls_are_fatal_witness :
    Polling (run (verifyingWorld "tx1") (repeatEvents 5 (pollRound (pendingStatus "tx1"))))
      "tx1" 5 ∧ 5 ≤ 5 ∧
    (run (run (verifyingWorld "tx1") (repeatEvents 5 (pollRound (pendingStatus "tx1"))))
      (repeatEvents 5 (errorRound none))).ui.step = Step.failed :=
  ⟨(polling_pending_rounds (verifyingWorld "tx1") "tx1" 0 (pendingStatus "tx1")
      (nonTerminal_pendingStatus "tx1") (verifyingWorld_polling "tx1" (by decide)) 5
      (by decide)).1,
    by decide,
    (errors_after_five_counted_polls_are_fatal
      (run (verifyingWorld "tx1") (repeatEvents 5 (pollRound (pendingStatus "tx1"))))
      "tx1" 5 none
      (polling_pending_rounds (verifyingWorld "tx1") "tx1" 0 (pendingStatus "tx1")
        (nonTerminal_pendingStatus "tx1") (verifyingWorld_polling "tx1" (by decide)) 5
        (by decide)).1
      (by decide)).1⟩

/-- C3, counterexample: after six `PENDING` responses a single failed status query, the
first failure of the whole attempt, is fatal: the page ends in step `failed` with the
timer stopped. -/
theorem single_error_after_six_pending_is_fatal :
    (run (verifyingWorld "tx1")
      (repeatEvents 6 (pollRound (pendingStatus "tx1")) ++ errorRound none)).ui.step
      = Step.failed ∧
    (run (verifyingWorld "tx1")
      (repeatEvents 6 (pollRound (pendingStatus "tx1")) ++ errorRound none)).ui.step
      ≠ Step.verifying ∧
    (run (verifyingWorld "tx1")
      (repeatEvents 6 (pollRound (pendingStatus "tx1")) ++ errorRound none)).interval
      = none := by
  have hp := (polling_pending_rounds (verifyingWorld "tx1") "tx1" 0 (pendingStatus "tx1")
    (nonTerminal_pendingStatus "tx1") (verifyingWorld_polling "tx1" (by decide)) 6
    (by decide)).1
  obtain ⟨t1, t2, _, _⟩ := polling_error_round_high _ "tx1" (0 + 6) none hp (by decide)
  rw [run_append]
  exact ⟨by rw [t2], by rw [t2]; decide, t1.2.2.1⟩

/-- C3, amended: a status-query failure that arrives while fewer than five polls have
been counted (`pollCount < 5`) is never fatal, however many failures preceded it: the
state of the page is unchanged, the step stays `verifying`, the poller keeps running and
the next tick issues the next query. -/
theorem error_before_five_counted_polls_is_not_fatal (w : World) (id : String) (k : Nat)
    (m : Option String) (h : Polling w id k) (hk : k < 5) :
    Polling (run w (errorRound m)) id k ∧
    (run w (errorRound m)).ui = w.ui ∧
    (run w (errorRound m)).ui.step = Step.verifying ∧
    (run w (errorRound m)).statusQueries = w.statusQueries ++ [id] ∧
    (step (run w (errorRound m)) Event.tick).statusQueries =
      w.statusQueries ++ [id] ++ [id] := by
  have e := polling_error_round_low w id k m h hk
  obtain ⟨h1, h2, h3, h4, h5, h6, h7, h8⟩ := h
  have hp : Polling (run w (errorRound m)) id k := by
    rw [e]
    exact ⟨h1, h2, h3, h4, by simpa using h5,
      by simpa [Settled, gatewayDepsOf, pollingDepsOf] using h6, h7, h8⟩
  refine ⟨hp, by rw [e], by rw [e]; exact h1, by rw [e], ?_⟩
  cases hi : (run w (errorRound m)).interval with
  | none =>
    have h7' := hp.2.2.2.2.2.2.1
    simp [hi] at h7'
  | some p =>
    have h7' := hp.2.2.2.2.2.2.1
    simp only [hi, Option.map_some', Option.some.injEq, Prod.mk.injEq] at h7'
    rw [step_tick_polling _ p hp.2.2.2.2.2.1 hi, h7'.1]
    simp [e]

/-- Witness of C3 (amended): four failures, one `PENDING` response, one more failure. -/
theorem error_before_five_counted_polls_is_not_fatal_witness :
    Polling (run (verifyingWorld "tx1")
      (repeatEvents 4 (errorRound none) ++ pollRound (pendingStatus "tx1"))) "tx1" 1 ∧
    1 < 5 ∧
    (run (run (verifyingWorld "tx1")
      (repeatEvents 4 (errorRound none) ++ pollRound (pendingStatus "tx1")))
      (errorRound none)).ui.step = Step.verifying :=
  ⟨by decide, by decide,
    (error_before_five_counted_polls_is_not_fatal
      (run (verifyingWorld "tx1")
        (repeatEvents 4 (errorRound none) ++ pollRound (pendingStatus "tx1")))
      "tx1" 1 none (by decide) (by decide)).2.2.1⟩

/-- C7, evaluated on the code: while fewer than five polls have been counted, status
queries that fail never stop the poller; after any number `n` of failed queries the
page is still in step `verifying` with the timer running, and `n` queries were issued.
No bound on the number of queries exists. -/
theorem polling_never_stops_while_queries_fail (w : World) (id : String) (k : Nat)
    (m : Option String) (h : Polling w id k) (hk : k < 5) (n : Nat) :
    (run w (repeatEvents n (errorRound m))).ui.step = Step.verifying ∧
    (run w (repeatEvents n (errorRound m))).interval ≠ none ∧
    (run w (repeatEvents n (errorRound m))).statusQueries.length =
      w.statusQueries.length + n := by
  obtain ⟨p1, _, p3⟩ := polling_error_rounds_low w id k m h hk n
  refine ⟨p1.1, ?_, ?_⟩
  · intro hi
    have h7 := p1.2.2.2.2.2.2.1
    simp [hi] at h7
  · rw [p3, List.length_append, List.length_replicate]

/-- Witness of C7: the purchase of transaction `tx1` with a thousand failed queries. -/
theorem polling_never_stops_while_queries_fail_witness :
    Polling (verifyingWorld "tx1") "tx1" 0 ∧ 0 < 5 ∧
    (run (verifyingWorld "tx1") (repeatEvents 1000 (errorRound none))).ui.step
      = Step.verifying ∧
    (run (verifyingWorld "tx1") (repeatEvents 1000 (errorRound none))).interval ≠ none ∧
    (run (verifyingWorld "tx1") (repeatEvents 1000 (errorRound none))).statusQueries.length
      = (verifyingWorld "tx1").statusQueries.length + 1000 :=
  ⟨by decide, by decide,
    polling_never_stops_while_queries_fail (verifyingWorld "tx1") "tx1" 0 none
      (by decide) (by decide) 1000⟩

/-- C6, evaluated on the code: when the poll count has reached `maxPolls` (the 31st
query), the status that the response reports, `SUCCESSFUL` and `FAILED` included, does
not show in the resulting state: the step is `failed`, `localPaymentStatus` is `TIMEOUT`
and `formError` is the timeout text, while for `SUCCESSFUL` the navigation to the
success page is scheduled all the same. -/
theorem terminal_status_at_ceiling_reported_as_timeout (w : World) (id : String)
    (r : StatusResult) (h : Polling w id maxPolls) :
    (run w (pollRound r)).ui.step = Step.failed ∧
    (run w (pollRound r)).ui.localPaymentStatus = some "TIMEOUT" ∧
    (run w (pollRound r)).ui.formError =
      "Payment is taking longer than expected. Your transaction may still process." ∧
    (statusOf r = some "SUCCESSFUL" →
      (run w (pollRound r)).navigations = w.navigations ++ [successPath (some id)]) := by
  obtain ⟨_, c2, c3, _, c5, _, c7⟩ := polling_ceiling_round w id maxPolls r h (le_refl _)
  refine ⟨c2, c3, c5, fun hs => ?_⟩
  rw [c7, if_pos (Or.inr hs)]

/-- Witness of C6: thirty `PENDING` responses, then `SUCCESSFUL`. -/
theorem terminal_status_at_ceiling_reported_as_timeout_witness :
    Polling (run (verifyingWorld "tx1") (repeatEvents 30 (pollRound (pendingStatus "tx1"))))
      "tx1" maxPolls ∧
    statusOf successStatus = some "SUCCESSFUL" ∧
    (run (run (verifyingWorld "tx1") (repeatEvents 30 (pollRound (pendingStatus "tx1"))))
      (pollRound successStatus)).ui.step = Step.failed ∧
    (run (run (verifyingWorld "tx1") (repeatEvents 30 (pollRound (pendingStatus "tx1"))))
      (pollRound successStatus)).ui.localPaymentStatus = some "TIMEOUT" :=
  ⟨(polling_pending_rounds (verifyingWorld "tx1") "tx1" 0 (pendingStatus "tx1")
      (nonTerminal_pendingStatus "tx1") (verifyingWorld_polling "tx1" (by decide)) 30
      (by decide)).1,
    statusOf_successStatus,
    (terminal_status_at_ceiling_reported_as_timeout
      (run (verifyingWorld "tx1") (repeatEvents 30 (pollRound (pendingStatus "tx1"))))
      "tx1" successStatus
      (polling_pending_rounds (verifyingWorld "tx1") "tx1" 0 (pendingStatus "tx1")
        (nonTerminal_pendingStatus "tx1") (verifyingWorld_polling "tx1" (by decide)) 30
        (by decide)).1).1,
    (terminal_status_at_ceiling_reported_as_timeout
      (run (verifyingWorld "tx1") (repeatEvents 30 (pollRound (pendingStatus "tx1"))))
      "tx1" successStatus
      (polling_pending_rounds (verifyingWorld "tx1") "tx1" 0 (pendingStatus "tx1")
        (nonTerminal_pendingStatus "tx1") (verifyingWorld_polling "tx1" (by decide)) 30
        (by decide)).1).2.1⟩

/-- C4, counterexample: a poll reported `FAILED` and the page is in step `failed`; a
later store update that sets `gatewayStatus` to `SUCCESSFUL` is seen by the
gateway-success effect, which moves the step to `success` and `localPaymentStatus` to
`SUCCESSFUL`. -/
theorem gateway_success_overrides_failed_step :
    (run (verifyingWorld "tx1") (pollRound (failedStatus none))).ui.step = Step.failed ∧
    (run (verifyingWorld "tx1") (pollRound (failedStatus none))).ui.localPaymentStatus
      = some "FAILED" ∧
    (run (verifyingWorld "tx1")
      (pollRound (failedStatus none) ++
        [Event.updatePaymentStatus (some "SUCCESSFUL") (some "SUCCESSFUL")])).ui.step
      = Step.success ∧
    (run (verifyingWorld "tx1")
      (pollRound (failedStatus none) ++
        [Event.updatePaymentStatus (some "SUCCESSFUL")
          (some "SUCCESSFUL")])).ui.localPaymentStatus
      = some "SUCCESSFUL" := by
  decide

/-- C4, amended: once the step is `success` or `failed` and no status query is pending,
a timer tick or a store update issues no status query, leaves the flow ended, and
changes the state of the page only through the gateway-success effect: when the update
changes `currentTransaction` or `gatewayStatus` and leaves a current transaction with
`gatewayStatus` equal to `SUCCESSFUL`, the step becomes `success` and
`localPaymentStatus` becomes `SUCCESSFUL`; otherwise the state of the page is
unchanged. -/
theorem terminal_step_changes_only_by_gateway_effect (w : World) (e : Event)
    (h : Terminal w) (he : Observation e) :
    Terminal (step w e) ∧ (step w e).statusQueries = w.statusQueries ∧
    (GatewayFires (applyEvent w e) →
      (step w e).ui.step = Step.success ∧
      (step w e).ui.localPaymentStatus = some "SUCCESSFUL") ∧
    (¬ GatewayFires (applyEvent w e) → (step w e).ui = w.ui) := by
  cases e with
  | tick =>
    have hn : ¬ GatewayFires (applyEvent w Event.tick) := by
      simp [applyEvent, tick, h.2.2.1, GatewayFires, h.2.1.1]
    rw [terminal_tick w h]
    exact ⟨h, rfl, fun hy => absurd hy hn, fun _ => rfl⟩
  | updatePaymentStatus s g => exact terminal_store_update w _ h
  | clearTransaction => exact terminal_store_update w _ h
  | handleStartPayment t => exact he.elim
  | changeSelection => exact he.elim
  | setPhone p => exact he.elim
  | doMoMoPayment => exact he.elim
  | retryPayment => exact he.elim
  | initFulfilled r => exact he.elim
  | initRejected m er => exact he.elim
  | statusFulfilled i r => exact he.elim
  | statusRejected i m => exact he.elim

/-- Witness of C4 (amended): after a poll reported `FAILED`, the store is told that the
payment is `PENDING`. -/
theorem terminal_step_changes_only_by_gateway_effect_witness :
    Terminal (run (verifyingWorld "tx1") (pollRound (failedStatus none))) ∧
    Observation (Event.updatePaymentStatus (some "PENDING") none) ∧
    (step (run (verifyingWorld "tx1") (pollRound (failedStatus none)))
      (Event.updatePaymentStatus (some "PENDING") none)).statusQueries =
      (run (verifyingWorld "tx1") (pollRound (failedStatus none))).statusQueries :=
  ⟨by decide, trivial,
    (terminal_step_changes_only_by_gateway_effect
      (run (verifyingWorld "tx1") (pollRound (failedStatus none)))
      (Event.updatePaymentStatus (some "PENDING") none) (by decide) trivial).2.1⟩

/-- C5, counterexample: the initiation response carries status `SUCCESSFUL` and a
gateway status `SUCCESSFUL`; the gateway-success effect and `doMoMoPayment` each
schedule the navigation, so it is scheduled twice for the one attempt. -/
theorem immediate_gateway_success_navigates_twice :
    (purchase (gatewayInit "tx1")).navigations =
      ["/payment-success/tx1", "/payment-success/tx1"] ∧
    ¬ (purchase (gatewayInit "tx1")).navigations.length ≤ 1 := by
  decide

/-- C5, amended: for one purchase attempt that receives a single success signal the
navigation to `/payment-success/<transaction id>` is scheduled exactly once, whatever
ticks follow: (a) when the initiation reports `PENDING`, the store never reports gateway
success and a poll before the ceiling reports `SUCCESSFUL`; (b) when the initiation
response has status `SUCCESSFUL` and carries no gateway status; (c) when the initiation
reports `PENDING` and, after some `PENDING` polls, the store's `gatewayStatus` becomes
`SUCCESSFUL`. -/
theorem single_success_signal_navigates_once (id : String) (h : id ≠ "") (k n : Nat)
    (s : Option String) (hk : k < maxPolls) :
    ((run (verifyingWorld id)
      (repeatEvents k (pollRound (pendingStatus id)) ++ pollRound successStatus ++
        repeatEvents n [Event.tick])).navigations = [successPath (some id)] ∧
     (run (verifyingWorld id)
      (repeatEvents k (pollRound (pendingStatus id)) ++ pollRound successStatus ++
        repeatEvents n [Event.tick])).ui.step = Step.success) ∧
    ((run (purchase (immediateInit id)) (repeatEvents n [Event.tick])).navigations =
      [successPath (some id)] ∧
     (run (purchase (immediateInit id)) (repeatEvents n [Event.tick])).ui.step
      = Step.success) ∧
    ((run (verifyingWorld id)
      (repeatEvents k (pollRound (pendingStatus id)) ++
        [Event.updatePaymentStatus s (some "SUCCESSFUL")] ++
        repeatEvents n [Event.tick])).navigations = [successPath (some id)] ∧
     (run (verifyingWorld id)
      (repeatEvents k (pollRound (pendingStatus id)) ++
        [Event.updatePaymentStatus s (some "SUCCESSFUL")] ++
        repeatEvents n [Event.tick])).ui.step = Step.success) := by
  have h0 := verifyingWorld_polling id h
  obtain ⟨hcur, hnav, _⟩ := verifyingWorld_current id h
  obtain ⟨p1, _, p3, _⟩ := polling_pending_rounds (verifyingWorld id) id 0
    (pendingStatus id) (nonTerminal_pendingStatus id) h0 k (by omega)
  have pc := polling_pending_rounds_current (verifyingWorld id) id 0 h0 hcur k (by omega)
  obtain ⟨s1, s2, _, s4, _⟩ := polling_success_round _ id (0 + k) successStatus p1
    (by omega) (Or.inr statusOf_successStatus)
  obtain ⟨i1, i2, _, i4⟩ := purchase_immediate id h
  obtain ⟨g1, g2, _, g4, _⟩ := polling_gateway_push _ id (0 + k) s p1 pc
  have eg : run (run (verifyingWorld id) (repeatEvents k (pollRound (pendingStatus id))))
      [Event.updatePaymentStatus s (some "SUCCESSFUL")] =
      step (run (verifyingWorld id) (repeatEvents k (pollRound (pendingStatus id))))
        (Event.updatePaymentStatus s (some "SUCCESSFUL")) := rfl
  refine ⟨?_, ?_, ?_⟩
  · rw [run_append, run_append, terminal_ticks _ s1 n]
    refine ⟨?_, by rw [s2]⟩
    rw [s4, p3, hnav, List.nil_append]
  · rw [terminal_ticks _ i1 n]
    exact ⟨i4, i2⟩
  · rw [run_append, run_append, eg, terminal_ticks _ g1 n]
    refine ⟨?_, g2⟩
    rw [g4, p3, hnav, List.nil_append]

/-- Witness of C5 (amended): transaction `tx1`, two `PENDING` responses before the
success, three ticks after it. -/
theorem single_success_signal_navigates_once_witness :
    "tx1" ≠ "" ∧ 2 < maxPolls ∧
    (run (verifyingWorld "tx1")
      (repeatEvents 2 (pollRound (pendingStatus "tx1")) ++ pollRound successStatus ++
        repeatEvents 3 [Event.tick])).navigations = [successPath (some "tx1")] :=
  ⟨by decide, by decide,
    (single_success_signal_navigates_once "tx1" (by decide) 2 3 none (by decide)).1.1⟩

/-- C8 (priority of push success): while the poller is running for the transaction the
store holds, the store's `gatewayStatus` becomes `SUCCESSFUL`.  The timer is cleared,
the step is `success`, and whatever the status endpoint would have answered at the next
tick (for instance `FAILED`), no status query is issued any more and the step stays
`success`. -/
theorem push_success_cancels_poller (w : World) (id : String) (k : Nat)
    (s : Option String) (r : StatusResult) (n : Nat)
    (h : Polling w id k)
    (hc : w.store.currentTransaction.bind (fun t => t.transactionId) = some id) :
    (step w (Event.updatePaymentStatus s (some "SUCCESSFUL"))).interval = none ∧
    (step w (Event.updatePaymentStatus s (some "SUCCESSFUL"))).ui.step = Step.success ∧
    (step w (Event.updatePaymentStatus s (some "SUCCESSFUL"))).ui.localPaymentStatus
      = some "SUCCESSFUL" ∧
    (step w (Event.updatePaymentStatus s (some "SUCCESSFUL"))).navigations
      = w.navigations ++ [successPath (some id)] ∧
    (run w (Event.updatePaymentStatus s (some "SUCCESSFUL") ::
      (pollRound r ++ repeatEvents n [Event.tick]))).ui.step = Step.success ∧
    (run w (Event.updatePaymentStatus s (some "SUCCESSFUL") ::
      (pollRound r ++ repeatEvents n [Event.tick]))).statusQueries = w.statusQueries ∧
    (run w (Event.updatePaymentStatus s (some "SUCCESSFUL") ::
      (pollRound r ++ repeatEvents n [Event.tick]))).interval = none := by
  obtain ⟨ht, g2, g3, g4, _⟩ := polling_gateway_push w id k s h hc
  have er : run w (Event.updatePaymentStatus s (some "SUCCESSFUL") ::
      (pollRound r ++ repeatEvents n [Event.tick])) =
      step w (Event.updatePaymentStatus s (some "SUCCESSFUL")) := by
    have e0 : run w (Event.updatePaymentStatus s (some "SUCCESSFUL") ::
        (pollRound r ++ repeatEvents n [Event.tick])) =
        run (step w (Event.updatePaymentStatus s (some "SUCCESSFUL")))
          (pollRound r ++ repeatEvents n [Event.tick]) := rfl
    rw [e0, run_append, terminal_pollRound _ ht r, terminal_ticks _ ht n]
  obtain ⟨_, _, _, _, g5⟩ := polling_gateway_push w id k s h hc
  rw [er]
  exact ⟨ht.2.2.1, g2, g3, g4, g2, g5, ht.2.2.1⟩

/-- Witness of C8: the purchase of transaction `tx1`, whose response made `tx1` the
store's current transaction. -/
theorem push_success_cancels_poller_witness :
    Polling (verifyingWorld "tx1") "tx1" 0 ∧
    (verifyingWorld "tx1").store.currentTransaction.bind (fun t => t.transactionId)
      = some "tx1" ∧
    (run (verifyingWorld "tx1")
      (Event.updatePaymentStatus (some "SUCCESSFUL") (some "SUCCESSFUL") ::
        (pollRound (failedStatus none) ++ repeatEvents 2 [Event.tick]))).ui.step
      = Step.success ∧
    (run (verifyingWorld "tx1") (pollRound (failedStatus none))).ui.step = Step.failed :=
  ⟨by decide, by decide,
    (push_success_cancels_poller (verifyingWorld "tx1") "tx1" 0 (some "SUCCESSFUL")
      (failedStatus none) 2 (by decide) (by decide)).2.2.2.2.1,
    by decide⟩

/-- C9, evaluated on the code: a status query is pending when the store reports gateway
success; the cleanup of the polling effect runs (step `success`, timer cleared) and no
further query is issued, but when the pending query then resolves with `FAILED` its
callback still runs and sets step `failed`, `localPaymentStatus` `FAILED`,
`statusMessage` and `formError`. -/
theorem inflight_result_applied_after_cleanup :
    (run (verifyingWorld "tx1")
      [Event.tick, Event.updatePaymentStatus (some "SUCCESSFUL") (some "SUCCESSFUL")]).ui.step
      = Step.success ∧
    (run (verifyingWorld "tx1")
      [Event.tick, Event.updatePaymentStatus (some "SUCCESSFUL") (some "SUCCESSFUL")]).interval
      = none ∧
    (run (verifyingWorld "tx1")
      [Event.tick, Event.updatePaymentStatus (some "SUCCESSFUL") (some "SUCCESSFUL"),
       Event.statusFulfilled 0 (failedStatus (some "Declined by payer"))]).ui.step
      = Step.failed ∧
    (run (verifyingWorld "tx1")
      [Event.tick, Event.updatePaymentStatus (some "SUCCESSFUL") (some "SUCCESSFUL"),
       Event.statusFulfilled 0
        (failedStatus (some "Declined by payer"))]).ui.localPaymentStatus
      = some "FAILED" ∧
    (run (verifyingWorld "tx1")
      [Event.tick, Event.updatePaymentStatus (some "SUCCESSFUL") (some "SUCCESSFUL"),
       Event.statusFulfilled 0 (failedStatus (some "Declined by payer"))]).ui.statusMessage
      = "Declined by payer" ∧
    (run (verifyingWorld "tx1")
      [Event.tick, Event.updatePaymentStatus (some "SUCCESSFUL") (some "SUCCESSFUL"),
       Event.statusFulfilled 0 (failedStatus (some "Declined by payer"))]).ui.formError
      = "Declined by payer" ∧
    (run (verifyingWorld "tx1")
      [Event.tick, Event.updatePaymentStatus (some "SUCCESSFUL") (some "SUCCESSFUL"),
       Event.statusFulfilled 0 (failedStatus (some "Declined by payer"))]).statusQueries
      = ["tx1"] := by
  decide

/-- C10, evaluated on the code: an earlier purchase left a current transaction `old`
and `gatewayStatus` `SUCCESSFUL` in the store.  When the page mounts again over that
store, before any submit and with no tracked transaction id, the gateway-success effect
moves the step to `success` and schedules the navigation to the old transaction. -/
theorem stale_gateway_success_fires_on_mount :
    (purchase (gatewayInit "old")).store.gatewayStatus = some "SUCCESSFUL" ∧
    (mount none (purchase (gatewayInit "old")).store).ui.step = Step.success ∧
    (mount none (purchase (gatewayInit "old")).store).ui.transactionId = none ∧
    (mount none (purchase (gatewayInit "old")).store).initRequests = [] ∧
    (mount none (purchase (gatewayInit "old")).store).navigations
      = ["/payment-success/old"] := by
  decide

/-! ## Lemmas on the submission, the initiation response and retry -/

theorem gatewayFires_of_settled_deps (x : World)
    (h : x.gatewayDeps = some (gatewayDepsOf x)) : ¬ GatewayFires x :=
  fun hf => hf.1 h

theorem gatewayFires_of_status (x : World)
    (h : x.store.gatewayStatus ≠ some "SUCCESSFUL") : ¬ GatewayFires x :=
  fun hf => h hf.2.2

theorem submit_initiating (w : World) (phone : String) (h : Idle w)
    (hv : validatePhone phone = none) :
    Initiating (run w [Event.setPhone phone, Event.doMoMoPayment]) ∧
    (run w [Event.setPhone phone, Event.doMoMoPayment]).initRequests =
      w.initRequests ++ [formatPhone phone] ∧
    (run w [Event.setPhone phone, Event.doMoMoPayment]).statusQueries = w.statusQueries ∧
    (run w [Event.setPhone phone, Event.doMoMoPayment]).navigations = w.navigations ∧
    (run w [Event.setPhone phone, Event.doMoMoPayment]).ui.transactionId =
      w.ui.transactionId ∧
    (run w [Event.setPhone phone, Event.doMoMoPayment]).ui.phone = phone ∧
    (run w [Event.setPhone phone, Event.doMoMoPayment]).ui.paymentType =
      w.ui.paymentType := by
  obtain ⟨h1, h2, h3, h4, h5, h6⟩ := h
  have e1 : step w (Event.setPhone phone) = { w with ui := { w.ui with phone := phone } } := by
    simp only [step, applyEvent, h1, h2, and_self, if_true]
    exact settle_of_settled _ (by simpa [Settled, gatewayDepsOf, pollingDepsOf, h1] using h4)
  simp only [run, List.foldl_cons, List.foldl_nil, e1]
  simp only [step, applyEvent, h1, h2, and_self, if_true, doMoMoPayment, hv]
  rw [settle_idle _ (by simp) (by simpa using h5)
    (gatewayFires_of_settled_deps _
      (by simpa [gatewayDepsOf, processMoMoPayment_pending] using h4.1))]
  simp [Initiating, Settled, gatewayDepsOf, pollingDepsOf, h5, h6, processMoMoPayment_pending]

theorem processMoMoPayment_fulfilled_gatewayStatus (s : Payments) (r : InitResult) (n : Nat) :
    (processMoMoPayment_fulfilled s r n).gatewayStatus =
      r.data.bind (fun d => d.gatewayStatus) := rfl

theorem initFulfilled_polling (w : World) (r : InitResult) (id : String)
    (h : Initiating w) (hr : Reports r id) (hs : r.status ≠ some "SUCCESSFUL")
    (hg : r.data.bind (fun d => d.gatewayStatus) ≠ some "SUCCESSFUL") :
    Polling (step w (Event.initFulfilled r)) id 0 ∧
    (step w (Event.initFulfilled r)).statusQueries = w.statusQueries ∧
    (step w (Event.initFulfilled r)).navigations = w.navigations ∧
    (step w (Event.initFulfilled r)).initRequests = w.initRequests ∧
    (step w (Event.initFulfilled r)).store.currentTransaction.bind
      (fun t => t.transactionId) = some id := by
  obtain ⟨h1, h2, h3, h4, h5⟩ := h
  obtain ⟨r1, r2, r3, r4⟩ := hr
  cases hd : r.data with
  | none => simp [hd] at r4
  | some d =>
    have hdt : d.transactionId = some id := by simpa [hd] using r4
    have e1 := settle_idle
      { w with
        awaitingInit := false
        store := processMoMoPayment_fulfilled w.store r w.nextRef
        nextRef := w.nextRef + 1 }
      (by simp [h2]) (by simpa using h4)
      (gatewayFires_of_status _ (by simpa [processMoMoPayment_fulfilled_gatewayStatus] using hg))
    simp only [step, applyEvent, h1, if_true]
    rw [e1]
    simp only [doMoMoPayment_resolved, r1, r2, hd, hs, if_false, Bool.true_and, if_true]
    rw [settle_restart _ id (by simpa [processMoMoPayment_fulfilled_gatewayStatus] using hg)
      (by simp) (by simp [hdt]) r3 (by simp [pollingDepsOf, h2])]
    have hg' : ¬ d.gatewayStatus = some "SUCCESSFUL" := by simpa [hd] using hg
    simp [Polling, Settled, gatewayDepsOf, pollingDepsOf, hdt, r3, h5,
      processMoMoPayment_fulfilled, hd, hg']

theorem polling_pending_list (rs : List StatusResult) (w : World) (id : String) (k : Nat)
    (h : Polling w id k) (hr : ∀ x ∈ rs, NonTerminal x) (hk : k + rs.length ≤ maxPolls) :
    Polling (run w (pollRounds rs)) id (k + rs.length) ∧
    (run w (pollRounds rs)).statusQueries =
      w.statusQueries ++ List.replicate rs.length id ∧
    (run w (pollRounds rs)).navigations = w.navigations := by
  induction rs generalizing w k with
  | nil => simpa [pollRounds, run] using h
  | cons r rs ih =>
    have hl : (r :: rs).length = rs.length + 1 := rfl
    obtain ⟨p1, p2, p3, _⟩ := polling_pending_round w id k r h (by omega)
      (hr r (List.mem_cons_self r rs))
    obtain ⟨q1, q2, q3⟩ := ih (run w (pollRound r)) (k + 1) p1
      (fun x hx => hr x (List.mem_cons_of_mem r hx)) (by omega)
    have e : pollRounds (r :: rs) = pollRound r ++ pollRounds rs := rfl
    rw [e, run_append, hl]
    refine ⟨?_, ?_, ?_⟩
    · have ek : k + (rs.length + 1) = k + 1 + rs.length := by omega
      rw [ek]
      exact q1
    · rw [q2, p2, List.append_assoc]
      rfl
    · rw [q3, p3]

theorem settle_calm (x : World) (hs : x.ui.step ≠ Step.verifying) (hi : x.interval = none) :
    Settled (settle x) ∧ (settle x).interval = none ∧ (settle x).store = x.store ∧
    (settle x).statusQueries = x.statusQueries ∧ (settle x).inflight = x.inflight ∧
    (settle x).initRequests = x.initRequests ∧ (settle x).awaitingInit = x.awaitingInit ∧
    (settle x).ui.transactionId = x.ui.transactionId ∧
    (settle x).ui.pollCount = x.ui.pollCount ∧
    (settle x).ui.processing = x.ui.processing ∧
    (settle x).ui.formError = x.ui.formError ∧
    (settle x).ui.phone = x.ui.phone ∧
    (settle x).ui.paymentType = x.ui.paymentType ∧
    ((settle x).ui.step = x.ui.step ∨ (settle x).ui.step = Step.success) := by
  refine ⟨settle_settled x, ?_⟩
  by_cases hf : GatewayFires x
  · obtain ⟨hf1, hf2, hf3⟩ := hf
    cases hct : x.store.currentTransaction with
    | none => exact absurd hct hf2
    | some tx =>
      rw [settle_gateway x tx hct hf3 hf1 (Or.inl hi)]
      simp
  · rw [settle_idle x hs hi hf]
    simp [hi]

theorem tick_no_timer (w : World) (hs : Settled w) (hi : w.interval = none) :
    step w Event.tick = w := by
  simp only [step, applyEvent, tick, hi]
  exact settle_of_settled w hs

theorem ticks_no_timer (w : World) (hs : Settled w) (hi : w.interval = none) (n : Nat) :
    run w (repeatEvents n [Event.tick]) = w := by
  induction n with
  | zero => rfl
  | succ n ih =>
    rw [repeatEvents_succ_right, run_append, ih]
    simp only [run, List.foldl_cons, List.foldl_nil]
    exact tick_no_timer w hs hi

theorem jsOrDefault_ne_empty (a : Option String) (d : String) (hd : d ≠ "") :
    jsOrDefault a d ≠ "" := by
  unfold jsOrDefault
  cases a with
  | none => exact hd
  | some s =>
    by_cases h : s = ""
    · simp [h, hd]
    · simp [h]

/-- After the store was updated and the page re-rendered, the code after `await` of
`doMoMoPayment` changed only state cells, to a step other than `verifying`: the
re-render that follows leaves the page as the handler left it. -/
theorem settle_after_handler (s y : World) (hs : Settled s) (hst : y.store = s.store)
    (hgd : y.gatewayDeps = s.gatewayDeps) (hstep : y.ui.step ≠ Step.verifying)
    (hi : y.interval = none) :
    settle y =
      { y with
        gatewayDeps := some (gatewayDepsOf y)
        pollingDeps := some (pollingDepsOf y) } := by
  apply settle_idle y hstep hi
  apply gatewayFires_of_settled_deps
  rw [hgd, hs.1]
  simp [gatewayDepsOf, hst]

theorem catch_after_render (s : World) (v : Option String) (hs : Settled s)
    (hi : s.interval = none) :
    Settled (settle (doMoMoPayment_catch v s)) ∧
    (settle (doMoMoPayment_catch v s)).interval = none ∧
    (settle (doMoMoPayment_catch v s)).statusQueries = s.statusQueries ∧
    (settle (doMoMoPayment_catch v s)).ui.step = Step.confirm ∧
    (settle (doMoMoPayment_catch v s)).ui.processing = false ∧
    (settle (doMoMoPayment_catch v s)).ui.formError =
      jsOrDefault v "Payment processing failed. Please try again." ∧
    (settle (doMoMoPayment_catch v s)).ui.transactionId = s.ui.transactionId := by
  rw [settle_after_handler s (doMoMoPayment_catch v s) hs rfl rfl
    (by simp [doMoMoPayment_catch]) (by simpa [doMoMoPayment_catch] using hi)]
  exact ⟨⟨rfl, rfl⟩, hi, rfl, rfl, rfl, rfl, rfl⟩

theorem initRejected_confirm (w : World) (message error : Option String)
    (h : Initiating w) :
    Settled (step w (Event.initRejected message error)) ∧
    (step w (Event.initRejected message error)).interval = none ∧
    (step w (Event.initRejected message error)).statusQueries = w.statusQueries ∧
    (step w (Event.initRejected message error)).ui.step = Step.confirm ∧
    (step w (Event.initRejected message error)).ui.processing = false ∧
    (step w (Event.initRejected message error)).ui.formError =
      jsOrDefault (processMoMoPayment_rejectValue message error)
        "Payment processing failed. Please try again." ∧
    (step w (Event.initRejected message error)).ui.transactionId = w.ui.transactionId := by
  obtain ⟨h1, h2, h3, h4, h5⟩ := h
  obtain ⟨c1, c2, _, c4, _, _, _, c8, _⟩ := settle_calm
    { w with
      awaitingInit := false
      store := processMoMoPayment_rejected w.store
        (processMoMoPayment_rejectValue message error) }
    (by simp [h2]) (by simpa using h4)
  obtain ⟨d1, d2, d3, d4, d5, d6, d7⟩ :=
    catch_after_render _ (processMoMoPayment_rejectValue message error) c1 c2
  simp only [step, applyEvent, h1, if_true]
  exact ⟨d1, d2, d3.trans c4, d4, d5, d6, d7.trans c8⟩

theorem lacking_after_render (s : World) (r : InitResult) (hr : LacksSuccess r)
    (hs : Settled s) (hi : s.interval = none) :
    Settled (settle (doMoMoPayment_resolved r s)) ∧
    (settle (doMoMoPayment_resolved r s)).interval = none ∧
    (settle (doMoMoPayment_resolved r s)).statusQueries = s.statusQueries ∧
    (settle (doMoMoPayment_resolved r s)).ui.step = Step.confirm ∧
    (settle (doMoMoPayment_resolved r s)).ui.processing = false ∧
    (settle (doMoMoPayment_resolved r s)).ui.formError =
      jsOrDefault r.message "Payment initiation failed. Please try again." ∧
    (settle (doMoMoPayment_resolved r s)).ui.transactionId = s.ui.transactionId := by
  have hr' : (r.success && truthy r.transactionId) = false := hr
  have e : doMoMoPayment_resolved r s =
      { s with ui := { s.ui with
          processing := false
          step := Step.confirm
          formError := jsOrDefault r.message
            "Payment initiation failed. Please try again." } } := by
    simp [doMoMoPayment_resolved, hr']
  rw [settle_after_handler s (doMoMoPayment_resolved r s) hs (by rw [e]) (by rw [e])
    (by rw [e]; simp) (by rw [e]; simpa using hi), e]
  exact ⟨⟨rfl, rfl⟩, hi, rfl, rfl, rfl, rfl, rfl⟩

theorem initFulfilled_lacking (w : World) (r : InitResult)
    (h : Initiating w) (hr : LacksSuccess r) :
    Settled (step w (Event.initFulfilled r)) ∧
    (step w (Event.initFulfilled r)).interval = none ∧
    (step w (Event.initFulfilled r)).statusQueries = w.statusQueries ∧
    (step w (Event.initFulfilled r)).ui.step = Step.confirm ∧
    (step w (Event.initFulfilled r)).ui.processing = false ∧
    (step w (Event.initFulfilled r)).ui.formError =
      jsOrDefault r.message "Payment initiation failed. Please try again." ∧
    (step w (Event.initFulfilled r)).ui.transactionId = w.ui.transactionId := by
  obtain ⟨h1, h2, h3, h4, h5⟩ := h
  obtain ⟨c1, c2, _, c4, _, _, _, c8, _⟩ := settle_calm
    { w with
      awaitingInit := false
      store := processMoMoPayment_fulfilled w.store r w.nextRef
      nextRef := w.nextRef + 1 }
    (by simp [h2]) (by simpa using h4)
  obtain ⟨d1, d2, d3, d4, d5, d6, d7⟩ := lacking_after_render _ r hr c1 c2
  simp only [step, applyEvent, h1, if_true]
  exact ⟨d1, d2, d3.trans c4, d4, d5, d6, d7.trans c8⟩

theorem resolved_immediate (r : InitResult) (id : String) (hr : Reports r id)
    (hs : r.status = some "SUCCESSFUL") (x : World) :
    doMoMoPayment_resolved r x =
      { x with
        ui := { x.ui with
          transactionId := some id
          processing := false
          step := Step.success
          statusMessage := "Payment confirmed! Access granted." }
        navigations := x.navigations ++ [successPath (some id)] } := by
  obtain ⟨r1, r2, r3, r4⟩ := hr
  cases hd : r.data with
  | none => simp [hd] at r4
  | some d =>
    have hdt : d.transactionId = some id := by simpa [hd] using r4
    simp [doMoMoPayment_resolved, r1, r2, hd, hs, hdt]

theorem immediate_after_render (s : World) (r : InitResult) (id : String)
    (hr : Reports r id) (hst : r.status = some "SUCCESSFUL")
    (hs : Settled s) (hi : s.interval = none) :
    Settled (settle (doMoMoPayment_resolved r s)) ∧
    (settle (doMoMoPayment_resolved r s)).interval = none ∧
    (settle (doMoMoPayment_resolved r s)).statusQueries = s.statusQueries ∧
    (settle (doMoMoPayment_resolved r s)).ui.step = Step.success ∧
    (settle (doMoMoPayment_resolved r s)).ui.transactionId = some id ∧
    (settle (doMoMoPayment_resolved r s)).inflight = s.inflight := by
  have e := resolved_immediate r id hr hst s
  rw [settle_after_handler s (doMoMoPayment_resolved r s) hs (by rw [e]) (by rw [e])
    (by rw [e]; simp) (by rw [e]; simpa using hi), e]
  exact ⟨⟨rfl, rfl⟩, hi, rfl, rfl, rfl, rfl⟩

theorem initFulfilled_immediate (w : World) (r : InitResult) (id : String)
    (h : Initiating w) (hr : Reports r id) (hs : r.status = some "SUCCESSFUL") :
    Terminal (step w (Event.initFulfilled r)) ∧
    (step w (Event.initFulfilled r)).statusQueries = w.statusQueries ∧
    (step w (Event.initFulfilled r)).ui.step = Step.success ∧
    (step w (Event.initFulfilled r)).ui.transactionId = some id := by
  obtain ⟨h1, h2, h3, h4, h5⟩ := h
  obtain ⟨c1, c2, _, c4, c5, _⟩ := settle_calm
    { w with
      awaitingInit := false
      store := processMoMoPayment_fulfilled w.store r w.nextRef
      nextRef := w.nextRef + 1 }
    (by simp [h2]) (by simpa using h4)
  obtain ⟨d1, d2, d3, d4, d5, d6⟩ := immediate_after_render _ r id hr hs c1 c2
  simp only [step, applyEvent, h1, if_true]
  refine ⟨⟨Or.inl d4, d1, d2, ?_⟩, d3.trans c4, d4, d5⟩
  rw [d6, c5]
  exact h5

theorem gatewayEffect_frame_more (w : World) :
    (gatewayEffect w).statusQueries = w.statusQueries ∧
    (gatewayEffect w).inflight = w.inflight ∧
    (gatewayEffect w).interval = w.interval ∧
    (gatewayEffect w).ui.transactionId = w.ui.transactionId := by
  unfold gatewayEffect
  cases w.store.currentTransaction with
  | none => exact ⟨rfl, rfl, rfl, rfl⟩
  | some tx =>
    by_cases h : w.store.gatewayStatus = some "SUCCESSFUL"
    · simp only [h, if_true, and_self]
    · simp only [h, if_false, and_self]

theorem pollingEffect_frame_more (r w : World) :
    (pollingEffect r w).statusQueries = w.statusQueries ∧
    (pollingEffect r w).inflight = w.inflight ∧
    ((pollingEffect r w).interval = w.interval ∨
      (pollingEffect r w).interval.map (fun p => some p.transactionId) =
        some r.ui.transactionId) := by
  unfold pollingEffect
  cases hid : r.ui.transactionId with
  | none => simp
  | some id =>
    by_cases h : id = "" ∨ r.ui.step ≠ Step.verifying ∨
        r.store.gatewayStatus = some "SUCCESSFUL"
    · simp only [h, if_true, true_or, and_self]
    · simp only [h, if_false, Option.map_some', or_true, and_self]

theorem tracks_of_interval (w : World) (id : String) (ht : w.ui.transactionId = some id)
    (hi : w.interval = none ∨
      w.interval.map (fun p => some p.transactionId) = some (some id)) :
    Tracks w id := by
  refine ⟨ht, ?_⟩
  rcases hi with h | h
  · simp [h]
  · cases hp : w.interval with
    | none => simp
    | some p =>
      simp only [hp, Option.map_some', Option.some.injEq] at h
      simp [h]

theorem renderPass_tracks (w : World) (id : String) (h : Tracks w id) :
    Tracks (renderPass w) id ∧ (renderPass w).statusQueries = w.statusQueries ∧
    (renderPass w).inflight = w.inflight := by
  obtain ⟨ht, hi⟩ := h
  have key : ∀ w1 : World, w1.statusQueries = w.statusQueries → w1.inflight = w.inflight →
      w1.interval = w.interval → w1.ui.transactionId = w.ui.transactionId →
      Tracks (if w.pollingDeps = some (pollingDepsOf w) then w1
        else pollingEffect w
          { w1 with pollingDeps := some (pollingDepsOf w), interval := none }) id ∧
      (if w.pollingDeps = some (pollingDepsOf w) then w1
        else pollingEffect w
          { w1 with pollingDeps := some (pollingDepsOf w), interval := none }).statusQueries
        = w.statusQueries ∧
      (if w.pollingDeps = some (pollingDepsOf w) then w1
        else pollingEffect w
          { w1 with pollingDeps := some (pollingDepsOf w), interval := none }).inflight
        = w.inflight := by
    intro w1 e1 e2 e3 e4
    by_cases hp : w.pollingDeps = some (pollingDepsOf w)
    · rw [if_pos hp]
      exact ⟨⟨e4.trans ht, by rw [e3]; exact hi⟩, e1, e2⟩
    · rw [if_neg hp]
      obtain ⟨p1, p2, p3⟩ := pollingEffect_frame_more w
        { w1 with pollingDeps := some (pollingDepsOf w), interval := none }
      obtain ⟨_, q2, _, _⟩ := pollingEffect_frame w
        { w1 with pollingDeps := some (pollingDepsOf w), interval := none }
      refine ⟨tracks_of_interval _ id (by rw [q2]; exact e4.trans ht) ?_,
        p1.trans e1, p2.trans e2⟩
      rcases p3 with h | h
      · exact Or.inl h
      · exact Or.inr (by rw [h, ht])
  dsimp only [renderPass]
  by_cases hg : w.gatewayDeps = some (gatewayDepsOf w)
  · rw [if_pos hg]
    exact key w rfl rfl rfl rfl
  · rw [if_neg hg]
    obtain ⟨g1, g2, g3, g4⟩ :=
      gatewayEffect_frame_more { w with gatewayDeps := some (gatewayDepsOf w) }
    exact key _ g1 g2 g3 g4

theorem settle_tracks (w : World) (id : String) (h : Tracks w id) :
    Tracks (settle w) id ∧ (settle w).statusQueries = w.statusQueries ∧
    (settle w).inflight = w.inflight := by
  obtain ⟨a1, a2, a3⟩ := renderPass_tracks w id h
  obtain ⟨b1, b2, b3⟩ := renderPass_tracks (renderPass w) id a1
  exact ⟨b1, b2.trans a2, b3.trans a3⟩

theorem clearInterval_quiet (n : Nat) (w : World) :
    (clearInterval n w).ui = w.ui ∧ (clearInterval n w).statusQueries = w.statusQueries ∧
    (clearInterval n w).navigations = w.navigations ∧
    ((clearInterval n w).interval = w.interval ∨ (clearInterval n w).interval = none) := by
  unfold clearInterval
  cases hp : w.interval with
  | none => simp [hp]
  | some p =>
    by_cases h : p.id = n
    · simp [h]
    · simp [h, hp]

theorem tracks_of_quiet (w v : World) (id : String) (h : Tracks w id)
    (ht : v.ui.transactionId = w.ui.transactionId)
    (hi : v.interval = w.interval ∨ v.interval = none) : Tracks v id := by
  refine ⟨ht.trans h.1, ?_⟩
  rcases hi with e | e
  · rw [e]
    exact h.2
  · simp [e]

theorem onStatusResult_quiet (p : Poller) (r : StatusResult) (w : World) :
    (onStatusResult p r w).ui.transactionId = w.ui.transactionId ∧
    (onStatusResult p r w).statusQueries = w.statusQueries ∧
    ((onStatusResult p r w).interval = w.interval ∨
      (onStatusResult p r w).interval = none) := by
  obtain ⟨c1, c2, _, c4⟩ := clearInterval_quiet p.id w
  have hstep : ∀ v : World, v.ui.transactionId = w.ui.transactionId →
      v.statusQueries = w.statusQueries → (v.interval = w.interval ∨ v.interval = none) →
      (if p.pollCount ≥ maxPolls then onTimeout p v else v).ui.transactionId
        = w.ui.transactionId ∧
      (if p.pollCount ≥ maxPolls then onTimeout p v else v).statusQueries
        = w.statusQueries ∧
      ((if p.pollCount ≥ maxPolls then onTimeout p v else v).interval = w.interval ∨
        (if p.pollCount ≥ maxPolls then onTimeout p v else v).interval = none) := by
    intro v e1 e2 e3
    by_cases hk : p.pollCount ≥ maxPolls
    · rw [if_pos hk]
      obtain ⟨d1, d2, _, d4⟩ := clearInterval_quiet p.id v
      refine ⟨?_, ?_, ?_⟩
      · show (clearInterval p.id v).ui.transactionId = _
        rw [d1, e1]
      · exact d2.trans e2
      · show (clearInterval p.id v).interval = _ ∨ (clearInterval p.id v).interval = none
        rcases d4 with d | d
        · rw [d]
          exact e3
        · exact Or.inr d
    · rw [if_neg hk]
      exact ⟨e1, e2, e3⟩
  dsimp only [onStatusResult]
  by_cases h1 : statusOf r = some "succeeded" ∨ statusOf r = some "SUCCESSFUL"
  · rw [if_pos h1]
    exact hstep _ (by show (clearInterval p.id w).ui.transactionId = _; rw [c1]) c2 c4
  · rw [if_neg h1]
    by_cases h2 : statusOf r = some "failed" ∨ statusOf r = some "FAILED"
    · rw [if_pos h2]
      exact hstep _ (by show (clearInterval p.id w).ui.transactionId = _; rw [c1]) c2 c4
    · rw [if_neg h2]
      exact hstep _ rfl rfl (Or.inl rfl)

theorem onStatusError_quiet (p : Poller) (w : World) :
    (onStatusError p w).ui.transactionId = w.ui.transactionId ∧
    (onStatusError p w).statusQueries = w.statusQueries ∧
    ((onStatusError p w).interval = w.interval ∨ (onStatusError p w).interval = none) := by
  obtain ⟨c1, c2, _, c4⟩ := clearInterval_quiet p.id w
  dsimp only [onStatusError]
  by_cases hk : p.pollCount ≥ 5
  · rw [if_pos hk]
    exact ⟨by show (clearInterval p.id w).ui.transactionId = _; rw [c1], c2, c4⟩
  · rw [if_neg hk]
    exact ⟨rfl, rfl, Or.inl rfl⟩

theorem tracks_step (w : World) (id : String) (e : Event) (h : Tracks w id)
    (he : Background e) :
    Tracks (step w e) id ∧
    ((step w e).statusQueries = w.statusQueries ∨
      (step w e).statusQueries = w.statusQueries ++ [id]) := by
  cases e with
  | tick =>
    cases hp : w.interval with
    | none =>
      have e1 : applyEvent w Event.tick = w := by simp [applyEvent, tick, hp]
      obtain ⟨a1, a2, _⟩ := settle_tracks w id h
      simp only [step, e1]
      exact ⟨a1, Or.inl a2⟩
    | some p =>
      have hpid : p.transactionId = id := by
        have := h.2
        simpa [hp] using this
      have e1 : applyEvent w Event.tick =
          { w with
            store := checkMoMoPaymentStatus_pending w.store
            statusQueries := w.statusQueries ++ [p.transactionId]
            inflight := w.inflight ++ [p] } := by
        simp [applyEvent, tick, hp]
      obtain ⟨a1, a2, _⟩ := settle_tracks (applyEvent w Event.tick) id
        (by rw [e1]; exact ⟨h.1, h.2⟩)
      simp only [step]
      refine ⟨a1, Or.inr ?_⟩
      rw [a2, e1, hpid]
  | statusFulfilled i r =>
    cases hp : w.inflight.get? i with
    | none =>
      have e1 : applyEvent w (Event.statusFulfilled i r) = w := by simp only [applyEvent, hp]
      obtain ⟨a1, a2, _⟩ := settle_tracks w id h
      simp only [step, e1]
      exact ⟨a1, Or.inl a2⟩
    | some p =>
      have e1 : applyEvent w (Event.statusFulfilled i r) =
          onStatusResult p r
            (settle { w with
              inflight := w.inflight.eraseIdx i
              store := checkMoMoPaymentStatus_fulfilled w.store r w.nextRef
              nextRef := w.nextRef + 1 }) := by
        simp only [applyEvent, hp]
      obtain ⟨a1, a2, _⟩ := settle_tracks
        { w with
          inflight := w.inflight.eraseIdx i
          store := checkMoMoPaymentStatus_fulfilled w.store r w.nextRef
          nextRef := w.nextRef + 1 } id ⟨h.1, h.2⟩
      obtain ⟨b1, b2, b3⟩ := onStatusResult_quiet p r
        (settle { w with
          inflight := w.inflight.eraseIdx i
          store := checkMoMoPaymentStatus_fulfilled w.store r w.nextRef
          nextRef := w.nextRef + 1 })
      obtain ⟨c1, c2, _⟩ := settle_tracks (applyEvent w (Event.statusFulfilled i r)) id
        (by rw [e1]; exact tracks_of_quiet _ _ id a1 b1 b3)
      simp only [step]
      refine ⟨c1, Or.inl ?_⟩
      rw [c2, e1, b2, a2]
  | statusRejected i m =>
    cases hp : w.inflight.get? i with
    | none =>
      have e1 : applyEvent w (Event.statusRejected i m) = w := by simp only [applyEvent, hp]
      obtain ⟨a1, a2, _⟩ := settle_tracks w id h
      simp only [step, e1]
      exact ⟨a1, Or.inl a2⟩
    | some p =>
      have e1 : applyEvent w (Event.statusRejected i m) =
          onStatusError p
            (settle { w with
              inflight := w.inflight.eraseIdx i
              store := checkMoMoPaymentStatus_rejected w.store
                (checkMoMoPaymentStatus_rejectValue m) }) := by
        simp only [applyEvent, hp]
      obtain ⟨a1, a2, _⟩ := settle_tracks
        { w with
          inflight := w.inflight.eraseIdx i
          store := checkMoMoPaymentStatus_rejected w.store
            (checkMoMoPaymentStatus_rejectValue m) } id ⟨h.1, h.2⟩
      obtain ⟨b1, b2, b3⟩ := onStatusError_quiet p
        (settle { w with
          inflight := w.inflight.eraseIdx i
          store := checkMoMoPaymentStatus_rejected w.store
            (checkMoMoPaymentStatus_rejectValue m) })
      obtain ⟨c1, c2, _⟩ := settle_tracks (applyEvent w (Event.statusRejected i m)) id
        (by rw [e1]; exact tracks_of_quiet _ _ id a1 b1 b3)
      simp only [step]
      refine ⟨c1, Or.inl ?_⟩
      rw [c2, e1, b2, a2]
  | updatePaymentStatus s g =>
    obtain ⟨a1, a2, _⟩ := settle_tracks
      { w with store := updatePaymentStatus w.store s g } id ⟨h.1, h.2⟩
    exact ⟨a1, Or.inl a2⟩
  | clearTransaction =>
    obtain ⟨a1, a2, _⟩ := settle_tracks
      { w with store := clearTransaction w.store } id ⟨h.1, h.2⟩
    exact ⟨a1, Or.inl a2⟩
  | handleStartPayment t => exact he.elim
  | changeSelection => exact he.elim
  | setPhone p => exact he.elim
  | doMoMoPayment => exact he.elim
  | retryPayment => exact he.elim
  | initFulfilled r => exact he.elim
  | initRejected m er => exact he.elim

theorem tracks_run (es : List Event) (w : World) (id : String) (h : Tracks w id)
    (he : ∀ e ∈ es, Background e) :
    Tracks (run w es) id ∧
    ∃ n, (run w es).statusQueries = w.statusQueries ++ List.replicate n id := by
  induction es generalizing w with
  | nil => exact ⟨h, 0, by simp [run]⟩
  | cons e es ih =>
    obtain ⟨a1, a2⟩ := tracks_step w id e h (he e (List.mem_cons_self e es))
    obtain ⟨b1, n, b2⟩ := ih (step w e) a1 (fun x hx => he x (List.mem_cons_of_mem e hx))
    have er : run w (e :: es) = run (step w e) es := rfl
    rw [er]
    refine ⟨b1, ?_⟩
    rcases a2 with a | a
    · exact ⟨n, by rw [b2, a]⟩
    · refine ⟨n + 1, ?_⟩
      rw [b2, a, List.append_assoc]
      rfl

theorem renderPass_ui_of_deps (y : World) (h : y.gatewayDeps = some (gatewayDepsOf y)) :
    (renderPass y).ui = y.ui := by
  dsimp only [renderPass]
  rw [if_pos h]
  by_cases hp : y.pollingDeps = some (pollingDepsOf y)
  · rw [if_pos hp]
  · rw [if_neg hp]
    exact (pollingEffect_frame y _).2.1

theorem settle_ui_of_deps (y : World) (h : y.gatewayDeps = some (gatewayDepsOf y)) :
    (settle y).ui = y.ui := by
  unfold settle
  rw [renderPass_ui_of_deps _ (renderPass_gatewayDeps y), renderPass_ui_of_deps y h]

theorem resolved_pending (r : InitResult) (id : String) (hr : Reports r id)
    (hs : r.status ≠ some "SUCCESSFUL") (x : World) :
    doMoMoPayment_resolved r x =
      { x with
        ui := { x.ui with
          transactionId := some id
          processing := false
          step := Step.verifying
          statusMessage := "Payment request sent. Please approve on your phone..."
          pollCount := 0 } } := by
  obtain ⟨r1, r2, r3, r4⟩ := hr
  cases hd : r.data with
  | none => simp [hd] at r4
  | some d =>
    have hdt : d.transactionId = some id := by simpa [hd] using r4
    simp [doMoMoPayment_resolved, r1, r2, hd, hs, hdt]

theorem pending_after_render (s : World) (r : InitResult) (id : String)
    (hr : Reports r id) (hst : r.status ≠ some "SUCCESSFUL")
    (hs : Settled s) (hi : s.interval = none) :
    Tracks (settle (doMoMoPayment_resolved r s)) id ∧
    (settle (doMoMoPayment_resolved r s)).statusQueries = s.statusQueries ∧
    (settle (doMoMoPayment_resolved r s)).ui.step = Step.verifying ∧
    (settle (doMoMoPayment_resolved r s)).ui.pollCount = 0 ∧
    (settle (doMoMoPayment_resolved r s)).ui.transactionId = some id := by
  have e := resolved_pending r id hr hst s
  have hd : (doMoMoPayment_resolved r s).gatewayDeps =
      some (gatewayDepsOf (doMoMoPayment_resolved r s)) := by
    rw [e]
    exact hs.1
  have ht : Tracks (doMoMoPayment_resolved r s) id := by
    rw [e]
    exact tracks_of_interval _ id rfl (Or.inl hi)
  obtain ⟨a1, a2, _⟩ := settle_tracks _ id ht
  have hu := settle_ui_of_deps _ hd
  refine ⟨a1, ?_, ?_, ?_, ?_⟩
  · rw [a2, e]
  · rw [hu, e]
  · rw [hu, e]
  · rw [hu, e]

theorem initFulfilled_verifying (w : World) (r : InitResult) (id : String)
    (h : Initiating w) (hr : Reports r id) (hs : r.status ≠ some "SUCCESSFUL") :
    Tracks (step w (Event.initFulfilled r)) id ∧
    (step w (Event.initFulfilled r)).statusQueries = w.statusQueries ∧
    (step w (Event.initFulfilled r)).ui.step = Step.verifying ∧
    (step w (Event.initFulfilled r)).ui.pollCount = 0 ∧
    (step w (Event.initFulfilled r)).ui.transactionId = some id := by
  obtain ⟨h1, h2, h3, h4, h5⟩ := h
  obtain ⟨c1, c2, _, c4, _⟩ := settle_calm
    { w with
      awaitingInit := false
      store := processMoMoPayment_fulfilled w.store r w.nextRef
      nextRef := w.nextRef + 1 }
    (by simp [h2]) (by simpa using h4)
  obtain ⟨d1, d2, d3, d4, d5⟩ := pending_after_render _ r id hr hs c1 c2
  simp only [step, applyEvent, h1, if_true]
  exact ⟨d1, d2.trans c4, d3, d4, d5⟩

theorem resolved_without_data (r : InitResult) (x : World) (h1 : r.success = true)
    (h2 : truthy r.transactionId = true) (h3 : r.data = none) :
    doMoMoPayment_resolved r x = doMoMoPayment_catch (some typeErrorMessage) x := by
  simp [doMoMoPayment_resolved, h1, h2, h3]

theorem retry_world (w : World) (h : Terminal w) (hf : w.ui.step = Step.failed) :
    step w Event.retryPayment =
      { retryPayment w with
        gatewayDeps := some (gatewayDepsOf w)
        pollingDeps := some (none, Step.confirm, 0, w.store.gatewayStatus) } := by
  obtain ⟨_, hs, hi, _⟩ := h
  simp only [step, applyEvent, hf, if_true]
  rw [settle_idle (retryPayment w) (by simp [retryPayment]) (by simpa [retryPayment] using hi)
    (gatewayFires_of_settled_deps _ (by simpa [retryPayment, gatewayDepsOf] using hs.1))]
  simp [retryPayment, gatewayDepsOf, pollingDepsOf]

/-! ## The purchase flow: submission, initiation, verification, retry -/

/-- C11 (happy path, generalised): from an idle page the user submits a valid phone
number; the initiation reports success with transaction `id` and a status other than
`SUCCESSFUL` (such as `PENDING`) and no gateway success; the first polls, fewer than
30, report non-terminal statuses and the next one reports `SUCCESSFUL`.  The final step
is `success`, the timer is stopped, one status query per poll was issued, each for
`id`, and exactly one navigation, to `/payment-success/<id>`, is scheduled.  The `id` is
the one in `data.transactionId`: by `no_query_unless_reports` a response without it is
followed by no poll at all. -/
theorem happy_path_polls_until_success (w : World) (phone id : String) (r : InitResult)
    (rs : List StatusResult) (s : StatusResult)
    (hw : Idle w) (hv : validatePhone phone = none) (hr : Reports r id)
    (hp : r.status ≠ some "SUCCESSFUL")
    (hg : r.data.bind (fun d => d.gatewayStatus) ≠ some "SUCCESSFUL")
    (hk : rs.length < maxPolls) (hn : ∀ x ∈ rs, NonTerminal x)
    (hs : statusOf s = some "SUCCESSFUL") :
    (run w ([Event.setPhone phone, Event.doMoMoPayment, Event.initFulfilled r] ++
      pollRounds rs ++ pollRound s)).ui.step = Step.success ∧
    (run w ([Event.setPhone phone, Event.doMoMoPayment, Event.initFulfilled r] ++
      pollRounds rs ++ pollRound s)).interval = none ∧
    (run w ([Event.setPhone phone, Event.doMoMoPayment, Event.initFulfilled r] ++
      pollRounds rs ++ pollRound s)).statusQueries =
        w.statusQueries ++ List.replicate (rs.length + 1) id ∧
    (run w ([Event.setPhone phone, Event.doMoMoPayment, Event.initFulfilled r] ++
      pollRounds rs ++ pollRound s)).navigations =
        w.navigations ++ [successPath (some id)] := by
  obtain ⟨a1, _, a3, a4, _⟩ := submit_initiating w phone hw hv
  obtain ⟨b1, b2, b3, _⟩ := initFulfilled_polling _ r id a1 hr hp hg
  obtain ⟨c1, c2, c3⟩ := polling_pending_list rs _ id 0 b1 hn (by omega)
  obtain ⟨d1, d2, d3, d4, _⟩ := polling_success_round _ id (0 + rs.length) s c1
    (by omega) (Or.inr hs)
  have e : [Event.setPhone phone, Event.doMoMoPayment, Event.initFulfilled r] =
      [Event.setPhone phone, Event.doMoMoPayment] ++ [Event.initFulfilled r] := rfl
  have e' : ∀ x : World, run x [Event.initFulfilled r] = step x (Event.initFulfilled r) :=
    fun _ => rfl
  rw [e, run_append, run_append, run_append, e']
  refine ⟨by rw [d2], d1.2.2.1, ?_, ?_⟩
  · rw [d3, c2, b2, a3, List.append_assoc, ← List.replicate_succ']
  · rw [d4, c3, b3, a4]

/-- Witness of C11: the scenario of the specification, on a freshly mounted page: phone
`0788123456`, initiation `PENDING` for `tx1`, poll 1 `PENDING`, poll 2 `SUCCESSFUL`;
two status queries in all. -/
theorem happy_path_polls_until_success_witness :
    Idle (mount (some "watch") {}) ∧ validatePhone "0788123456" = none ∧
    Reports (pendingInit "tx1") "tx1" ∧
    (run (mount (some "watch") {})
      ([Event.setPhone "0788123456", Event.doMoMoPayment,
        Event.initFulfilled (pendingInit "tx1")] ++
        pollRounds [pendingStatus "tx1"] ++ pollRound successStatus)).ui.step
      = Step.success ∧
    (run (mount (some "watch") {})
      ([Event.setPhone "0788123456", Event.doMoMoPayment,
        Event.initFulfilled (pendingInit "tx1")] ++
        pollRounds [pendingStatus "tx1"] ++ pollRound successStatus)).statusQueries
      = (mount (some "watch") {}).statusQueries ++ List.replicate (1 + 1) "tx1" ∧
    (run (mount (some "watch") {})
      ([Event.setPhone "0788123456", Event.doMoMoPayment,
        Event.initFulfilled (pendingInit "tx1")] ++
        pollRounds [pendingStatus "tx1"] ++ pollRound successStatus)).navigations
      = (mount (some "watch") {}).navigations ++ [successPath (some "tx1")] :=
  ⟨by decide, by decide, by decide,
    (happy_path_polls_until_success (mount (some "watch") {}) "0788123456" "tx1"
      (pendingInit "tx1") [pendingStatus "tx1"] successStatus (by decide) (by decide)
      (by decide) (by decide) (by decide) (by decide) (by decide) (by decide)).1,
    (happy_path_polls_until_success (mount (some "watch") {}) "0788123456" "tx1"
      (pendingInit "tx1") [pendingStatus "tx1"] successStatus (by decide) (by decide)
      (by decide) (by decide) (by decide) (by decide) (by decide) (by decide)).2.2.1,
    (happy_path_polls_until_success (mount (some "watch") {}) "0788123456" "tx1"
      (pendingInit "tx1") [pendingStatus "tx1"] successStatus (by decide) (by decide)
      (by decide) (by decide) (by decide) (by decide) (by decide) (by decide)).2.2.2⟩

/-- C12 (validation failure is local): when `validatePhone` returns an error for the
phone number in the form, `doMoMoPayment` sends no `processMoMoPayment` request, awaits
nothing, leaves the store, the step, `transactionId` and `processing` unchanged and
sets `formError` to the validation message; on an idle page the page stays idle. -/
theorem invalid_phone_stays_local (w : World) (phoneErr : String)
    (h : validatePhone w.ui.phone = some phoneErr) :
    (doMoMoPayment w).initRequests = w.initRequests ∧
    (doMoMoPayment w).awaitingInit = w.awaitingInit ∧
    (doMoMoPayment w).store = w.store ∧
    (doMoMoPayment w).ui.step = w.ui.step ∧
    (doMoMoPayment w).ui.transactionId = w.ui.transactionId ∧
    (doMoMoPayment w).ui.processing = w.ui.processing ∧
    (doMoMoPayment w).ui.formError = phoneErr ∧
    (Idle w → Idle (step w Event.doMoMoPayment) ∧
      (step w Event.doMoMoPayment).initRequests = w.initRequests ∧
      (step w Event.doMoMoPayment).ui.formError = phoneErr) := by
  have e : doMoMoPayment w =
      { w with ui := { w.ui with
          formError := phoneErr, localPaymentStatus := none, statusMessage := "" } } := by
    simp [doMoMoPayment, h]
  refine ⟨by rw [e], by rw [e], by rw [e], by rw [e], by rw [e], by rw [e], by rw [e], ?_⟩
  intro hi
  obtain ⟨h1, h2, h3, h4, h5, h6⟩ := hi
  have es : step w Event.doMoMoPayment = doMoMoPayment w := by
    simp only [step, applyEvent, h1, h2, and_self, if_true]
    apply settle_of_settled
    rw [e]
    exact ⟨h4.1, h4.2⟩
  rw [es, e]
  exact ⟨⟨h1, h2, h3, ⟨h4.1, h4.2⟩, h5, h6⟩, rfl, rfl⟩

/-- Witness of C12: the phone number `123` in the form of a freshly mounted page; the
empty number is rejected as well. -/
theorem invalid_phone_stays_local_witness :
    validatePhone (run (mount (some "watch") {}) [Event.setPhone "123"]).ui.phone =
      some "Please enter a valid phone number (e.g. 0788123456)" ∧
    validatePhone "" = some "Phone number is required" ∧
    (doMoMoPayment (run (mount (some "watch") {}) [Event.setPhone "123"])).initRequests =
      (run (mount (some "watch") {}) [Event.setPhone "123"]).initRequests ∧
    (doMoMoPayment (run (mount (some "watch") {}) [Event.setPhone "123"])).ui.step =
      (run (mount (some "watch") {}) [Event.setPhone "123"]).ui.step :=
  ⟨by decide, by decide,
    (invalid_phone_stays_local (run (mount (some "watch") {}) [Event.setPhone "123"])
      "Please enter a valid phone number (e.g. 0788123456)" (by decide)).1,
    (invalid_phone_stays_local (run (mount (some "watch") {}) [Event.setPhone "123"])
      "Please enter a valid phone number (e.g. 0788123456)" (by decide)).2.2.2.1⟩

/-- C14 (initiation failure never enters verification): while the page awaits the
initiation, (a) a rejected dispatch and (b) a response that lacks success or a
transaction id both end with step `confirm`, `processing` false, a non-empty
`formError`, the same `transactionId` as before and no timer; whatever ticks follow, no
status query is issued. -/
theorem initiation_failure_returns_to_confirm (w : World) (h : Initiating w) :
    (∀ (message error : Option String) (n : Nat),
      (step w (Event.initRejected message error)).ui.step = Step.confirm ∧
      (step w (Event.initRejected message error)).ui.processing = false ∧
      (step w (Event.initRejected message error)).ui.formError ≠ "" ∧
      (step w (Event.initRejected message error)).ui.transactionId = w.ui.transactionId ∧
      (step w (Event.initRejected message error)).interval = none ∧
      (run (step w (Event.initRejected message error))
        (repeatEvents n [Event.tick])).statusQueries = w.statusQueries) ∧
    (∀ (r : InitResult) (n : Nat), LacksSuccess r →
      (step w (Event.initFulfilled r)).ui.step = Step.confirm ∧
      (step w (Event.initFulfilled r)).ui.processing = false ∧
      (step w (Event.initFulfilled r)).ui.formError ≠ "" ∧
      (step w (Event.initFulfilled r)).ui.transactionId = w.ui.transactionId ∧
      (step w (Event.initFulfilled r)).interval = none ∧
      (run (step w (Event.initFulfilled r))
        (repeatEvents n [Event.tick])).statusQueries = w.statusQueries) := by
  constructor
  · intro message error n
    obtain ⟨a1, a2, a3, a4, a5, a6, a7⟩ := initRejected_confirm w message error h
    rw [ticks_no_timer _ a1 a2 n]
    refine ⟨a4, a5, ?_, a7, a2, a3⟩
    rw [a6]
    exact jsOrDefault_ne_empty _ _ (by decide)
  · intro r n hr
    obtain ⟨a1, a2, a3, a4, a5, a6, a7⟩ := initFulfilled_lacking w r h hr
    rw [ticks_no_timer _ a1 a2 n]
    refine ⟨a4, a5, ?_, a7, a2, a3⟩
    rw [a6]
    exact jsOrDefault_ne_empty _ _ (by decide)

/-- Witness of C14: a valid phone number was submitted on a freshly mounted page and the
request fails without a message from the server. -/
theorem initiation_failure_returns_to_confirm_witness :
    Initiating (run (mount (some "watch") {})
      [Event.setPhone "0788123456", Event.doMoMoPayment]) ∧
    (step (run (mount (some "watch") {})
      [Event.setPhone "0788123456", Event.doMoMoPayment])
      (Event.initRejected none none)).ui.step = Step.confirm ∧
    (step (run (mount (some "watch") {})
      [Event.setPhone "0788123456", Event.doMoMoPayment])
      (Event.initRejected none none)).ui.formError = "MoMo payment failed" :=
  ⟨by decide,
    ((initiation_failure_returns_to_confirm (run (mount (some "watch") {})
      [Event.setPhone "0788123456", Event.doMoMoPayment]) (by decide)).1 none none 0).1,
    by decide⟩

/-- C15, the part that holds: for an initiation response with status `SUCCESSFUL` that
passes the test of `doMoMoPayment` and carries the id in `data.transactionId`, the code
after the dispatch sets step `success` in whatever state it runs, so the step goes from
`processing` to `success` and is never `verifying`; no timer is started and, whatever
ticks follow, no status query is issued. -/
theorem immediate_success_skips_verification (w : World) (r : InitResult) (id : String)
    (n : Nat) (h : Initiating w) (hr : Reports r id) (hs : r.status = some "SUCCESSFUL") :
    (∀ x : World, (doMoMoPayment_resolved r x).ui.step = Step.success) ∧
    (step w (Event.initFulfilled r)).ui.step = Step.success ∧
    (step w (Event.initFulfilled r)).ui.transactionId = some id ∧
    (step w (Event.initFulfilled r)).interval = none ∧
    (run (step w (Event.initFulfilled r)) (repeatEvents n [Event.tick])).ui.step
      = Step.success ∧
    (run (step w (Event.initFulfilled r)) (repeatEvents n [Event.tick])).statusQueries
      = w.statusQueries := by
  obtain ⟨a1, a2, a3, a4⟩ := initFulfilled_immediate w r id h hr hs
  rw [terminal_ticks _ a1 n]
  refine ⟨fun x => ?_, a3, a4, a1.2.2.1, a3, a2⟩
  rw [resolved_immediate r id hr hs x]

/-- An instance of `immediate_success_skips_verification`: a valid phone number was
submitted on a freshly mounted page and the initiation reports `SUCCESSFUL` for `tx1`,
also in `data.transactionId`. -/
theorem immediate_success_skips_verification_witness :
    Initiating (run (mount (some "watch") {})
      [Event.setPhone "0788123456", Event.doMoMoPayment]) ∧
    Reports (immediateInit "tx1") "tx1" ∧
    (immediateInit "tx1").status = some "SUCCESSFUL" ∧
    (step (run (mount (some "watch") {})
      [Event.setPhone "0788123456", Event.doMoMoPayment])
      (Event.initFulfilled (immediateInit "tx1"))).ui.step = Step.success :=
  ⟨by decide, by decide, rfl,
    (immediate_success_skips_verification (run (mount (some "watch") {})
      [Event.setPhone "0788123456", Event.doMoMoPayment]) (immediateInit "tx1") "tx1" 0
      (by decide) (by decide) rfl).2.1⟩

/-- C16, the part that holds: for an initiation response that passes the test of
`doMoMoPayment`, carries the non-empty `id` in `data.transactionId` and has a status
other than `SUCCESSFUL` (such as `PENDING`), `doMoMoPayment` sets step `verifying`,
`pollCount` 0 and tracks `id`; through any sequence of ticks, status responses, status
failures and store updates the tracked id stays `id` and every status query issued is
a query for `id`; and unless the response carries gateway success, the first tick
issues one. -/
theorem initiation_id_is_correlation_key (w : World) (r : InitResult) (id : String)
    (es : List Event) (h : Initiating w) (hr : Reports r id)
    (hs : r.status ≠ some "SUCCESSFUL") (he : ∀ e ∈ es, Background e) :
    (step w (Event.initFulfilled r)).ui.step = Step.verifying ∧
    (step w (Event.initFulfilled r)).ui.pollCount = 0 ∧
    (step w (Event.initFulfilled r)).ui.transactionId = some id ∧
    (run (step w (Event.initFulfilled r)) es).ui.transactionId = some id ∧
    (∃ n, (run (step w (Event.initFulfilled r)) es).statusQueries =
      w.statusQueries ++ List.replicate n id) ∧
    (r.data.bind (fun d => d.gatewayStatus) ≠ some "SUCCESSFUL" →
      (step (step w (Event.initFulfilled r)) Event.tick).statusQueries =
        w.statusQueries ++ [id]) := by
  obtain ⟨a1, a2, a3, a4, a5⟩ := initFulfilled_verifying w r id h hr hs
  obtain ⟨b1, n, b2⟩ := tracks_run es _ id a1 he
  refine ⟨a3, a4, a5, b1.1, ⟨n, by rw [b2, a2]⟩, fun hg => ?_⟩
  obtain ⟨c1, c2, _⟩ := initFulfilled_polling w r id h hr hs hg
  cases hp : (step w (Event.initFulfilled r)).interval with
  | none =>
    have h7 := c1.2.2.2.2.2.2.1
    simp [hp] at h7
  | some p =>
    have h7 := c1.2.2.2.2.2.2.1
    simp only [hp, Option.map_some', Option.some.injEq, Prod.mk.injEq] at h7
    rw [step_tick_polling _ p c1.2.2.2.2.2.1 hp, h7.1]
    show (step w (Event.initFulfilled r)).statusQueries ++ [id] = _
    rw [c2]

/-- An instance of `initiation_id_is_correlation_key`: a valid phone number was
submitted on a freshly mounted page, the initiation reports `PENDING` for `tx1`, also
in `data.transactionId`, then two poll rounds answer `PENDING`. -/
theorem initiation_id_is_correlation_key_witness :
    Initiating (run (mount (some "watch") {})
      [Event.setPhone "0788123456", Event.doMoMoPayment]) ∧
    Reports (pendingInit "tx1") "tx1" ∧
    (pendingInit "tx1").status ≠ some "SUCCESSFUL" ∧
    (∀ e ∈ repeatEvents 2 (pollRound (pendingStatus "tx1")), Background e) ∧
    (step (run (mount (some "watch") {})
      [Event.setPhone "0788123456", Event.doMoMoPayment])
      (Event.initFulfilled (pendingInit "tx1"))).ui.transactionId = some "tx1" ∧
    (run (step (run (mount (some "watch") {})
      [Event.setPhone "0788123456", Event.doMoMoPayment])
      (Event.initFulfilled (pendingInit "tx1")))
      (repeatEvents 2 (pollRound (pendingStatus "tx1")))).statusQueries = ["tx1", "tx1"] :=
  ⟨by decide, by decide, by decide, by decide,
    (initiation_id_is_correlation_key (run (mount (some "watch") {})
      [Event.setPhone "0788123456", Event.doMoMoPayment]) (pendingInit "tx1") "tx1"
      (repeatEvents 2 (pollRound (pendingStatus "tx1"))) (by decide) (by decide)
      (by decide) (by decide)).2.2.1,
    by decide⟩

/-- C17, counterexample: a poll reported `FAILED` for `tx1` and the user pressed "Try
Again".  The store still holds `tx1` as current transaction, so a store update that
sets `gatewayStatus` to `SUCCESSFUL` moves the retried page from `confirm` to `success`
and schedules the navigation to `tx1`; with the store cleared by `clearTransaction`
the same update leaves the page in `confirm`. -/
theorem stale_transaction_influences_retried_page :
    (run (verifyingWorld "tx1")
      (pollRound (failedStatus none) ++ [Event.retryPayment])).ui.step = Step.confirm ∧
    (run (verifyingWorld "tx1")
      (pollRound (failedStatus none) ++ [Event.retryPayment])).ui.transactionId = none ∧
    (run (verifyingWorld "tx1")
      (pollRound (failedStatus none) ++
        [Event.retryPayment])).store.currentTransaction.bind (fun t => t.transactionId)
      = some "tx1" ∧
    (run (verifyingWorld "tx1")
      (pollRound (failedStatus none) ++ [Event.retryPayment,
        Event.updatePaymentStatus (some "SUCCESSFUL") (some "SUCCESSFUL")])).ui.step
      = Step.success ∧
    (run (verifyingWorld "tx1")
      (pollRound (failedStatus none) ++ [Event.retryPayment,
        Event.updatePaymentStatus (some "SUCCESSFUL") (some "SUCCESSFUL")])).navigations
      = ["/payment-success/tx1"] ∧
    (run (verifyingWorld "tx1")
      (pollRound (failedStatus none) ++ [Event.retryPayment, Event.clearTransaction,
        Event.updatePaymentStatus (some "SUCCESSFUL") (some "SUCCESSFUL")])).ui.step
      = Step.confirm := by
  decide

/-- C17, amended: from step `failed`, with the flow ended, `retryPayment` sets
`transactionId` to null, `pollCount` to 0, `localPaymentStatus` to null, `statusMessage`
and `formError` to the empty string and step to `confirm`, and leaves `phone`,
`paymentType` and the whole store unchanged; the page is then idle in step `confirm`. -/
theorem retry_resets_page_state (w : World) (h : Terminal w)
    (hf : w.ui.step = Step.failed) (hp : w.ui.processing = false)
    (ha : w.awaitingInit = false) :
    (step w Event.retryPayment).ui.transactionId = none ∧
    (step w Event.retryPayment).ui.pollCount = 0 ∧
    (step w Event.retryPayment).ui.localPaymentStatus = none ∧
    (step w Event.retryPayment).ui.statusMessage = "" ∧
    (step w Event.retryPayment).ui.formError = "" ∧
    (step w Event.retryPayment).ui.step = Step.confirm ∧
    (step w Event.retryPayment).ui.phone = w.ui.phone ∧
    (step w Event.retryPayment).ui.paymentType = w.ui.paymentType ∧
    (step w Event.retryPayment).store = w.store ∧
    Idle (step w Event.retryPayment) := by
  rw [retry_world w h hf]
  obtain ⟨_, _, hi, hin⟩ := h
  refine ⟨rfl, rfl, rfl, rfl, rfl, rfl, rfl, rfl, rfl, ?_⟩
  exact ⟨rfl, hp, ha, ⟨rfl, rfl⟩, hi, hin⟩

/-- Witness of C17 (amended): the page after a poll reported `FAILED` for `tx1`. -/
theorem retry_resets_page_state_witness :
    Terminal (run (verifyingWorld "tx1") (pollRound (failedStatus none))) ∧
    (run (verifyingWorld "tx1") (pollRound (failedStatus none))).ui.step = Step.failed ∧
    (step (run (verifyingWorld "tx1") (pollRound (failedStatus none)))
      Event.retryPayment).ui.transactionId = none ∧
    Idle (step (run (verifyingWorld "tx1") (pollRound (failedStatus none)))
      Event.retryPayment) :=
  ⟨by decide, by decide,
    (retry_resets_page_state (run (verifyingWorld "tx1") (pollRound (failedStatus none)))
      (by decide) (by decide) (by decide) (by decide)).1,
    (retry_resets_page_state (run (verifyingWorld "tx1") (pollRound (failedStatus none)))
      (by decide) (by decide) (by decide) (by decide)).2.2.2.2.2.2.2.2.2⟩

/-! ## The phone-format rule -/

theorem matchesLocal_iff (cs : List Char) :
    matchesLocal cs = true ↔
      ∃ ds : List Char, ds.all isJsDigit = true ∧ ds.length = 8 ∧ cs = '0' :: '7' :: ds := by
  unfold matchesLocal
  split
  · rename_i ds
    constructor
    · intro h
      simp only [Bool.and_eq_true, decide_eq_true_eq] at h
      exact ⟨ds, h.2, h.1, rfl⟩
    · rintro ⟨ds1, h1, h2, h3⟩
      simp only [List.cons.injEq, true_and] at h3
      subst h3
      simp only [Bool.and_eq_true, decide_eq_true_eq]
      exact ⟨h2, h1⟩
  · rename_i hne
    constructor
    · intro h
      exact absurd h (by simp)
    · rintro ⟨ds1, _, _, h3⟩
      exact absurd h3 (hne ds1)

theorem matchesInternational_iff (cs : List Char) :
    matchesInternational cs = true ↔
      ∃ ds : List Char, ds.all isJsDigit = true ∧ ds.length = 9 ∧
        (cs = '2' :: '5' :: '0' :: ds ∨ cs = '+' :: '2' :: '5' :: '0' :: ds) := by
  have body : ∀ b : List Char,
      (match b with
        | '2' :: '5' :: '0' :: ds => (decide (ds.length = 9) && ds.all isJsDigit)
        | _ => false) = true ↔
      ∃ ds : List Char, ds.all isJsDigit = true ∧ ds.length = 9 ∧ b = '2' :: '5' :: '0' :: ds := by
    intro b
    split
    · rename_i ds
      constructor
      · intro h
        simp only [Bool.and_eq_true, decide_eq_true_eq] at h
        exact ⟨ds, h.2, h.1, rfl⟩
      · rintro ⟨ds1, h1, h2, h3⟩
        simp only [List.cons.injEq, true_and] at h3
        subst h3
        simp only [Bool.and_eq_true, decide_eq_true_eq]
        exact ⟨h2, h1⟩
    · rename_i hne
      constructor
      · intro h
        exact absurd h (by simp)
      · rintro ⟨ds1, _, _, h3⟩
        exact absurd h3 (hne ds1)
  unfold matchesInternational
  split
  · rename_i rest
    rw [body rest]
    constructor
    · rintro ⟨ds, h1, h2, h3⟩
      exact ⟨ds, h1, h2, Or.inr (by rw [h3])⟩
    · rintro ⟨ds, h1, h2, h3⟩
      rcases h3 with h3 | h3
      · simp only [List.cons.injEq] at h3
        exact absurd h3.1 (by decide)
      · simp only [List.cons.injEq, true_and] at h3
        exact ⟨ds, h1, h2, h3⟩
  · rename_i hne
    rw [body cs]
    constructor
    · rintro ⟨ds, h1, h2, h3⟩
      exact ⟨ds, h1, h2, Or.inl h3⟩
    · rintro ⟨ds, h1, h2, h3⟩
      rcases h3 with h3 | h3
      · exact ⟨ds, h1, h2, h3⟩
      · exact absurd h3 (hne _)

/-- C13, counterexample: the number `250788123456` is accepted although, with white
space removed, it starts neither with `0` nor with `+`; the same holds with spaces
inside it. -/
theorem bare_country_code_is_accepted :
    validatePhone "250788123456" = none ∧
    (removeSpaces "250788123456").head? = some '2' ∧
    validatePhone "250 788 123 456" = none := by
  decide

/-- C13, amended: `validatePhone` accepts a number exactly when, with white
space removed, it is `07` followed by 8 digits, or `250` followed by 9 digits with an
optional `+` in front.  It answers `Phone number is required` exactly when nothing is
left after the white space is removed, and the `valid phone number` message for every
other string. -/
theorem validatePhone_rule (p : String) :
    (validatePhone p = none ↔
      ∃ ds : List Char, ds.all isJsDigit = true ∧
        ((ds.length = 8 ∧ removeSpaces p = '0' :: '7' :: ds) ∨
         (ds.length = 9 ∧ removeSpaces p = '2' :: '5' :: '0' :: ds) ∨
         (ds.length = 9 ∧ removeSpaces p = '+' :: '2' :: '5' :: '0' :: ds))) ∧
    (validatePhone p = some "Phone number is required" ↔ removeSpaces p = []) ∧
    (validatePhone p = none ∨ validatePhone p = some "Phone number is required" ∨
      validatePhone p = some "Please enter a valid phone number (e.g. 0788123456)") := by
  have hI := matchesInternational_iff (removeSpaces p)
  have hL := matchesLocal_iff (removeSpaces p)
  by_cases he : (removeSpaces p).isEmpty = true
  · have hnil : removeSpaces p = [] := by simpa using he
    have hv : validatePhone p = some "Phone number is required" := by
      unfold validatePhone
      rw [if_pos he]
    rw [hv]
    refine ⟨⟨(fun h => by cases h), ?_⟩, ⟨fun _ => hnil, fun _ => rfl⟩, Or.inr (Or.inl rfl)⟩
    rintro ⟨ds, _, h | h | h⟩ <;> rw [hnil] at h <;> exact absurd h.2 (by simp)
  · have hne : removeSpaces p ≠ [] := by simpa using he
    by_cases hi : matchesInternational (removeSpaces p) = true
    · have hv : validatePhone p = none := by
        unfold validatePhone
        rw [if_neg he, if_pos hi]
      rw [hv]
      refine ⟨⟨fun _ => ?_, fun _ => rfl⟩, ⟨(fun h => by cases h), fun h => absurd h hne⟩,
        Or.inl rfl⟩
      obtain ⟨ds, h1, h2, h3⟩ := hI.1 hi
      rcases h3 with h3 | h3
      · exact ⟨ds, h1, Or.inr (Or.inl ⟨h2, h3⟩)⟩
      · exact ⟨ds, h1, Or.inr (Or.inr ⟨h2, h3⟩)⟩
    · by_cases hl : matchesLocal (removeSpaces p) = true
      · have hv : validatePhone p = none := by
          unfold validatePhone
          rw [if_neg he, if_neg hi, if_pos hl]
        rw [hv]
        refine ⟨⟨fun _ => ?_, fun _ => rfl⟩, ⟨(fun h => by cases h), fun h => absurd h hne⟩,
          Or.inl rfl⟩
        obtain ⟨ds, h1, h2, h3⟩ := hL.1 hl
        exact ⟨ds, h1, Or.inl ⟨h2, h3⟩⟩
      · have hv : validatePhone p =
            some "Please enter a valid phone number (e.g. 0788123456)" := by
          unfold validatePhone
          rw [if_neg he, if_neg hi, if_neg hl]
        rw [hv]
        refine ⟨⟨(fun h => by cases h), ?_⟩, ⟨fun h => ?_, fun h => absurd h hne⟩,
          Or.inr (Or.inr rfl)⟩
        · rintro ⟨ds, h1, h | h | h⟩
          · exact absurd (hL.2 ⟨ds, h1, h.1, h.2⟩) hl
          · exact absurd (hI.2 ⟨ds, h1, h.1, Or.inl h.2⟩) hi
          · exact absurd (hI.2 ⟨ds, h1, h.1, Or.inr h.2⟩) hi
        · exact absurd h (by decide)

/-! ## The status held by the store -/

/-- C18, counterexample: the store holds `SUCCESSFUL` for transaction `tx1`, set by the
status reducer.  A later status response `PENDING` for `tx1` puts `paymentStatus` back to
`PENDING`, and so does a dispatch of `updatePaymentStatus`; a dispatch with `FAILED`
replaces `SUCCESSFUL` by `FAILED`. -/
theorem terminal_status_regresses_to_pending :
    (checkMoMoPaymentStatus_fulfilled (processMoMoPayment_fulfilled {} (pendingInit "tx1") 0)
      { status := some "SUCCESSFUL", transactionId := some "tx1" } 1).paymentStatus =
        some "SUCCESSFUL" ∧
    ((checkMoMoPaymentStatus_fulfilled (processMoMoPayment_fulfilled {} (pendingInit "tx1") 0)
      { status := some "SUCCESSFUL", transactionId := some "tx1" } 1).currentTransaction.bind
        (fun t => t.transactionId)) = some "tx1" ∧
    (checkMoMoPaymentStatus_fulfilled
      (checkMoMoPaymentStatus_fulfilled (processMoMoPayment_fulfilled {} (pendingInit "tx1") 0)
        { status := some "SUCCESSFUL", transactionId := some "tx1" } 1)
      (pendingStatus "tx1") 2).paymentStatus = some "PENDING" ∧
    (updatePaymentStatus
      (checkMoMoPaymentStatus_fulfilled (processMoMoPayment_fulfilled {} (pendingInit "tx1") 0)
        { status := some "SUCCESSFUL", transactionId := some "tx1" } 1)
      (some "PENDING") none).paymentStatus = some "PENDING" ∧
    (updatePaymentStatus
      (checkMoMoPaymentStatus_fulfilled (processMoMoPayment_fulfilled {} (pendingInit "tx1") 0)
        { status := some "SUCCESSFUL", transactionId := some "tx1" } 1)
      (some "FAILED") none).paymentStatus = some "FAILED" := by
  decide

/-- C18, amended: the cases `checkMoMoPaymentStatus.fulfilled` and
`updatePaymentStatus` set `paymentStatus` to the status they are given, whatever the
store held, so the value is kept exactly when the observation repeats it.  What these
two cases never undo is the flag `success`: the status case sets it on `SUCCESSFUL` and
keeps it otherwise, and `updatePaymentStatus` does not touch it. -/
theorem status_cases_overwrite_paymentStatus (s : Payments) (payload : StatusResult)
    (ref : Nat) (status gatewayStatus : Option String) :
    (checkMoMoPaymentStatus_fulfilled s payload ref).paymentStatus =
      (responseData payload).2.1 ∧
    (updatePaymentStatus s status gatewayStatus).paymentStatus = status ∧
    ((checkMoMoPaymentStatus_fulfilled s payload ref).paymentStatus = s.paymentStatus ↔
      (responseData payload).2.1 = s.paymentStatus) ∧
    ((updatePaymentStatus s status gatewayStatus).paymentStatus = s.paymentStatus ↔
      status = s.paymentStatus) ∧
    (checkMoMoPaymentStatus_fulfilled s payload ref).success =
      (s.success || decide ((responseData payload).2.1 = some "SUCCESSFUL")) ∧
    (updatePaymentStatus s status gatewayStatus).success = s.success := by
  refine ⟨rfl, rfl, Iff.rfl, Iff.rfl, ?_, rfl⟩
  unfold checkMoMoPaymentStatus_fulfilled
  by_cases h : (responseData payload).2.1 = some "SUCCESSFUL"
  · simp [h]
  · simp [h]

/-! ## The device fingerprint -/

theorem getItem_setItem_same (ls : LocalStorage) (key value : String) :
    getItem (setItem ls key value) key = some value := by
  simp [getItem, setItem, List.lookup]

theorem lookup_filter_ne (ls : LocalStorage) (key k : String) (h : k ≠ key) :
    (ls.filter (fun kv => kv.1 != key)).lookup k = ls.lookup k := by
  induction ls with
  | nil => rfl
  | cons kv rest ih =>
    obtain ⟨a, b⟩ := kv
    by_cases ha : a = key
    · subst ha
      have hk : (k == a) = false := by simpa using h
      simp [List.filter, List.lookup, hk, ih]
    · have hf : (a != key) = true := by simpa using ha
      simp only [List.filter, hf, List.lookup]
      rw [ih]

theorem getItem_setItem_other (ls : LocalStorage) (key value k : String) (h : k ≠ key) :
    getItem (setItem ls key value) k = getItem ls k := by
  have hk : (k == key) = false := by simpa using h
  simp only [getItem, setItem, List.lookup, hk]
  exact lookup_filter_ne ls key k h

theorem shouldRegenerate_false (f t : String) (now : Nat) (hf : f ≠ "") (ht : t ≠ "")
    (hn : ∀ n, parseInt t = some n → (now : Int) - n ≤ sevenDays) :
    shouldRegenerate (some f) (some t) now = false := by
  unfold shouldRegenerate
  have h1 : truthy (some f) = true := by simp [truthy, hf]
  have h2 : truthy (some t) = true := by simp [truthy, ht]
  rw [h1, h2]
  simp only [Bool.not_true, Bool.false_or, Option.bind]
  cases hp : parseInt t with
  | none => rfl
  | some n =>
    have := hn n hp
    simp only [decide_eq_false_iff_not, not_lt]
    exact this

theorem shouldRegenerate_true (f t : Option String) (now : Nat)
    (h : truthy f = false ∨ truthy t = false ∨
      ∃ s n, t = some s ∧ parseInt s = some n ∧ (now : Int) - n > sevenDays) :
    shouldRegenerate f t now = true := by
  unfold shouldRegenerate
  rcases h with h | h | ⟨s, n, h1, h2, h3⟩
  · simp [h]
  · simp [h]
  · subst h1
    simp only [Option.bind, h2, Bool.or_eq_true, Bool.not_eq_true', decide_eq_true_eq]
    exact Or.inr h3

/-- C19, counterexample: a fingerprint and a timestamp are stored and the timestamp is
one second old, but the stored fingerprint is the empty string: the test `!fingerprint`
holds, a new fingerprint is generated, written over the stored one together with a new
timestamp, and returned instead of the stored one. -/
theorem empty_stored_fingerprint_is_regenerated :
    getItem [("deviceFingerprint", ""), ("fingerprintTimestamp", "1000")]
      "deviceFingerprint" = some "" ∧
    getItem [("deviceFingerprint", ""), ("fingerprintTimestamp", "1000")]
      "fingerprintTimestamp" = some "1000" ∧
    parseInt "1000" = some 1000 ∧
    ((2000 : Int) - 1000 ≤ sevenDays) ∧
    (getOrCreateDeviceFingerprint
      [("deviceFingerprint", ""), ("fingerprintTimestamp", "1000")] 2000 "fp2").1 = "fp2" ∧
    getItem (getOrCreateDeviceFingerprint
      [("deviceFingerprint", ""), ("fingerprintTimestamp", "1000")] 2000 "fp2").2
      "deviceFingerprint" = some "fp2" ∧
    getItem (getOrCreateDeviceFingerprint
      [("deviceFingerprint", ""), ("fingerprintTimestamp", "1000")] 2000 "fp2").2
      "fingerprintTimestamp" = some "2000" := by
  decide

/-- C19, amended.  Reuse: if a non-empty fingerprint `f` and a non-empty
timestamp `t` are stored and `t` either does not parse (`parseInt` gives `NaN`) or
parses to a number at most 7 days before `now`, the function returns `f` and leaves the
storage as it is.  Regeneration: if the stored fingerprint or timestamp is missing or
empty, or the timestamp parses to a number more than 7 days before `now`, the
function returns the generated fingerprint, and the storage then holds it under
`deviceFingerprint` and the decimal form of `now` under `fingerprintTimestamp`, every
other key being kept. -/
theorem fingerprint_reused_or_regenerated (ls : LocalStorage) (now : Nat)
    (generated : String) :
    (∀ f t : String,
      getItem ls "deviceFingerprint" = some f → getItem ls "fingerprintTimestamp" = some t →
      f ≠ "" → t ≠ "" →
      (∀ n, parseInt t = some n → (now : Int) - n ≤ sevenDays) →
      getOrCreateDeviceFingerprint ls now generated = (f, ls)) ∧
    ((truthy (getItem ls "deviceFingerprint") = false ∨
      truthy (getItem ls "fingerprintTimestamp") = false ∨
      ∃ t n, getItem ls "fingerprintTimestamp" = some t ∧ parseInt t = some n ∧
        (now : Int) - n > sevenDays) →
      (getOrCreateDeviceFingerprint ls now generated).1 = generated ∧
      getItem (getOrCreateDeviceFingerprint ls now generated).2 "deviceFingerprint" =
        some generated ∧
      getItem (getOrCreateDeviceFingerprint ls now generated).2 "fingerprintTimestamp" =
        some (toString now) ∧
      ∀ k, k ≠ "deviceFingerprint" → k ≠ "fingerprintTimestamp" →
        getItem (getOrCreateDeviceFingerprint ls now generated).2 k = getItem ls k) := by
  constructor
  · intro f t hf ht hf0 ht0 hn
    unfold getOrCreateDeviceFingerprint
    simp only [hf, ht, shouldRegenerate_false f t now hf0 ht0 hn, Bool.false_eq_true,
      if_false, Option.getD]
  · intro h
    have hr := shouldRegenerate_true _ _ now h
    unfold getOrCreateDeviceFingerprint
    simp only [hr, if_true]
    refine ⟨trivial, ?_, getItem_setItem_same _ _ _, ?_⟩
    · rw [getItem_setItem_other _ _ _ _ (by decide)]
      exact getItem_setItem_same _ _ _
    · intro k h1 h2
      rw [getItem_setItem_other _ _ _ _ h2, getItem_setItem_other _ _ _ _ h1]

theorem fingerprint_reused_or_regenerated_witness :
    getOrCreateDeviceFingerprint
      [("deviceFingerprint", "fp1"), ("fingerprintTimestamp", "1700000000000")]
      1700600000000 "fp2" =
      ("fp1", [("deviceFingerprint", "fp1"), ("fingerprintTimestamp", "1700000000000")]) ∧
    (getOrCreateDeviceFingerprint
      [("deviceFingerprint", "fp1"), ("fingerprintTimestamp", "1700000000000")]
      1700604800001 "fp2").1 = "fp2" ∧
    (getOrCreateDeviceFingerprint [] 1700000000000 "fp2").1 = "fp2" :=
  ⟨(fingerprint_reused_or_regenerated
      [("deviceFingerprint", "fp1"), ("fingerprintTimestamp", "1700000000000")]
      1700600000000 "fp2").1 "fp1" "1700000000000" (by decide) (by decide) (by decide)
      (by decide) (by
        intro n hn
        have hp : parseInt "1700000000000" = some 1700000000000 := by decide
        rw [hp] at hn
        cases hn
        decide),
   ((fingerprint_reused_or_regenerated
      [("deviceFingerprint", "fp1"), ("fingerprintTimestamp", "1700000000000")]
      1700604800001 "fp2").2
      (Or.inr (Or.inr ⟨"1700000000000", 1700000000000, by decide, by decide,
        by decide⟩))).1,
   ((fingerprint_reused_or_regenerated [] 1700000000000 "fp2").2
      (Or.inl (by decide))).1⟩

/-! ## The `auth` reducer -/

theorem authReducer_keeps_signed_out (s : AuthState) (a : AuthAction)
    (ha : ¬ Authenticating a) (hu : s.user = none) (ht : s.token = none) :
    (authReducer s a).user = none ∧ (authReducer s a).token = none := by
  cases a <;> first
    | exact absurd trivial ha
    | exact ⟨hu, ht⟩
    | exact ⟨rfl, rfl⟩

theorem authRun_keeps_signed_out (actions : List AuthAction) :
    ∀ s : AuthState, (∀ a ∈ actions, ¬ Authenticating a) → s.user = none → s.token = none →
      (authRun s actions).user = none ∧ (authRun s actions).token = none := by
  induction actions with
  | nil => intro s _ hu ht; exact ⟨hu, ht⟩
  | cons a rest ih =>
    intro s ha hu ht
    have h1 := authReducer_keeps_signed_out s a (ha a (List.mem_cons_self a rest)) hu ht
    exact ih (authReducer s a) (fun b hb => ha b (List.mem_cons_of_mem a hb)) h1.1 h1.2

/-- C20 (login alone does not authenticate): the case `login.fulfilled` changes nothing
but `loading`, which it clears.  From `user = null` and `token = null`, an action, or a
sequence of actions, that contains no `register.fulfilled`, `verifyOTP.fulfilled` or
`handleGoogleCallback.fulfilled` leaves both null; these three cases store the `user`
and `token` of their payload; and `logout.fulfilled` sets both to null. -/
theorem login_alone_does_not_authenticate (s : AuthState) :
    authReducer s AuthAction.login_fulfilled = { s with loading := false } ∧
    (∀ a, ¬ Authenticating a → s.user = none → s.token = none →
      (authReducer s a).user = none ∧ (authReducer s a).token = none) ∧
    (∀ actions : List AuthAction, (∀ a ∈ actions, ¬ Authenticating a) →
      s.user = none → s.token = none →
      (authRun s actions).user = none ∧ (authRun s actions).token = none) ∧
    (∀ p : AuthPayload,
      (authReducer s (AuthAction.register_fulfilled p)).user = p.user ∧
      (authReducer s (AuthAction.register_fulfilled p)).token = p.token ∧
      (authReducer s (AuthAction.verifyOTP_fulfilled p)).user = p.user ∧
      (authReducer s (AuthAction.verifyOTP_fulfilled p)).token = p.token ∧
      (authReducer s (AuthAction.handleGoogleCallback_fulfilled (some p))).user = p.user ∧
      (authReducer s (AuthAction.handleGoogleCallback_fulfilled (some p))).token = p.token) ∧
    (authReducer s AuthAction.logout_fulfilled).user = none ∧
    (authReducer s AuthAction.logout_fulfilled).token = none :=
  ⟨rfl, fun a => authReducer_keeps_signed_out s a,
    fun actions => authRun_keeps_signed_out actions s,
    fun _ => ⟨rfl, rfl, rfl, rfl, rfl, rfl⟩, rfl, rfl⟩

theorem login_alone_does_not_authenticate_witness :
    (authRun {} [AuthAction.login_pending, AuthAction.login_fulfilled,
      AuthAction.googleAuth_fulfilled, AuthAction.login_rejected (some "Invalid credentials"),
      AuthAction.clearError]).user = none ∧
    (authRun {} [AuthAction.login_pending, AuthAction.login_fulfilled,
      AuthAction.googleAuth_fulfilled, AuthAction.login_rejected (some "Invalid credentials"),
      AuthAction.clearError]).token = none ∧
    (authReducer {} AuthAction.login_fulfilled).token = none :=
  ⟨((login_alone_does_not_authenticate {}).2.2.1 _ (by decide) rfl rfl).1,
   ((login_alone_does_not_authenticate {}).2.2.1 _ (by decide) rfl rfl).2,
   ((login_alone_does_not_authenticate {}).2.1 AuthAction.login_fulfilled (by decide)
      rfl rfl).2⟩

/-! ## Initiation responses without `data.transactionId` -/

theorem pollingEffect_untracked (r w : World) (h : truthy r.ui.transactionId = false) :
    pollingEffect r w = w := by
  unfold pollingEffect
  cases hid : r.ui.transactionId with
  | none => rfl
  | some id =>
    have he : id = "" := by simpa [truthy, hid] using h
    simp [he]

theorem renderPass_untracked (w : World) (ht : truthy w.ui.transactionId = false)
    (hi : w.interval = none) :
    truthy (renderPass w).ui.transactionId = false ∧ (renderPass w).interval = none ∧
    (renderPass w).statusQueries = w.statusQueries ∧
    (renderPass w).inflight = w.inflight := by
  have key : ∀ w1 : World, w1.statusQueries = w.statusQueries → w1.inflight = w.inflight →
      w1.interval = w.interval → w1.ui.transactionId = w.ui.transactionId →
      truthy (if w.pollingDeps = some (pollingDepsOf w) then w1
        else pollingEffect w
          { w1 with pollingDeps := some (pollingDepsOf w), interval := none }).ui.transactionId
        = false ∧
      (if w.pollingDeps = some (pollingDepsOf w) then w1
        else pollingEffect w
          { w1 with pollingDeps := some (pollingDepsOf w), interval := none }).interval
        = none ∧
      (if w.pollingDeps = some (pollingDepsOf w) then w1
        else pollingEffect w
          { w1 with pollingDeps := some (pollingDepsOf w), interval := none }).statusQueries
        = w.statusQueries ∧
      (if w.pollingDeps = some (pollingDepsOf w) then w1
        else pollingEffect w
          { w1 with pollingDeps := some (pollingDepsOf w), interval := none }).inflight
        = w.inflight := by
    intro w1 e1 e2 e3 e4
    by_cases hp : w.pollingDeps = some (pollingDepsOf w)
    · rw [if_pos hp]
      exact ⟨by rw [e4]; exact ht, e3.trans hi, e1, e2⟩
    · rw [if_neg hp, pollingEffect_untracked w _ ht]
      exact ⟨by rw [← e4] at ht; exact ht, rfl, e1, e2⟩
  dsimp only [renderPass]
  by_cases hg : w.gatewayDeps = some (gatewayDepsOf w)
  · rw [if_pos hg]
    exact key w rfl rfl rfl rfl
  · rw [if_neg hg]
    obtain ⟨g1, g2, g3, g4⟩ :=
      gatewayEffect_frame_more { w with gatewayDeps := some (gatewayDepsOf w) }
    exact key _ g1 g2 g3 g4

theorem settle_untracked (w : World) (ht : truthy w.ui.transactionId = false)
    (hi : w.interval = none) :
    truthy (settle w).ui.transactionId = false ∧ (settle w).interval = none ∧
    (settle w).statusQueries = w.statusQueries ∧ (settle w).inflight = w.inflight := by
  obtain ⟨a1, a2, a3, a4⟩ := renderPass_untracked w ht hi
  obtain ⟨b1, b2, b3, b4⟩ := renderPass_untracked (renderPass w) a1 a2
  exact ⟨b1, b2, b3.trans a3, b4.trans a4⟩

theorem typeError_shown :
    jsOrDefault (some typeErrorMessage) "Payment processing failed. Please try again." =
      typeErrorMessage := by
  decide

theorem without_data_after_render (s : World) (r : InitResult) (h1 : r.success = true)
    (h2 : truthy r.transactionId = true) (h3 : r.data = none)
    (hs : Settled s) (hi : s.interval = none) :
    Settled (settle (doMoMoPayment_resolved r s)) ∧
    (settle (doMoMoPayment_resolved r s)).interval = none ∧
    (settle (doMoMoPayment_resolved r s)).statusQueries = s.statusQueries ∧
    (settle (doMoMoPayment_resolved r s)).ui.step = Step.confirm ∧
    (settle (doMoMoPayment_resolved r s)).ui.processing = false ∧
    (settle (doMoMoPayment_resolved r s)).ui.formError = typeErrorMessage ∧
    (settle (doMoMoPayment_resolved r s)).ui.transactionId = s.ui.transactionId ∧
    (settle (doMoMoPayment_resolved r s)).navigations = s.navigations ∧
    (settle (doMoMoPayment_resolved r s)).store = s.store := by
  rw [resolved_without_data r s h1 h2 h3]
  rw [settle_after_handler s (doMoMoPayment_catch (some typeErrorMessage) s) hs rfl rfl
    (by simp [doMoMoPayment_catch]) (by simpa [doMoMoPayment_catch] using hi)]
  exact ⟨⟨rfl, rfl⟩, hi, rfl, rfl, rfl, typeError_shown, rfl, rfl, rfl⟩

theorem initFulfilled_without_data (w : World) (r : InitResult) (h : Initiating w)
    (h1 : r.success = true) (h2 : truthy r.transactionId = true) (h3 : r.data = none) :
    Settled (step w (Event.initFulfilled r)) ∧
    (step w (Event.initFulfilled r)).interval = none ∧
    (step w (Event.initFulfilled r)).statusQueries = w.statusQueries ∧
    (step w (Event.initFulfilled r)).ui.step = Step.confirm ∧
    (step w (Event.initFulfilled r)).ui.processing = false ∧
    (step w (Event.initFulfilled r)).ui.formError = typeErrorMessage ∧
    (step w (Event.initFulfilled r)).ui.transactionId = w.ui.transactionId ∧
    (step w (Event.initFulfilled r)).navigations = w.navigations ∧
    (step w (Event.initFulfilled r)).store =
      processMoMoPayment_fulfilled w.store r w.nextRef := by
  obtain ⟨a1, a2, a3, a4, a5⟩ := h
  have hg : (processMoMoPayment_fulfilled w.store r w.nextRef).gatewayStatus ≠
      some "SUCCESSFUL" := by
    rw [processMoMoPayment_fulfilled_gatewayStatus, h3]
    simp
  have e1 := settle_idle
    { w with
      awaitingInit := false
      store := processMoMoPayment_fulfilled w.store r w.nextRef
      nextRef := w.nextRef + 1 }
    (by simp [a2]) (by simpa using a4) (gatewayFires_of_status _ hg)
  obtain ⟨c1, c2, c3, c4, _, _, _, c8, _⟩ := settle_calm
    { w with
      awaitingInit := false
      store := processMoMoPayment_fulfilled w.store r w.nextRef
      nextRef := w.nextRef + 1 }
    (by simp [a2]) (by simpa using a4)
  obtain ⟨d1, d2, d3, d4, d5, d6, d7, d8, d9⟩ :=
    without_data_after_render _ r h1 h2 h3 c1 c2
  simp only [step, applyEvent, a1, if_true]
  refine ⟨d1, d2, d3.trans c4, d4, d5, d6, d7.trans c8, d8.trans ?_, d9.trans c3⟩
  rw [e1]

theorem resolved_untracked (r : InitResult) (d : InitData) (x : World)
    (h1 : r.success = true) (h2 : truthy r.transactionId = true) (hd : r.data = some d)
    (hs : r.status ≠ some "SUCCESSFUL") :
    doMoMoPayment_resolved r x =
      { x with
        ui := { x.ui with
          transactionId := d.transactionId
          processing := false
          step := Step.verifying
          statusMessage := "Payment request sent. Please approve on your phone..."
          pollCount := 0 } } := by
  simp [doMoMoPayment_resolved, h1, h2, hd, hs]

theorem untracked_after_render (s : World) (r : InitResult) (d : InitData)
    (h1 : r.success = true) (h2 : truthy r.transactionId = true) (hd : r.data = some d)
    (ht : truthy d.transactionId = false) (hst : r.status ≠ some "SUCCESSFUL")
    (hs : Settled s) (hi : s.interval = none) :
    (settle (doMoMoPayment_resolved r s)).interval = none ∧
    (settle (doMoMoPayment_resolved r s)).statusQueries = s.statusQueries ∧
    (settle (doMoMoPayment_resolved r s)).ui.step = Step.verifying ∧
    (settle (doMoMoPayment_resolved r s)).ui.transactionId = d.transactionId ∧
    (settle (doMoMoPayment_resolved r s)).ui.pollCount = 0 ∧
    (settle (doMoMoPayment_resolved r s)).inflight = s.inflight := by
  have e := resolved_untracked r d s h1 h2 hd hst
  have hdeps : (doMoMoPayment_resolved r s).gatewayDeps =
      some (gatewayDepsOf (doMoMoPayment_resolved r s)) := by
    rw [e]
    exact hs.1
  have hu := settle_ui_of_deps _ hdeps
  obtain ⟨_, b2, b3, b4⟩ := settle_untracked (doMoMoPayment_resolved r s)
    (by rw [e]; exact ht) (by rw [e]; exact hi)
  refine ⟨b2, ?_, ?_, ?_, ?_, ?_⟩
  · rw [b3, e]
  · rw [hu, e]
  · rw [hu, e]
  · rw [hu, e]
  · rw [b4, e]

theorem initFulfilled_untracked (w : World) (r : InitResult) (d : InitData)
    (h : Initiating w) (h1 : r.success = true) (h2 : truthy r.transactionId = true)
    (hd : r.data = some d) (ht : truthy d.transactionId = false)
    (hs : r.status ≠ some "SUCCESSFUL") :
    Settled (step w (Event.initFulfilled r)) ∧
    (step w (Event.initFulfilled r)).interval = none ∧
    (step w (Event.initFulfilled r)).statusQueries = w.statusQueries ∧
    (step w (Event.initFulfilled r)).ui.step = Step.verifying ∧
    (step w (Event.initFulfilled r)).ui.transactionId = d.transactionId ∧
    (step w (Event.initFulfilled r)).ui.pollCount = 0 ∧
    (step w (Event.initFulfilled r)).inflight = [] := by
  obtain ⟨a1, a2, a3, a4, a5⟩ := h
  obtain ⟨c1, c2, _, c4, c5, _⟩ := settle_calm
    { w with
      awaitingInit := false
      store := processMoMoPayment_fulfilled w.store r w.nextRef
      nextRef := w.nextRef + 1 }
    (by simp [a2]) (by simpa using a4)
  obtain ⟨d1, d2, d3, d4, d5, d6⟩ := untracked_after_render _ r d h1 h2 hd ht hs c1 c2
  simp only [step, applyEvent, a1, if_true]
  refine ⟨settle_settled _, d1, d2.trans c4, d3, d4, d5, ?_⟩
  rw [d6, c5]
  exact a5

theorem resolved_data_frame (r : InitResult) (d : InitData) (x : World)
    (h1 : r.success = true) (h2 : truthy r.transactionId = true) (hd : r.data = some d) :
    (doMoMoPayment_resolved r x).ui.transactionId = d.transactionId ∧
    (doMoMoPayment_resolved r x).interval = x.interval ∧
    (doMoMoPayment_resolved r x).statusQueries = x.statusQueries := by
  by_cases hs : r.status = some "SUCCESSFUL"
  · simp [doMoMoPayment_resolved, h1, h2, hd, hs]
  · simp [doMoMoPayment_resolved, h1, h2, hd, hs]

theorem initFulfilled_no_timer (w : World) (r : InitResult) (d : InitData)
    (h : Initiating w) (h1 : r.success = true) (h2 : truthy r.transactionId = true)
    (hd : r.data = some d) (ht : truthy d.transactionId = false) :
    Settled (step w (Event.initFulfilled r)) ∧
    (step w (Event.initFulfilled r)).interval = none ∧
    (step w (Event.initFulfilled r)).statusQueries = w.statusQueries := by
  obtain ⟨a1, a2, a3, a4, a5⟩ := h
  obtain ⟨c1, c2, _, c4, _⟩ := settle_calm
    { w with
      awaitingInit := false
      store := processMoMoPayment_fulfilled w.store r w.nextRef
      nextRef := w.nextRef + 1 }
    (by simp [a2]) (by simpa using a4)
  simp only [step, applyEvent, a1, if_true]
  obtain ⟨f1, f2, f3⟩ := resolved_data_frame r d
    (settle
      { w with
        awaitingInit := false
        store := processMoMoPayment_fulfilled w.store r w.nextRef
        nextRef := w.nextRef + 1 }) h1 h2 hd
  obtain ⟨_, b2, b3, _⟩ := settle_untracked _ (by rw [f1]; exact ht) (f2.trans c2)
  exact ⟨settle_settled _, b2, b3.trans (f3.trans c4)⟩

/-- Unless the initiation response passes the test of `doMoMoPayment` and carries a
non-empty `data.transactionId`, the page starts no timer and no tick issues a status
query. -/
theorem no_query_unless_reports (w : World) (r : InitResult) (h : Initiating w)
    (hr : ∀ id, ¬ Reports r id) (n : Nat) :
    (run (step w (Event.initFulfilled r)) (repeatEvents n [Event.tick])).statusQueries =
      w.statusQueries := by
  have key : Settled (step w (Event.initFulfilled r)) ∧
      (step w (Event.initFulfilled r)).interval = none ∧
      (step w (Event.initFulfilled r)).statusQueries = w.statusQueries := by
    by_cases hg : (r.success && truthy r.transactionId) = true
    · have h1 : r.success = true := by
        cases hsx : r.success
        · simp [hsx] at hg
        · rfl
      have h2 : truthy r.transactionId = true := by simpa [h1] using hg
      cases hd : r.data with
      | none =>
        obtain ⟨b1, b2, b3, _⟩ := initFulfilled_without_data w r h h1 h2 hd
        exact ⟨b1, b2, b3⟩
      | some d =>
        have ht : truthy d.transactionId = false := by
          cases hdt : d.transactionId with
          | none => rfl
          | some id =>
            by_cases hid : id = ""
            · simp [truthy, hid]
            · exact absurd ⟨h1, h2, hid, by simp [hd, hdt]⟩ (hr id)
        exact initFulfilled_no_timer w r d h h1 h2 hd ht
    · have hl : LacksSuccess r := by
        unfold LacksSuccess
        simpa using hg
      obtain ⟨b1, b2, b3, _⟩ := initFulfilled_lacking w r h hl
      exact ⟨b1, b2, b3⟩
  rw [ticks_no_timer _ key.1 key.2.1 n]
  exact key.2.2

/-- C15, evaluated on the code: an initiation response with success, the transaction id
`id` and status `SUCCESSFUL` but without a `data` member passes the test
`result.success && result.transactionId`; reading `result.data.transactionId` then
throws and the `catch` branch runs.  The page ends in step `confirm`, not `success`,
shows the message of the `TypeError` and schedules no navigation, while the store, whose
reducer accepts a response without `data`, records `SUCCESSFUL` and `success`. -/
theorem immediate_success_without_data_shows_error (w : World) (r : InitResult)
    (id : String) (h : Initiating w) (h1 : r.success = true)
    (h2 : r.transactionId = some id) (h3 : id ≠ "")
    (hs : r.status = some "SUCCESSFUL") (hd : r.data = none) :
    (step w (Event.initFulfilled r)).ui.step = Step.confirm ∧
    (step w (Event.initFulfilled r)).ui.formError = typeErrorMessage ∧
    (step w (Event.initFulfilled r)).ui.transactionId = w.ui.transactionId ∧
    (step w (Event.initFulfilled r)).navigations = w.navigations ∧
    (step w (Event.initFulfilled r)).store.paymentStatus = some "SUCCESSFUL" ∧
    (step w (Event.initFulfilled r)).store.success = true := by
  have ht : truthy r.transactionId = true := by simp [truthy, h2, h3]
  obtain ⟨_, _, _, b4, _, b6, b7, b8, b9⟩ := initFulfilled_without_data w r h h1 ht hd
  refine ⟨b4, b6, b7, b8, ?_, ?_⟩
  · rw [b9]
    simp [processMoMoPayment_fulfilled, hd, hs, jsOr, truthy]
  · rw [b9]
    simp [processMoMoPayment_fulfilled, hd, hs, jsOr, truthy]

/-- Witness of C15 on the code: a fresh page, phone `0788123456`, and the response
`{success: true, transactionId: "tx1", status: "SUCCESSFUL"}`. -/
theorem immediate_success_without_data_shows_error_witness :
    Initiating (run (mount (some "watch") {})
      [Event.setPhone "0788123456", Event.doMoMoPayment]) ∧
    (purchase (flatInit "tx1" "SUCCESSFUL")).ui.step = Step.confirm ∧
    (purchase (flatInit "tx1" "SUCCESSFUL")).ui.formError = typeErrorMessage ∧
    (purchase (flatInit "tx1" "SUCCESSFUL")).navigations = [] ∧
    (purchase (flatInit "tx1" "SUCCESSFUL")).store.success = true :=
  ⟨by decide,
    (immediate_success_without_data_shows_error (run (mount (some "watch") {})
      [Event.setPhone "0788123456", Event.doMoMoPayment]) (flatInit "tx1" "SUCCESSFUL")
      "tx1" (by decide) rfl rfl (by decide) rfl rfl).1,
    (immediate_success_without_data_shows_error (run (mount (some "watch") {})
      [Event.setPhone "0788123456", Event.doMoMoPayment]) (flatInit "tx1" "SUCCESSFUL")
      "tx1" (by decide) rfl rfl (by decide) rfl rfl).2.1,
    by decide, by decide⟩

/-- C16, evaluated on the code: the handler tests `result.transactionId` but tracks
`result.data.transactionId`.  For a response with success, the non-empty transaction id
`id` and status `PENDING`: without a `data` member the read throws and the page ends in
step `confirm` with the tracked id unchanged; with a `data` member that has no
`transactionId` the page enters `verifying` tracking no id, other than `id`, with no
timer, so that no tick ever issues a status query; and with another non-empty id in
`data.transactionId` it is that id which is tracked and polled. -/
theorem tracked_id_is_read_from_data (w : World) (r : InitResult) (id : String)
    (h : Initiating w) (h1 : r.success = true) (h2 : r.transactionId = some id)
    (h3 : id ≠ "") (hs : r.status = some "PENDING") :
    (r.data = none →
      (step w (Event.initFulfilled r)).ui.step = Step.confirm ∧
      (step w (Event.initFulfilled r)).ui.transactionId = w.ui.transactionId ∧
      (step w (Event.initFulfilled r)).ui.formError = typeErrorMessage) ∧
    (∀ d, r.data = some d → truthy d.transactionId = false →
      (step w (Event.initFulfilled r)).ui.step = Step.verifying ∧
      (step w (Event.initFulfilled r)).ui.transactionId = d.transactionId ∧
      (step w (Event.initFulfilled r)).ui.transactionId ≠ some id ∧
      (step w (Event.initFulfilled r)).interval = none ∧
      ∀ n, (run (step w (Event.initFulfilled r))
        (repeatEvents n [Event.tick])).statusQueries = w.statusQueries) ∧
    (∀ d other, r.data = some d → d.transactionId = some other → other ≠ "" →
      d.gatewayStatus ≠ some "SUCCESSFUL" →
      Polling (step w (Event.initFulfilled r)) other 0) := by
  have ht : truthy r.transactionId = true := by simp [truthy, h2, h3]
  have hns : r.status ≠ some "SUCCESSFUL" := by rw [hs]; decide
  refine ⟨fun hd => ?_, fun d hd hdt => ?_, fun d other hd hdt ho hg => ?_⟩
  · obtain ⟨_, _, _, b4, _, b6, b7, _⟩ := initFulfilled_without_data w r h h1 ht hd
    exact ⟨b4, b7, b6⟩
  · obtain ⟨c1, c2, c3, c4, c5, _⟩ := initFulfilled_untracked w r d h h1 ht hd hdt hns
    refine ⟨c4, c5, ?_, c2, fun n => ?_⟩
    · rw [c5]
      intro hc
      rw [hc] at hdt
      simp [truthy, h3] at hdt
    · rw [ticks_no_timer _ c1 c2 n]
      exact c3
  · exact (initFulfilled_polling w r other h ⟨h1, ht, ho, by simp [hd, hdt]⟩ hns
      (by simpa [hd] using hg)).1

/-- Witness of C16 on the code: a fresh page, phone `0788123456`, and the responses
`{success: true, transactionId: "tx1", status: "PENDING"}` without `data`, with
`data: {}` and with `data: {transactionId: "tx2"}`. -/
theorem tracked_id_is_read_from_data_witness :
    (purchase (flatInit "tx1" "PENDING")).ui.step = Step.confirm ∧
    (purchase { flatInit "tx1" "PENDING" with data := some {} }).ui.step =
      Step.verifying ∧
    (purchase { flatInit "tx1" "PENDING" with data := some {} }).ui.transactionId = none ∧
    (purchase { flatInit "tx1" "PENDING" with data := some {} }).interval = none ∧
    Polling (purchase { flatInit "tx1" "PENDING" with
      data := some { transactionId := some "tx2" } }) "tx2" 0 :=
  ⟨((tracked_id_is_read_from_data (run (mount (some "watch") {})
      [Event.setPhone "0788123456", Event.doMoMoPayment]) (flatInit "tx1" "PENDING")
      "tx1" (by decide) rfl rfl (by decide) rfl).1 rfl).1,
    ((tracked_id_is_read_from_data (run (mount (some "watch") {})
      [Event.setPhone "0788123456", Event.doMoMoPayment])
      { flatInit "tx1" "PENDING" with data := some {} }
      "tx1" (by decide) rfl rfl (by decide) rfl).2.1 {} rfl rfl).1,
    by decide, by decide,
    (tracked_id_is_read_from_data (run (mount (some "watch") {})
      [Event.setPhone "0788123456", Event.doMoMoPayment])
      { flatInit "tx1" "PENDING" with data := some { transactionId := some "tx2" } }
      "tx1" (by decide) rfl rfl (by decide) rfl).2.2
      { transactionId := some "tx2" } "tx2" rfl rfl (by decide) (by decide)⟩

/-! ## The status case on whole objects -/

theorem spread_nil (b : Obj) : spread [] b = b := by
  unfold spread
  simp

theorem lookup_append_obj (k : String) (xs ys : Obj) :
    (xs ++ ys).lookup k = match xs.lookup k with
      | some v => some v
      | none => ys.lookup k := by
  induction xs with
  | nil => rfl
  | cons kv rest ih =>
    obtain ⟨a, v⟩ := kv
    by_cases h : k == a
    · simp [List.lookup, h]
    · have h' : (k == a) = false := by simpa using h
      simp only [List.cons_append, List.lookup, h']
      exact ih

theorem lookup_map_obj (k : String) (a b : Obj) :
    (a.map (fun kv => (kv.1, (b.lookup kv.1).getD kv.2))).lookup k =
      (a.lookup k).map (fun v => (b.lookup k).getD v) := by
  induction a with
  | nil => rfl
  | cons kv rest ih =>
    obtain ⟨x, v⟩ := kv
    by_cases h : k == x
    · have hx : k = x := by simpa using h
      subst hx
      simp [List.lookup]
    · have h' : (k == x) = false := by simpa using h
      simp only [List.map_cons, List.lookup, h']
      exact ih

theorem lookup_filter_obj (k : String) (a b : Obj) :
    (b.filter (fun kv => (a.lookup kv.1).isNone)).lookup k =
      if (a.lookup k).isNone then b.lookup k else none := by
  induction b with
  | nil => simp [List.lookup]
  | cons kv rest ih =>
    obtain ⟨x, v⟩ := kv
    by_cases hx : (a.lookup x).isNone = true
    · rw [List.filter_cons_of_pos (by simpa using hx)]
      by_cases h : k == x
      · have hk : k = x := by simpa using h
        subst hk
        simp [List.lookup, hx]
      · have h' : (k == x) = false := by simpa using h
        simp only [List.lookup, h']
        exact ih
    · rw [List.filter_cons_of_neg (by simpa using hx)]
      by_cases h : k == x
      · have hk : k = x := by simpa using h
        subst hk
        rw [ih]
        simp [hx]
      · have h' : (k == x) = false := by simpa using h
        simp only [List.lookup, h']
        exact ih

theorem member_spread (a b : Obj) (k : String) :
    member (spread a b) k = match member b k with
      | some v => some v
      | none => member a k := by
  unfold member spread
  rw [lookup_append_obj, lookup_map_obj, lookup_filter_obj]
  cases ha : a.lookup k with
  | none => cases hb : b.lookup k <;> simp
  | some v => cases hb : b.lookup k <;> simp

theorem statusFulfilled_currentTransaction (s : StatusSlice) (p : StatusPayload) :
    (statusFulfilled s p).currentTransaction =
      if s.currentTransaction.bind (fun t => member t "transactionId") =
          member (responseObject p) "transactionId" then
        some (spread (s.currentTransaction.getD []) (responseObject p))
      else s.currentTransaction := by
  unfold statusFulfilled
  dsimp only
  by_cases h1 : member (responseObject p) "status" = some (Value.str "SUCCESSFUL")
  · rw [if_pos h1]
  · rw [if_neg h1]
    by_cases h2 : member (responseObject p) "status" = some (Value.str "FAILED")
    · rw [if_pos h2]
    · rw [if_neg h2]

theorem statusFulfilled_paymentHistory (s : StatusSlice) (p : StatusPayload) :
    (statusFulfilled s p).paymentHistory =
      if member (responseObject p) "status" = some (Value.str "SUCCESSFUL") ∧
          existsInHistory s.paymentHistory (responseObject p) = false then
        responseObject p :: s.paymentHistory
      else s.paymentHistory := by
  unfold statusFulfilled
  dsimp only
  split_ifs <;> simp_all

theorem existsInHistory_iff (history : List Obj) (rd : Obj) :
    existsInHistory history rd = true ↔ member rd "transactionId" ∈ historyIds history := by
  unfold existsInHistory historyIds
  simp only [List.any_eq_true, decide_eq_true_eq, List.mem_map]

theorem existsInHistory_cons_self (history : List Obj) (rd : Obj) :
    existsInHistory (rd :: history) rd = true := by
  rw [existsInHistory_iff]
  simp [historyIds]

/-- C21 (history de-duplication): the case `checkMoMoPaymentStatus.fulfilled` puts the
response in front of `paymentHistory` exactly when its status is `SUCCESSFUL` and no
entry has the same `transactionId`, and leaves the history as it is otherwise; a
history with pairwise distinct `transactionId`s has pairwise distinct ones afterwards;
and the case applied twice with the same payload gives the same history as applied
once. -/
theorem history_deduplicated_by_transaction_id (s : StatusSlice) (p : StatusPayload) :
    ((statusFulfilled s p).paymentHistory =
      if member (responseObject p) "status" = some (Value.str "SUCCESSFUL") ∧
          existsInHistory s.paymentHistory (responseObject p) = false then
        responseObject p :: s.paymentHistory
      else s.paymentHistory) ∧
    ((historyIds s.paymentHistory).Nodup →
      (historyIds (statusFulfilled s p).paymentHistory).Nodup) ∧
    (statusFulfilled (statusFulfilled s p) p).paymentHistory =
      (statusFulfilled s p).paymentHistory := by
  refine ⟨statusFulfilled_paymentHistory s p, fun hn => ?_, ?_⟩
  · rw [statusFulfilled_paymentHistory]
    by_cases hc : member (responseObject p) "status" = some (Value.str "SUCCESSFUL") ∧
        existsInHistory s.paymentHistory (responseObject p) = false
    · rw [if_pos hc]
      have hnot : member (responseObject p) "transactionId" ∉ historyIds s.paymentHistory := by
        intro hm
        have := (existsInHistory_iff _ _).2 hm
        rw [hc.2] at this
        cases this
      show (member (responseObject p) "transactionId" :: historyIds s.paymentHistory).Nodup
      exact List.nodup_cons.2 ⟨hnot, hn⟩
    · rw [if_neg hc]
      exact hn
  · rw [statusFulfilled_paymentHistory (statusFulfilled s p) p, statusFulfilled_paymentHistory s p]
    by_cases hc : member (responseObject p) "status" = some (Value.str "SUCCESSFUL") ∧
        existsInHistory s.paymentHistory (responseObject p) = false
    · rw [if_pos hc, if_neg]
      rw [existsInHistory_cons_self]
      simp
    · rw [if_neg hc, if_neg hc]

/-- Witness of C21: a history that holds `tx1`; a `SUCCESSFUL` response for `tx2` is put
in front, once, and one for `tx1` is not added. -/
theorem history_deduplicated_by_transaction_id_witness :
    (historyIds [[("transactionId", Value.str "tx1")]]).Nodup ∧
    (statusFulfilled { paymentHistory := [[("transactionId", Value.str "tx1")]] }
      { body := [("transactionId", Value.str "tx2"),
                 ("status", Value.str "SUCCESSFUL")] }).paymentHistory =
      [[("transactionId", Value.str "tx2"), ("status", Value.str "SUCCESSFUL")],
       [("transactionId", Value.str "tx1")]] ∧
    (historyIds (statusFulfilled { paymentHistory := [[("transactionId", Value.str "tx1")]] }
      { body := [("transactionId", Value.str "tx2"),
                 ("status", Value.str "SUCCESSFUL")] }).paymentHistory).Nodup ∧
    (statusFulfilled { paymentHistory := [[("transactionId", Value.str "tx1")]] }
      { body := [("transactionId", Value.str "tx1"),
                 ("status", Value.str "SUCCESSFUL")] }).paymentHistory =
      [[("transactionId", Value.str "tx1")]] :=
  ⟨by decide, by decide,
    (history_deduplicated_by_transaction_id
      { paymentHistory := [[("transactionId", Value.str "tx1")]] }
      { body := [("transactionId", Value.str "tx2"),
                 ("status", Value.str "SUCCESSFUL")] }).2.1 (by decide),
    by decide⟩

/-- C22, evaluated on the code: the test is `state.currentTransaction?.transactionId ===
responseData.transactionId`.  With no current transaction and a response that has no
`transactionId`, both sides are `undefined`, the test holds and `currentTransaction`
becomes a copy of the response.  In the other cases the claim holds: with no current
transaction and a response that has a `transactionId`, and with a current transaction
whose `transactionId` differs, `currentTransaction` is left as it is; with the same
`transactionId` it becomes the old object overridden member by member by the
response. -/
theorem status_without_id_creates_current_transaction (s : StatusSlice)
    (p : StatusPayload) :
    (s.currentTransaction = none → member (responseObject p) "transactionId" = none →
      (statusFulfilled s p).currentTransaction = some (responseObject p)) ∧
    (s.currentTransaction = none → member (responseObject p) "transactionId" ≠ none →
      (statusFulfilled s p).currentTransaction = none) ∧
    (∀ t, s.currentTransaction = some t →
      member t "transactionId" ≠ member (responseObject p) "transactionId" →
      (statusFulfilled s p).currentTransaction = some t) ∧
    (∀ t, s.currentTransaction = some t →
      member t "transactionId" = member (responseObject p) "transactionId" →
      (statusFulfilled s p).currentTransaction = some (spread t (responseObject p)) ∧
      ∀ k, member (spread t (responseObject p)) k =
        match member (responseObject p) k with
        | some v => some v
        | none => member t k) := by
  refine ⟨fun hc hr => ?_, fun hc hr => ?_, fun t hc hr => ?_, fun t hc hr => ⟨?_, ?_⟩⟩
  · rw [statusFulfilled_currentTransaction, hc, hr]
    simp [spread_nil]
  · rw [statusFulfilled_currentTransaction, hc]
    rw [if_neg]
    intro he
    exact hr he.symm
  · rw [statusFulfilled_currentTransaction, hc]
    rw [if_neg]
    exact hr
  · rw [statusFulfilled_currentTransaction, hc]
    rw [if_pos]
    · rfl
    · exact hr
  · intro k
    exact member_spread t (responseObject p) k

/-- Witness of C22 on the code: an empty store and the response `{status: "PENDING"}`;
the store then holds `{status: "PENDING"}` as current transaction. -/
theorem status_without_id_creates_current_transaction_witness :
    (statusFulfilled {} { body := [("status", Value.str "PENDING")] }).currentTransaction =
      some [("status", Value.str "PENDING")] ∧
    (statusFulfilled { currentTransaction := some [("transactionId", Value.str "tx1")] }
      { body := [("transactionId", Value.str "tx1"),
                 ("status", Value.str "PENDING")] }).currentTransaction =
      some [("transactionId", Value.str "tx1"), ("status", Value.str "PENDING")] :=
  ⟨(status_without_id_creates_current_transaction {}
      { body := [("status", Value.str "PENDING")] }).1 rfl rfl,
    ((status_without_id_creates_current_transaction
      { currentTransaction := some [("transactionId", Value.str "tx1")] }
      { body := [("transactionId", Value.str "tx1"),
                 ("status", Value.str "PENDING")] }).2.2.2
      [("transactionId", Value.str "tx1")] rfl rfl).1⟩

/-! ## The initiation cases of the slice -/

/-- C23 (success flag of the initiation cases): after `processMoMoPayment.pending`
followed by `processMoMoPayment.fulfilled` the flag `success` is true exactly when the
stored `gatewayStatus` or the stored `paymentStatus` is `SUCCESSFUL`, and `loading` is
false; after `processMoMoPayment.rejected` the flag is false, `error` holds the
rejection payload and `currentTransaction` is the one held before. -/
theorem initiation_cases_set_success_flag (s : Payments) (payload : InitResult) (ref : Nat)
    (rejection : Option String) :
    ((processMoMoPayment_fulfilled (processMoMoPayment_pending s) payload ref).success = true ↔
      ((processMoMoPayment_fulfilled (processMoMoPayment_pending s) payload ref).gatewayStatus
          = some "SUCCESSFUL" ∨
        (processMoMoPayment_fulfilled (processMoMoPayment_pending s) payload ref).paymentStatus
          = some "SUCCESSFUL")) ∧
    (processMoMoPayment_fulfilled (processMoMoPayment_pending s) payload ref).loading = false ∧
    (processMoMoPayment_rejected s rejection).success = false ∧
    (processMoMoPayment_rejected s rejection).error = rejection ∧
    (processMoMoPayment_rejected s rejection).currentTransaction = s.currentTransaction ∧
    (processMoMoPayment_rejected (processMoMoPayment_pending s) rejection).success = false ∧
    (processMoMoPayment_rejected (processMoMoPayment_pending s) rejection).error =
      rejection ∧
    (processMoMoPayment_rejected (processMoMoPayment_pending s) rejection).currentTransaction
      = s.currentTransaction := by
  refine ⟨?_, rfl, rfl, rfl, rfl, rfl, rfl, rfl⟩
  simp only [processMoMoPayment_fulfilled, processMoMoPayment_pending]
  by_cases h1 : payload.data.bind (fun d => d.gatewayStatus) = some "SUCCESSFUL"
  · simp [h1]
  · by_cases h2 : jsOr (payload.data.bind (fun d => d.status)) payload.status =
        some "SUCCESSFUL"
    · simp [h2]
    · simp [h1, h2]

/-! ## The payment-history fetch -/

/-- C24, evaluated on the code: the dispatch made by `PaymentSuccess` and by
`FilmmakerDashboard` hands the user id itself to the thunk, whose payload creator
destructures it as an object.  For every logged-in user the request goes to
`/user/undefined` with page 1 and limit 10, the defaults of the pattern, not to the
user's id with limit 50; with no user in the store no request is made.  Called with one
object `{ userId, page: 1, limit: 50 }` the thunk requests `/user/<id>` with page 1 and
limit 50. -/
theorem history_fetch_loses_user_id (u : String) :
    fetchHistoryOnMount (some u) =
      some { path := "/user/undefined", page := 1, limit := 10 } ∧
    fetchHistoryOnMount none = none ∧
    getPaymentHistory (ThunkArg.object (some u) (some 1) (some 50)) =
      some { path := "/user/" ++ u, page := 1, limit := 50 } := by
  refine ⟨rfl, rfl, rfl⟩

/-! ## The phone number in the request -/

theorem removeSpaces_mk (cs : List Char) (h : ∀ c ∈ cs, isJsSpace c = false) :
    removeSpaces (String.mk cs) = cs := by
  unfold removeSpaces
  show cs.filter (fun c => !isJsSpace c) = cs
  rw [List.filter_eq_self]
  intro c hc
  rw [h c hc]
  rfl

theorem removeSpaces_free (p : String) : ∀ c ∈ removeSpaces p, isJsSpace c = false := by
  intro c hc
  unfold removeSpaces at hc
  simpa using (List.mem_filter.1 hc).2

theorem validatePhone_of_cleaned (cs : List Char) (h : ∀ c ∈ cs, isJsSpace c = false) :
    validatePhone (String.mk cs) =
      if cs.isEmpty then some "Phone number is required"
      else if matchesInternational cs then none
      else if matchesLocal cs then none
      else some "Please enter a valid phone number (e.g. 0788123456)" := by
  unfold validatePhone
  rw [removeSpaces_mk cs h]

/-- C25, evaluated on the code: let `validatePhone` accept the phone number.  If, with
white space removed, it starts with `0` or `+`, the `phoneNumber` of the request is the
number with white space removed and is accepted again.  If it starts with `2`, the form
`250` plus 9 digits, the request carries the number with a `0` put in front, and
`validatePhone` rejects that string. -/
theorem bare_country_code_gets_leading_zero (p : String) (h : validatePhone p = none) :
    ((removeSpaces p).head? ≠ some '2' →
      formatPhone p = String.mk (removeSpaces p) ∧ validatePhone (formatPhone p) = none) ∧
    ((removeSpaces p).head? = some '2' →
      formatPhone p = String.mk ('0' :: removeSpaces p) ∧
      validatePhone (formatPhone p) =
        some "Please enter a valid phone number (e.g. 0788123456)") := by
  have hfree := removeSpaces_free p
  have hsame : validatePhone (String.mk (removeSpaces p)) = none := by
    have e : validatePhone (String.mk (removeSpaces p)) = validatePhone p := by
      unfold validatePhone
      rw [removeSpaces_mk _ hfree]
    rw [e, h]
  have hshape : ∃ ds : List Char,
      removeSpaces p = '0' :: '7' :: ds ∨ removeSpaces p = '2' :: '5' :: '0' :: ds ∨
      removeSpaces p = '+' :: '2' :: '5' :: '0' :: ds := by
    unfold validatePhone at h
    by_cases he : (removeSpaces p).isEmpty = true
    · rw [if_pos he] at h
      cases h
    · rw [if_neg he] at h
      by_cases hi : matchesInternational (removeSpaces p) = true
      · obtain ⟨ds, _, _, h3⟩ := (matchesInternational_iff _).1 hi
        rcases h3 with h3 | h3
        · exact ⟨ds, Or.inr (Or.inl h3)⟩
        · exact ⟨ds, Or.inr (Or.inr h3)⟩
      · rw [if_neg hi] at h
        by_cases hl : matchesLocal (removeSpaces p) = true
        · obtain ⟨ds, _, _, h3⟩ := (matchesLocal_iff _).1 hl
          exact ⟨ds, Or.inl h3⟩
        · rw [if_neg hl] at h
          cases h
  obtain ⟨ds, hc | hc | hc⟩ := hshape
  · have ef : formatPhone p = String.mk (removeSpaces p) := by
      unfold formatPhone
      rw [hc]
      rfl
    refine ⟨fun _ => ⟨ef, by rw [ef]; exact hsame⟩, fun h2 => ?_⟩
    rw [hc] at h2
    simp at h2
  · have ef : formatPhone p = String.mk ('0' :: removeSpaces p) := by
      unfold formatPhone
      rw [hc]
      rfl
    refine ⟨fun h2 => absurd (by rw [hc]; rfl) h2, fun _ => ⟨ef, ?_⟩⟩
    rw [ef, validatePhone_of_cleaned]
    · rw [hc]
      rfl
    · intro c hcm
      rcases List.mem_cons.1 hcm with h0 | h0
      · rw [h0]
        decide
      · exact hfree c h0
  · have ef : formatPhone p = String.mk (removeSpaces p) := by
      unfold formatPhone
      rw [hc]
      rfl
    refine ⟨fun _ => ⟨ef, by rw [ef]; exact hsame⟩, fun h2 => ?_⟩
    rw [hc] at h2
    simp at h2

/-- Witness of C25 on the code: `250788123456` is accepted and sent as `0250788123456`,
which is not accepted; `0788123456` is sent as it is. -/
theorem bare_country_code_gets_leading_zero_witness :
    validatePhone "250788123456" = none ∧
    formatPhone "250788123456" = "0250788123456" ∧
    validatePhone (formatPhone "250788123456") =
      some "Please enter a valid phone number (e.g. 0788123456)" ∧
    formatPhone "0788 123 456" = "0788123456" :=
  ⟨by decide,
    ((bare_country_code_gets_leading_zero "250788123456" (by decide)).2 (by decide)).1,
    ((bare_country_code_gets_leading_zero "250788123456" (by decide)).2 (by decide)).2,
    by decide⟩

/-! ## The poll counter and the tracked id in step `verifying` -/

/-- C27, evaluated on the code: from a poller that has just started, with every status
query answered by a non-terminal status, after `n` responses, `n` up to 30, the page is
in step `verifying` with `pollCount = n`, the number of these responses.  After the 30th
the page is still in `verifying` with `pollCount = 30`, so `pollCount + 1` is 31 and the
view shows `Check #31 of 30`; only the response to the 31st query ends the step. -/
theorem poll_counter_reaches_ceiling_in_verifying (w : World) (id : String)
    (r : StatusResult) (h : Polling w id 0) (hr : NonTerminal r) :
    (∀ n, n ≤ maxPolls →
      (run w (repeatEvents n (pollRound r))).ui.step = Step.verifying ∧
      (run w (repeatEvents n (pollRound r))).ui.pollCount = n) ∧
    (run w (repeatEvents 30 (pollRound r))).ui.step = Step.verifying ∧
    ¬ ((run w (repeatEvents 30 (pollRound r))).ui.pollCount + 1 ≤ maxPolls) ∧
    checkLabel (run w (repeatEvents 30 (pollRound r))) = "Check #31 of 30" ∧
    (run w (repeatEvents 31 (pollRound r))).ui.step = Step.failed := by
  have all : ∀ n, n ≤ maxPolls → Polling (run w (repeatEvents n (pollRound r))) id n := by
    intro n hn
    have := (polling_pending_rounds w id 0 r hr h n (by omega)).1
    rwa [Nat.zero_add] at this
  have p30 := all 30 (by decide)
  have c30 : (run w (repeatEvents 30 (pollRound r))).ui.pollCount = 30 := p30.2.2.2.1
  refine ⟨fun n hn => ⟨(all n hn).1, (all n hn).2.2.2.1⟩, p30.1, ?_, ?_, ?_⟩
  · rw [c30]
    decide
  · unfold checkLabel
    rw [c30]
    decide
  · rw [repeatEvents_succ_right, run_append]
    exact (polling_ceiling_round _ id 30 r p30 (by decide)).2.1

/-- Witness of C27 on the code: the purchase of transaction `tx1` answered `PENDING`
throughout. -/
theorem poll_counter_reaches_ceiling_in_verifying_witness :
    Polling (verifyingWorld "tx1") "tx1" 0 ∧ NonTerminal (pendingStatus "tx1") ∧
    checkLabel (run (verifyingWorld "tx1")
      (repeatEvents 30 (pollRound (pendingStatus "tx1")))) = "Check #31 of 30" :=
  ⟨by decide, by decide,
    (poll_counter_reaches_ceiling_in_verifying (verifyingWorld "tx1") "tx1"
      (pendingStatus "tx1") (by decide) (by decide)).2.2.2.1⟩

/-- C26, evaluated on the code: the initiation response passes the test
`result.success && result.transactionId`, its status is not `SUCCESSFUL`, and its `data`
member has no `transactionId` (or an empty one).  The page enters step `verifying`
tracking that falsy value; the guard `!transactionId` of the polling effect returns
before a timer is created, and whatever ticks follow the page stays as it is: step
`verifying`, no tracked id, no timer, no status query pending or issued. -/
theorem verifying_without_tracked_id_never_ends (w : World) (r : InitResult) (d : InitData)
    (n : Nat) (h : Initiating w) (h1 : r.success = true)
    (h2 : truthy r.transactionId = true) (hd : r.data = some d)
    (ht : truthy d.transactionId = false) (hs : r.status ≠ some "SUCCESSFUL") :
    (run (step w (Event.initFulfilled r)) (repeatEvents n [Event.tick])).ui.step =
      Step.verifying ∧
    truthy (run (step w (Event.initFulfilled r))
      (repeatEvents n [Event.tick])).ui.transactionId = false ∧
    (run (step w (Event.initFulfilled r)) (repeatEvents n [Event.tick])).interval = none ∧
    (run (step w (Event.initFulfilled r)) (repeatEvents n [Event.tick])).inflight = [] ∧
    (run (step w (Event.initFulfilled r)) (repeatEvents n [Event.tick])).statusQueries =
      w.statusQueries := by
  obtain ⟨c1, c2, c3, c4, c5, _, c7⟩ := initFulfilled_untracked w r d h h1 h2 hd ht hs
  rw [ticks_no_timer _ c1 c2 n]
  refine ⟨c4, ?_, c2, c7, c3⟩
  rw [c5]
  exact ht

/-- Witness of C26 on the code: a fresh page, phone `0788123456`, the response
`{success: true, transactionId: "tx1", status: "PENDING", data: {}}` and 100 ticks of a
timer, had one been started. -/
theorem verifying_without_tracked_id_never_ends_witness :
    Initiating (run (mount (some "watch") {})
      [Event.setPhone "0788123456", Event.doMoMoPayment]) ∧
    (run (step (run (mount (some "watch") {})
        [Event.setPhone "0788123456", Event.doMoMoPayment])
        (Event.initFulfilled { flatInit "tx1" "PENDING" with data := some {} }))
      (repeatEvents 100 [Event.tick])).ui.step = Step.verifying ∧
    (run (step (run (mount (some "watch") {})
        [Event.setPhone "0788123456", Event.doMoMoPayment])
        (Event.initFulfilled { flatInit "tx1" "PENDING" with data := some {} }))
      (repeatEvents 100 [Event.tick])).interval = none :=
  ⟨by decide,
    (verifying_without_tracked_id_never_ends (run (mount (some "watch") {})
      [Event.setPhone "0788123456", Event.doMoMoPayment])
      { flatInit "tx1" "PENDING" with data := some {} } {} 100 (by decide) rfl rfl rfl rfl
      (by decide)).1,
    (verifying_without_tracked_id_never_ends (run (mount (some "watch") {})
      [Event.setPhone "0788123456", Event.doMoMoPayment])
      { flatInit "tx1" "PENDING" with data := some {} } {} 100 (by decide) rfl rfl rfl rfl
      (by decide)).2.2.1⟩

/-! ## Display helpers -/

theorem formatDuration_pos (n : Nat) (hn : n ≠ 0) :
    formatDuration (some n) =
      if n / 3600 > 0 then
        if (n % 3600) / 60 > 0 then
          toString (n / 3600) ++ "h : " ++ toString ((n % 3600) / 60) ++ "m : " ++
            toString (n % 60) ++ "s"
        else toString (n / 3600) ++ "h"
      else if (n % 3600) / 60 > 0 then
        if n % 60 > 0 then toString ((n % 3600) / 60) ++ "m : " ++ toString (n % 60) ++ "s"
        else toString ((n % 3600) / 60) ++ "m"
      else toString (n % 60) ++ "s" := by
  cases n with
  | zero => exact absurd rfl hn
  | succ m => rfl

/-- C28, evaluated on the code: for a duration of `h` whole hours, `h > 0`, and `c`
seconds, `c < 60`, `formatDuration` returns `<h>h`: the seconds are left out although
they need not be 0, so a duration of whole hours and the same duration plus up to 59
seconds give the same string.  The copy in FilmmakerDashboard.jsx returns the same
string as the one in Payment.jsx for every input, and both give `N/A` for 0 and for a
missing value. -/
theorem formatDuration_drops_seconds_after_whole_hours (h c : Nat) (hh : 0 < h)
    (hc : c < 60) (_hb : h * 3600 + c < 2 ^ 53) :
    formatDuration (some (h * 3600 + c)) = toString h ++ "h" ∧
    formatDuration (some (h * 3600 + c)) = formatDuration (some (h * 3600)) ∧
    (∀ x, dashboardFormatDuration x = formatDuration x) ∧
    formatDuration (some 0) = "N/A" ∧ formatDuration none = "N/A" := by
  have key : ∀ d : Nat, d < 60 → formatDuration (some (h * 3600 + d)) = toString h ++ "h" := by
    intro d hd
    have e1 : (h * 3600 + d) / 3600 = h := by omega
    have e2 : (h * 3600 + d) % 3600 / 60 = 0 := by omega
    rw [formatDuration_pos _ (by omega), e1, e2]
    simp [hh]
  refine ⟨key c hc, ?_, fun x => rfl, rfl, rfl⟩
  rw [key c hc]
  have k0 := key 0 (by decide)
  rw [Nat.add_zero] at k0
  exact k0.symm

/-- Witness of C28 on the code: 3605 seconds, one hour and five seconds, are shown as
`1h`; 3660 seconds are shown with a component that is 0. -/
theorem formatDuration_drops_seconds_after_whole_hours_witness :
    formatDuration (some 3605) = "1h" ∧ formatDuration (some 3600) = "1h" ∧
    formatDuration (some 3660) = "1h : 1m : 0s" ∧
    formatDuration (some 65) = "1m : 5s" :=
  ⟨(formatDuration_drops_seconds_after_whole_hours 1 5 (by decide) (by decide)
      (by decide)).1,
    by decide, by decide, by decide⟩

end Cinemarwa
